import Mathlib

/-!
# MultiDimFit: scan algorithms of `src/MultiDimFit.cc`

A shallow embedding of the scanning code of `MultiDimFit.cc`.

* C++ `double`/`float` values are idealised as rationals (`ℚ`); the sentinel
  `9999`, the thresholds `1.15`, `2.995`, `0.5` and the factor `0.33333333`
  are the exact decimal constants of the source.
* The statistical model, the objective `nll`, the minimizer, the chi-squared
  functions, `findCrossing` and `utils::generateCombinations` are external
  collaborators: they are the fields of `Collab`, over an abstract model
  state `σ` (the values, ranges and flags of all parameters).
* The static members written by the scan (`poiVals_`, `deltaNLL_`,
  `specifiedVals_`) and the output tree filled by `Combine::commitPoint`
  are the fields of `Scan`; `minimCalls` counts the invocations of
  `minim.minimize`.
* `unsigned int` counters are natural numbers: the grid counter `ipoint` is
  compared only while it is below `sqrn*sqrn ≤ 2^32`, so it never wraps
  before a comparison. Where the source subtracts unsigned values or
  converts a double (the point counts of the 1-D scan) the arithmetic is
  modulo `2^32`.
* A quotient by zero is 0 here, as in `ℚ`, where the C++ yields an infinity
  or a NaN; no statement below depends on the value of such a quotient.
* `pow` and `TMath::Power` with a real exponent and the trigonometric
  functions are fields of `Collab` as well, so the number of points per axis
  (`gridRoot`, `smartPoints`) is what these functions return, rounded as the
  source rounds it; the integer powers of that number (`pow(points, j-1)`,
  `pow(points, D)`) are exact. The `int` counters of the smart scan are never negative and are natural
  numbers, the signed relative index is an integer.
* `initOnce` runs over `ModelConfig`, the names, kinds and values it reads of
  the workspace; an object of the model is held by its name, and the global
  flag `withSystematics` is an argument.
-/

namespace MultiDimFit

/-! ## Configuration -/

/-- Algorithms of `enum MultiDimFit::Algo`. -/
inductive Algo where
  | None | Singles | Cross | Grid | RandomPoints | Contour2D | Stitch2D | SmartScan
deriving DecidableEq

/-- Grid types of `enum MultiDimFit::GridType`. -/
inductive GridType where
  | G1x1 | G3x3
deriving DecidableEq

/-- Exceptions thrown by the code. -/
inductive Err where
  | invalid_argument (msg : String)
  | logic_error (msg : String)
deriving DecidableEq

/-- Static configuration members of `MultiDimFit` (lines 25-48), with the
initial values of the source. -/
structure Options where
  algo : Algo := Algo.None
  gridType : GridType := GridType.G1x1
  points : Nat := 50
  firstPoint : Nat := 0
  lastPoint : Nat := 4294967295
  floatOtherPOIs : Bool := false
  nOtherFloatingPoi : Nat := 0
  fastScan : Bool := false
  loadedSnapshot : Bool := false
  hasMaxDeltaNLLForProf : Bool := false
  maxDeltaNLLForProf : ℚ := 200
  plotPower : ℚ := 1/2
  contour : ℚ := 115/100
deriving DecidableEq

/-- The part of the parsed command line (`variables_map`) that `applyOptions`
reads: the value of `algo`, `vm.count("fastScan")`, and whether
`maxDeltaNLLForProf` and `snapshotName` were left at their defaults. -/
structure VariablesMap where
  algo : String
  fastScanCount : Nat
  maxDeltaNLLForProfDefaulted : Bool
  snapshotNameDefaulted : Bool

/-- Embedding of `MultiDimFit::applyOptions` (lines 69-94). The call of
`applyOptionsBase` of the base class, which is outside the sources, is left
out. -/
def applyOptions (vm : VariablesMap) (o : Options) : Except Err Options :=
  let algo := vm.algo
  let sel : Except Err Options :=
    if algo = "none" then .ok { o with algo := Algo.None }
    else if algo = "singles" then .ok { o with algo := Algo.Singles }
    else if algo = "cross" then .ok { o with algo := Algo.Cross }
    else if algo = "grid" ∨ algo = "grid3x3" then
      let o1 := { o with algo := Algo.Grid, gridType := GridType.G1x1 }
      .ok (if algo = "grid3x3" then { o1 with gridType := GridType.G3x3 } else o1)
    else if algo = "random" then .ok { o with algo := Algo.RandomPoints }
    else if algo = "contour2d" then .ok { o with algo := Algo.Contour2D }
    else if algo = "stitch2d" then .ok { o with algo := Algo.Stitch2D }
    else if algo = "smartscan" then .ok { o with algo := Algo.SmartScan }
    else .error (Err.invalid_argument ("Unknown algorithm: " ++ algo))
  match sel with
  | .error e => .error e
  | .ok o2 =>
    .ok { o2 with
          fastScan := decide (vm.fastScanCount > 0)
          hasMaxDeltaNLLForProf := !vm.maxDeltaNLLForProfDefaulted
          loadedSnapshot := !vm.snapshotNameDefaulted }

/-! ## Collaborators and scan state -/

/-- External collaborators of the scan, over the model state `σ`. -/
structure Collab (σ : Type) where
  /-- Value of `nll.getVal()`. -/
  getVal : σ → ℚ
  /-- Value of `nll.numEvalErrors()` after `nll.clearEvalErrorLog(); nll.getVal()`. -/
  numEvalErrors : σ → Nat
  /-- Call of `minim.minimize(verbose-1)`: success flag and new model state. -/
  minimize : σ → Bool × σ
  /-- Call of `poiVars_[i]->setVal(x)`. -/
  setVal : Nat → ℚ → σ → σ
  /-- Value of `poiVars_[i]->getVal()`. -/
  getPoi : Nat → σ → ℚ
  /-- Value of `poiVars_[i]->getMin()`. -/
  getMin : Nat → σ → ℚ
  /-- Value of `poiVars_[i]->getMax()`. -/
  getMax : Nat → σ → ℚ
  /-- Call of `poiVars_[i]->setConstant(b)`. -/
  setConstant : Nat → Bool → σ → σ
  /-- Value of `poiVars_[i]->isConstant()`. -/
  isConstant : Nat → σ → Bool
  /-- Assignment `*params = snap` (also `center.writeTo(*params)`): first the
  snapshot, then the current state. -/
  assign : σ → σ → σ
  /-- Values `specifiedVars_[j]->getVal()` for all `j` (the copy loops run
  `j` over `specifiedNuis_.size()` and take the three lists of specified
  parameters to be equally long). -/
  specified : σ → List ℚ
  /-- Function `ROOT::Math::chisquared_cdf_c`. -/
  chisquared_cdf_c : ℚ → Nat → ℚ
  /-- Function `ROOT::Math::chisquared_quantile_c`. -/
  chisquared_quantile_c : ℚ → Nat → ℚ
  /-- Call `findCrossing(minimX, nll, *poiVars_[i], level, xStart, xBound)`;
  `none` is the NaN result. -/
  findCrossing : Nat → ℚ → ℚ → ℚ → σ → Option ℚ × σ
  /-- Call of `poiVars_[i]->setRange(name, lo, hi)`. -/
  setRange : Nat → String → ℚ → ℚ → σ → σ
  /-- Call of the unconstrained minimizer `minimXI` of `doContour2D`. -/
  minimizeXI : σ → Bool × σ
  /-- Function `utils::generateCombinations`. -/
  generateCombinations : List Int → List (List Int)
  /-- Value of `poiVars_[i]->getMin(name)` for a named range. -/
  getMinNamed : Nat → String → σ → ℚ
  /-- Value of `poiVars_[i]->getMax(name)` for a named range. -/
  getMaxNamed : Nat → String → σ → ℚ
  /-- Value of `std::cos(t*M_PI)`. -/
  cosPi : ℚ → ℚ
  /-- Functions `cos`, `sin`, `atan2` and `pow` of the C library. -/
  cos : ℚ → ℚ
  sin : ℚ → ℚ
  atan2 : ℚ → ℚ → ℚ
  pow : ℚ → ℚ → ℚ
  /-- Function `TMath::Power` on doubles. -/
  Power : ℚ → ℚ → ℚ

/-- One row of the output tree: the values of the branches `poiVals_`,
`deltaNLL_`, `specifiedVals_` and the quantile given to `commitPoint`. -/
structure ScanPoint where
  poiVals : List ℚ
  deltaNLL : ℚ
  quantile : ℚ
  specifiedVals : List ℚ
deriving DecidableEq

/-- Mutable state of a scan. -/
structure Scan (σ : Type) where
  /-- State of the model parameters. -/
  model : σ
  /-- Static member `poiVals_`. -/
  poiVals : List ℚ
  /-- Static member `deltaNLL_`. -/
  deltaNLL : ℚ
  /-- Static member `specifiedVals_`. -/
  specifiedVals : List ℚ
  /-- Rows written by `Combine::commitPoint`, oldest first. -/
  committed : List ScanPoint
  /-- Number of calls of `minim.minimize` so far. -/
  minimCalls : Nat
  /-- Calls of `setRange(name, lo, hi)` so far: axis, name, lo, hi. -/
  ranges : List (Nat × String × ℚ × ℚ)

variable {σ : Type}

/-- Call `Combine::commitPoint(true, quantile)`: one row is appended. -/
def commitPoint (quantile : ℚ) (st : Scan σ) : Scan σ :=
  { st with committed := st.committed ++ [⟨st.poiVals, st.deltaNLL, quantile, st.specifiedVals⟩] }

/-- Loop `for j < specifiedNuis_.size(): specifiedVals_[j] = specifiedVars_[j]->getVal()`. -/
def copySpecified (env : Collab σ) (st : Scan σ) : Scan σ :=
  { st with specifiedVals := env.specified st.model }

/-- Call `minim.minimize(verbose-1)`. -/
def runMinimize (env : Collab σ) (st : Scan σ) : Bool × Scan σ :=
  let r := env.minimize st.model
  (r.1, { st with model := r.2, minimCalls := st.minimCalls + 1 })

/-- Statements `poiVals_[i] = x; poiVars_[i]->setVal(x);`. -/
def setPoi (env : Collab σ) (i : Nat) (x : ℚ) (st : Scan σ) : Scan σ :=
  { st with poiVals := st.poiVals.set i x, model := env.setVal i x st.model }

/-- Statement `deltaNLL_ = 9999; Combine::commitPoint(true, 0)` after the
copy of the specified parameters. -/
def commitInvalid (env : Collab σ) (st : Scan σ) : Scan σ :=
  commitPoint 0 { copySpecified env st with deltaNLL := 9999 }

/-- Block `deltaNLL_ = nll.getVal() - nll0; qN = 2*deltaNLL_;
prob = chisquared_cdf_c(qN, n+nOtherFloatingPoi_); copy; commitPoint(true, prob)`. -/
def commitProb (env : Collab σ) (o : Options) (nll0 : ℚ) (n : Nat) (st : Scan σ) : Scan σ :=
  let st1 := { st with deltaNLL := env.getVal st.model - nll0 }
  let qN := 2 * st1.deltaNLL
  let prob := env.chisquared_cdf_c qN (n + o.nOtherFloatingPoi)
  commitPoint prob (copySpecified env st1)

/-- Block `ok = fastScan_ || (hasMaxDeltaNLLForProf_ && (nll.getVal() - nll0) >
maxDeltaNLLForProf_) ? true : minim.minimize(verbose-1); if (ok) { ... commit ... }`. -/
def profileAndCommit (env : Collab σ) (o : Options) (nll0 : ℚ) (n : Nat) (st : Scan σ) : Scan σ :=
  let skipme := o.hasMaxDeltaNLLForProf && decide (env.getVal st.model - nll0 > o.maxDeltaNLLForProf)
  let r := if o.fastScan || skipme then (true, st) else runMinimize env st
  if r.1 then commitProb env o nll0 n r.2 else r.2

/-! ## Machine integers -/

/-- Modulus of `unsigned int` arithmetic. -/
def uintMod : Nat := 4294967296

/-- Difference `a - b` of two `unsigned int`. -/
def usub (a b : Nat) : Nat := (a + uintMod - b % uintMod) % uintMod

/-- Conversion `(int) x` of a double: truncation towards zero. -/
def toInt (x : ℚ) : Int := if 0 ≤ x then ⌊x⌋ else ⌈x⌉

/-- Conversion `(unsigned int) x` of a double: truncation towards zero for
a value in range. The conversion of a value out of range is undefined in
C++; here it is the truncated value modulo `2^32`, so `-2.5` gives
`4294967294`. -/
def toUInt (x : ℚ) : Nat := Int.toNat (toInt x % (uintMod : Int))

/-! ## Grid scan, two parameters of interest -/

/-- Smallest `s` at or above the candidate with `B ≤ s*s`, searched upwards. -/
def ceilSqrtFrom (B : Nat) : Nat → Nat → Nat
  | 0, s => s
  | fuel + 1, s => if B ≤ s * s then s else ceilSqrtFrom B fuel (s + 1)

/-- Value of `ceil(sqrt(double(B)))` for an unsigned `B`. -/
def ceilSqrt (B : Nat) : Nat := ceilSqrtFrom B B 0

/-- Condition `std::min(fabs(deltaNLL_ - 1.15), fabs(deltaNLL_ - 2.995)) < 0.5`. -/
def nearThreshold (d : ℚ) : Bool :=
  decide (min |d - 115/100| |d - 2995/1000| < 1/2)

/-- Offsets `-1, 0, +1` of the 3x3 loops. -/
def offsets3 : List Int := [-1, 0, 1]

/-- Loops `for (i2 = -1; i2 <= +1; ++i2) for (j2 = -1; j2 <= +1; ++j2)
{ if (i2 == 0 && j2 == 0) continue; body }` of the 3x3 mode. -/
def loop3x3 (body : Int → Int → Scan σ → Scan σ) (st : Scan σ) : Scan σ :=
  offsets3.foldl (fun st1 i2 =>
    offsets3.foldl (fun st2 j2 =>
      if i2 = 0 ∧ j2 = 0 then st2 else body i2 j2 st2) st1) st

/-- Body of the 3x3 loops of the invalid-point branch (lines 526-531). -/
def invalidNeighbour (env : Collab σ) (x y deltaX deltaY : ℚ) (i2 j2 : Int)
    (st : Scan σ) : Scan σ :=
  let st1 := { st with poiVals := st.poiVals.set 0 (x + 33333333/100000000 * i2 * deltaX) }
  let st2 := { st1 with poiVals := st1.poiVals.set 1 (y + 33333333/100000000 * j2 * deltaY) }
  commitInvalid env st2

/-- Body of the 3x3 loops of a valid lattice point (lines 556-579). -/
def gridNeighbour (env : Collab σ) (o : Options) (nll0 : ℚ) (n : Nat) (forceProfile : Bool)
    (center : σ) (x0 y0 deltaX deltaY : ℚ) (i2 j2 : Int) (st : Scan σ) : Scan σ :=
  let st1 := { st with model := env.assign center st.model }
  let x := x0 + 33333333/100000000 * i2 * deltaX
  let y := y0 + 33333333/100000000 * j2 * deltaY
  let st2 := setPoi env 1 y (setPoi env 0 x st1)
  if env.numEvalErrors st2.model > 0 then commitInvalid env st2
  else
    let st3 := { st2 with deltaNLL := env.getVal st2.model - nll0 }
    let st4 :=
      if forceProfile || (!o.fastScan && nearThreshold st3.deltaNLL) then
        let r := runMinimize env st3
        { r.2 with deltaNLL := env.getVal r.2.model - nll0 }
      else st3
    let qN := 2 * st4.deltaNLL
    let prob := env.chisquared_cdf_c qN (n + o.nOtherFloatingPoi)
    commitPoint prob (copySpecified env st4)

/-- Block `if (gridType_ == G3x3) { ... }` of a valid lattice point
(lines 549-582). -/
def gridNeighbours (env : Collab σ) (o : Options) (nll0 : ℚ) (n : Nat)
    (x0 y0 deltaX deltaY : ℚ) (st : Scan σ) : Scan σ :=
  let forceProfile := !o.fastScan && nearThreshold st.deltaNLL
  let center := st.model
  loop3x3 (gridNeighbour env o nll0 n forceProfile center x0 y0 deltaX deltaY) st

/-- Coordinate `lo + (k+0.5)*delta` of the centre of cell `k` (lines 506-507). -/
def cellCentre (lo delta : ℚ) (k : Nat) : ℚ := lo + ((k : ℚ) + 1/2) * delta

/-- Model state in which the lattice point `(x, y)` is evaluated (lines
505-515): the snapshot is restored over the current state `cur` and the two
parameters of interest are set. -/
def pointState (env : Collab σ) (snap : σ) (x y : ℚ) (cur : σ) : σ :=
  env.setVal 1 y (env.setVal 0 x (env.assign snap cur))

/-- Body of the inner loop of the `n == 2` branch for an in-range point
(lines 505-582). -/
def gridPoint2 (env : Collab σ) (o : Options) (nll0 : ℚ) (snap : σ)
    (pmin0 pmin1 deltaX deltaY : ℚ) (i j : Nat) (st : Scan σ) : Scan σ :=
  let x := cellCentre pmin0 deltaX i
  let y := cellCentre pmin1 deltaY j
  let st3 := { st with poiVals := (st.poiVals.set 0 x).set 1 y,
                       model := pointState env snap x y st.model }
  if env.numEvalErrors st3.model > 0 then
    let st4 := commitInvalid env st3
    if o.gridType = GridType.G3x3 then loop3x3 (invalidNeighbour env x y deltaX deltaY) st4
    else st4
  else
    let st4 := profileAndCommit env o nll0 2 st3
    if o.gridType = GridType.G3x3 then gridNeighbours env o nll0 2 x y deltaX deltaY st4 else st4

/-- Inner loop `for (j = 0; j < sqrn; ++j, ++ipoint)`, with `rem = sqrn - j`
iterations left: `continue` below `firstPoint_` (the increments still run),
`break` above `lastPoint_` (they do not). -/
def gridRow2 (o : Options) (body : Nat → Nat → Scan σ → Scan σ) (i : Nat) :
    Nat → Nat → Nat → Scan σ → Nat × Scan σ
  | 0, _, ipoint, st => (ipoint, st)
  | rem + 1, j, ipoint, st =>
    if ipoint < o.firstPoint then gridRow2 o body i rem (j + 1) (ipoint + 1) st
    else if ipoint > o.lastPoint then (ipoint, st)
    else gridRow2 o body i rem (j + 1) (ipoint + 1) (body i j st)

/-- Outer loop `for (i = 0; i < sqrn; ++i)`, with `rem = sqrn - i` rows left. -/
def gridRows2 (o : Options) (body : Nat → Nat → Scan σ → Scan σ) (sqrn : Nat) :
    Nat → Nat → Nat → Scan σ → Nat × Scan σ
  | 0, _, ipoint, st => (ipoint, st)
  | rem + 1, i, ipoint, st =>
    let r := gridRow2 o body i sqrn 0 ipoint st
    gridRows2 o body sqrn rem (i + 1) r.1 r.2

/-- Branch `n == 2` of `doGrid` (lines 495-585). -/
def doGrid2 (env : Collab σ) (o : Options) (nll0 : ℚ) (snap : σ)
    (pmin pmax : List ℚ) (st : Scan σ) : Scan σ :=
  let sqrn := ceilSqrt o.points
  let deltaX := (pmax.getD 0 0 - pmin.getD 0 0) / sqrn
  let deltaY := (pmax.getD 1 0 - pmin.getD 1 0) / sqrn
  (gridRows2 o (gridPoint2 env o nll0 snap (pmin.getD 0 0) (pmin.getD 1 0) deltaX deltaY)
    sqrn sqrn 0 0 st).2

/-! ## Grid scan, more than two parameters of interest -/

/-- Smallest `r` at or above the candidate with `B ≤ r^n`, searched upwards. -/
def ceilRootFrom (n B : Nat) : Nat → Nat → Nat
  | 0, r => r
  | fuel + 1, r => if B ≤ r ^ n then r else ceilRootFrom n B fuel (r + 1)

/-- Least `r` with `B ≤ r^n`: the ceiling of the `n`-th root of `B` in
exact arithmetic. The concrete models below take it for their
`TMath::Power`; the scan itself uses `gridRoot`. -/
def ceilRoot (n B : Nat) : Nat := ceilRootFrom n B B 0

/-- Value `rootn` of line 588,
`ceil(TMath::Power(double(points_), double(1./n)))` stored in an
`unsigned int`: the power is the double that `TMath::Power` returns. -/
def gridRoot (env : Collab σ) (n B : Nat) : Nat :=
  toUInt ((⌈env.Power (B : ℚ) (1 / (n : ℚ))⌉ : Int) : ℚ)

/-- Loop `for (poi_i = 0; poi_i < n; poi_i++)` of lines 615-624, from index
`k` on, with `rem = n - k` iterations left: every parameter of interest is
set to the centre of its cell `ip`. -/
def setCombination (env : Collab σ) (pmin pmax : List ℚ) (rootn : Nat) (perm : List Int) :
    Nat → Nat → Scan σ → Scan σ
  | 0, _, st => st
  | rem + 1, k, st =>
    let ip := perm.getD k 0
    let deltaXi := (pmax.getD k 0 - pmin.getD k 0) / rootn
    let xi := pmin.getD k 0 + deltaXi * ((ip : ℚ) + 1/2)
    setCombination env pmin pmax rootn perm rem (k + 1) (setPoi env k xi st)

/-- Scan state in which a combination is evaluated (lines 609-624): the
snapshot is restored and every parameter of interest is set. -/
def combinationScan (env : Collab σ) (snap : σ) (n : Nat) (pmin pmax : List ℚ) (rootn : Nat)
    (perm : List Int) (st : Scan σ) : Scan σ :=
  setCombination env pmin pmax rootn perm n 0 { st with model := env.assign snap st.model }

/-- Body of the loop over the combinations for an in-range counter
(lines 609-647). The flag tells whether the iteration reached `ipoint++`
(it does not after the `continue` of the invalid-point branch). -/
def gridPointN (env : Collab σ) (o : Options) (nll0 : ℚ) (snap : σ) (n : Nat)
    (pmin pmax : List ℚ) (rootn : Nat) (perm : List Int) (st : Scan σ) : Bool × Scan σ :=
  let st2 := combinationScan env snap n pmin pmax rootn perm st
  if env.numEvalErrors st2.model > 0 then (false, commitInvalid env st2)
  else (true, profileAndCommit env o nll0 n st2)

/-- Loop `for (; perm_it != permutations.end(); perm_it++)` of lines 605-648:
`continue` below `firstPoint_`, `break` above `lastPoint_`; the counter
`ipoint` is incremented only at the end of the body. -/
def gridLoopN (o : Options) (body : List Int → Scan σ → Bool × Scan σ) :
    List (List Int) → Nat → Scan σ → Scan σ
  | [], _, st => st
  | perm :: rest, ipoint, st =>
    if ipoint < o.firstPoint then gridLoopN o body rest ipoint st
    else if ipoint > o.lastPoint then st
    else
      let r := body perm st
      gridLoopN o body rest (if r.1 then ipoint + 1 else ipoint) r.2

/-- Branch `n > 2` of `doGrid` (lines 586-649). -/
def doGridN (env : Collab σ) (o : Options) (nll0 : ℚ) (snap : σ) (n : Nat)
    (pmin pmax : List ℚ) (st : Scan σ) : Scan σ :=
  let rootn := gridRoot env n o.points
  let axis_points : List Int := List.replicate n (rootn : Int)
  let permutations := env.generateCombinations axis_points
  gridLoopN o (gridPointN env o nll0 snap n pmin pmax rootn) permutations 0 st

/-! ## Grid scan, one parameter of interest -/

/-- Loop `for (i = i0; i < hi; ++i) { if (i < firstPoint_) continue;
if (i > lastPoint_) break; body }`, with `rem = hi - i` iterations left. -/
def rangeLoop (o : Options) (body : Nat → Scan σ → Scan σ) :
    Nat → Nat → Scan σ → Scan σ
  | 0, _, st => st
  | rem + 1, i, st =>
    if i < o.firstPoint then rangeLoop o body rem (i + 1) st
    else if i > o.lastPoint then st
    else rangeLoop o body rem (i + 1) (body i st)

/-- Body of the sweeps of the 1-D scan: restore the snapshot, set the
parameter to `x`, profile and commit. -/
def sweepPoint (env : Collab σ) (o : Options) (nll0 : ℚ) (snap : σ) (x : ℚ)
    (st : Scan σ) : Scan σ :=
  let st1 := { st with model := env.assign snap st.model }
  profileAndCommit env o nll0 1 (setPoi env 0 x st1)

/-- Local variables of the 1-D minimum search (lines 287-290). -/
structure Bracket where
  a : ℚ
  b : ℚ
  x1 : ℚ
  x2 : ℚ
  y1 : ℚ
  y2 : ℚ
  count : Nat
deriving DecidableEq

/-- One probe of the minimum search (lines 303-322 and 324-342): restore the
snapshot, set the parameter, minimize, read the objective, then the usual
profile-and-commit block. Returns the objective read after the first
minimization. -/
def searchProbe (env : Collab σ) (o : Options) (nll0 : ℚ) (snap : σ) (x : ℚ)
    (st : Scan σ) : ℚ × Scan σ :=
  let st1 := { st with model := env.assign snap st.model }
  let st2 := setPoi env 0 x st1
  let r := runMinimize env st2
  let y := env.getVal r.2.model
  (y, profileAndCommit env o nll0 1 r.2)

/-- Loop of the minimum search (lines 295-346), with `rem = points_/2 - i`
iterations left. -/
def searchLoop (env : Collab σ) (o : Options) (nll0 : ℚ) (snap : σ) (precision : ℚ) :
    Nat → Nat → Bracket → Scan σ → Bracket × Scan σ
  | 0, _, br, st => (br, st)
  | rem + 1, i, br, st =>
    if br.b - br.a < precision then (br, st)
    else if i < o.firstPoint then searchLoop env o nll0 snap precision rem (i + 1) br st
    else if i > o.lastPoint then (br, st)
    else
      let d := (br.b - br.a) / 3
      let x1 := br.a + d
      let x2 := br.b - d
      let r1 := searchProbe env o nll0 snap x1 st
      let r2 := searchProbe env o nll0 snap x2 r1.2
      let br1 := { br with x1 := x1, x2 := x2, y1 := r1.1, y2 := r2.1,
                           count := (br.count + 2) % uintMod }
      let br2 := if r1.1 < r2.1 then { br1 with b := x2 } else { br1 with a := x1 }
      searchLoop env o nll0 snap precision rem (i + 1) br2 r2.2

/-- Branch `plotPower_ > 1` of the 1-D scan (lines 286-409). -/
def doGrid1Search (env : Collab σ) (o : Options) (nll0 : ℚ) (snap : σ)
    (pmin0 pmax0 : ℚ) (st : Scan σ) : Scan σ :=
  let precision := (pmax0 - pmin0) / o.points
  let r := searchLoop env o nll0 snap precision (o.points / 2) 0
    ⟨pmin0, pmax0, 0, 0, 0, 0, 1⟩ st
  let count := usub r.1.count 2
  let xmin := (r.1.x1 + r.1.x2) / 2
  let points_left := toUInt (((usub o.points count : Nat) : ℚ) * xmin / (pmax0 - pmin0))
  let points_right := usub (usub o.points count) points_left
  let st1 := rangeLoop o (fun i =>
      sweepPoint env o nll0 snap
        (xmin + (pmax0 - xmin) * env.pow ((i : ℚ) / (points_right : ℚ)) o.plotPower))
      ((points_right + 1) % uintMod - 1) 1 r.2
  rangeLoop o (fun i =>
      sweepPoint env o nll0 snap
        (xmin + (pmin0 - xmin) * env.pow ((i : ℚ) / (points_left : ℚ)) o.plotPower))
      (usub points_left 1 - 1) 1 st1

/-- Branch `plotPower_ < 1` of the 1-D scan (lines 411-469). -/
def doGrid1Bounds (env : Collab σ) (o : Options) (nll0 : ℚ) (snap : σ)
    (pmin0 pmax0 : ℚ) (st : Scan σ) : Scan σ :=
  let xmin_default := env.getPoi 0 st.model
  let points_left := toUInt ((o.points : ℚ) * xmin_default / (pmax0 - pmin0))
  let points_right := usub o.points points_left
  let st1 := rangeLoop o (fun i =>
      sweepPoint env o nll0 snap
        (pmax0 + (xmin_default - pmax0) * env.pow ((i : ℚ) / (points_right : ℚ)) o.plotPower))
      ((points_right + 1) % uintMod - 1) 1 st
  rangeLoop o (fun i =>
      sweepPoint env o nll0 snap
        (pmin0 + (xmin_default - pmin0) * env.pow ((i : ℚ) / (points_left : ℚ)) o.plotPower))
      ((points_left + 1) % uintMod - 1) 1 st1

/-- Branch `plotPower_ == 1` of the 1-D scan (lines 470-494). -/
def doGrid1Linear (env : Collab σ) (o : Options) (nll0 : ℚ) (snap : σ)
    (pmin0 pmax0 : ℚ) (st : Scan σ) : Scan σ :=
  rangeLoop o (fun i =>
      sweepPoint env o nll0 snap (pmin0 + ((i : ℚ) + 1/2) * (pmax0 - pmin0) / o.points))
    o.points 0 st

/-- Branch `n == 1` of `doGrid` (lines 285-494). -/
def doGrid1 (env : Collab σ) (o : Options) (nll0 : ℚ) (snap : σ)
    (pmin pmax : List ℚ) (st : Scan σ) : Scan σ :=
  if o.plotPower > 1 then doGrid1Search env o nll0 snap (pmin.getD 0 0) (pmax.getD 0 0) st
  else if o.plotPower < 1 then doGrid1Bounds env o nll0 snap (pmin.getD 0 0) (pmax.getD 0 0) st
  else doGrid1Linear env o nll0 snap (pmin.getD 0 0) (pmax.getD 0 0) st

/-! ## The grid scan -/

/-- Loop of lines 273-278, from index `k` on, with `rem = n - k` iterations
left: `pmin[k]` and `pmax[k]` are read and `poiVars_[k]` is made constant
(the value `p0[k]` read in the same loop is not used by the scan). -/
def fixPois (env : Collab σ) : Nat → Nat → List ℚ × List ℚ × σ → List ℚ × List ℚ × σ
  | 0, _, acc => acc
  | rem + 1, k, acc =>
    fixPois env rem (k + 1)
      (acc.1 ++ [env.getMin k acc.2.2], acc.2.1 ++ [env.getMax k acc.2.2],
        env.setConstant k true acc.2.2)

/-- Vector `pmin` filled by the loop of lines 273-278; the number of
parameters of interest is `poi_.size()`, the common length of `poi_`,
`poiVars_` and `poiVals_`. -/
def gridPmin (env : Collab σ) (st : Scan σ) : List ℚ :=
  (fixPois env st.poiVals.length 0 ([], [], st.model)).1

/-- Vector `pmax` filled by the loop of lines 273-278. -/
def gridPmax (env : Collab σ) (st : Scan σ) : List ℚ :=
  (fixPois env st.poiVals.length 0 ([], [], st.model)).2.1

/-- Snapshot `snap` of the parameters taken at line 283, after the
parameters of interest have been made constant. -/
def gridSnapshot (env : Collab σ) (st : Scan σ) : σ :=
  (fixPois env st.poiVals.length 0 ([], [], st.model)).2.2

/-- Embedding of `MultiDimFit::doGrid` (lines 266-650). -/
def doGrid (env : Collab σ) (o : Options) (st : Scan σ) : Scan σ :=
  let n := st.poiVals.length
  let nll0 := env.getVal st.model
  let pmin := gridPmin env st
  let pmax := gridPmax env st
  let snap := gridSnapshot env st
  let st1 := { st with model := snap }
  if n = 1 then doGrid1 env o nll0 snap pmin pmax st1
  else if n = 2 then doGrid2 env o nll0 snap pmin pmax st1
  else doGridN env o nll0 snap n pmin pmax st1

/-! ## Confidence box -/

/-- Loop `for (j = 0; j < n; ++j) poiVars_[j]->setVal(p0[j])` from index `k`
on, with `rem = n - k` iterations left. -/
def resetPois (env : Collab σ) (p0 : List ℚ) : Nat → Nat → σ → σ
  | 0, _, s => s
  | rem + 1, k, s => resetPois env p0 rem (k + 1) (env.setVal k (p0.getD k 0) s)

/-- Loop `for (i = 0; i < n; ++i) { p0[i] = poiVars_[i]->getVal();
poiVars_[i]->setConstant(false); }` of lines 915-918. -/
def freePois (env : Collab σ) : Nat → Nat → List ℚ × σ → List ℚ × σ
  | 0, _, acc => acc
  | rem + 1, k, acc =>
    freePois env rem (k + 1) (acc.1 ++ [env.getPoi k acc.2], env.setConstant k false acc.2)

/-- Loop `for (j = 0; j < n; ++j) poiVals_[j] = poiVars_[j]->getVal()`. -/
def readPois (env : Collab σ) (n : Nat) (st : Scan σ) : Scan σ :=
  { st with poiVals := (List.range n).map (fun j => env.getPoi j st.model) }

/-- One side of one axis of `doBox` (lines 927-939 and 941-953): the
parameters are reset to `p0`, the crossing is searched towards `limit`
(evaluated before the call), and a point is committed. Returns the edge. -/
def boxSide (env : Collab σ) (o : Options) (cl nll0 threshold : ℚ) (n : Nat)
    (p0 : List ℚ) (commitPoints : Bool) (i : Nat) (limit : σ → ℚ) (st : Scan σ) :
    ℚ × Scan σ :=
  let s1 := resetPois env p0 n 0 st.model
  let r := env.findCrossing i threshold (p0.getD i 0) (limit s1) s1
  let st1 := { st with model := r.2 }
  match r.1 with
  | some edge =>
    let st2 := readPois env n st1
    (edge, if commitPoints then commitPoint (1 - cl) st2 else st2)
  | none =>
    let edge := limit st1.model
    let st2 := readPois env n st1
    let prob := env.chisquared_cdf_c (2 * (env.getVal st2.model - nll0)) (n + o.nOtherFloatingPoi)
    (edge, if commitPoints then commitPoint prob st2 else st2)

/-- Body of the loop over the axes of `doBox` (lines 922-956). -/
def boxAxis (env : Collab σ) (o : Options) (cl nll0 threshold : ℚ) (n : Nat)
    (p0 : List ℚ) (name : String) (commitPoints : Bool) (i : Nat) (st : Scan σ) : Scan σ :=
  let st1 := { st with model := env.setConstant i true st.model }
  let lo := boxSide env o cl nll0 threshold n p0 commitPoints i (env.getMin i) st1
  let hi := boxSide env o cl nll0 threshold n p0 commitPoints i (env.getMax i) lo.2
  let st2 := { hi.2 with model := env.setRange i name lo.1 hi.1 hi.2.model,
                         ranges := hi.2.ranges ++ [(i, name, lo.1, hi.1)] }
  { st2 with model := env.setConstant i false st2.model }

/-- Loop `for (i = 0; i < n; ++i)` of `doBox`, with `rem = n - i` axes left. -/
def boxLoop (body : Nat → Scan σ → Scan σ) : Nat → Nat → Scan σ → Scan σ
  | 0, _, st => st
  | rem + 1, i, st => boxLoop body rem (i + 1) (body i st)

/-- Embedding of `MultiDimFit::doBox` (lines 910-959). -/
def doBox (env : Collab σ) (o : Options) (cl : ℚ) (name : String) (commitPoints : Bool)
    (st : Scan σ) : Scan σ :=
  let n := st.poiVals.length
  let nll0 := env.getVal st.model
  let threshold := nll0 + 1/2 * env.chisquared_quantile_c (1 - cl) (n + o.nOtherFloatingPoi)
  let freed := freePois env n 0 ([], st.model)
  let p0 := freed.1
  let st1 := { st with model := freed.2 }
  boxLoop (boxAxis env o cl nll0 threshold n p0 name commitPoints) n 0 st1

/-! ## Contour by relative ranges -/

/-- One crossing of `doContour2D` (lines 697-701 and 703-707): search from
`xc` towards `bound`, and commit the crossing when one is found. -/
def contourSide (env : Collab σ) (cl threshold xc bound : ℚ) (st : Scan σ) : Scan σ :=
  let r := env.findCrossing 0 threshold xc bound st.model
  let st1 := { st with model := r.2 }
  match r.1 with
  | some xe =>
    commitPoint (1 - cl)
      { st1 with poiVals := (st1.poiVals.set 0 xe).set 1 (env.getPoi 1 st1.model) }
  | none => st1

/-- Body of the loop of `doContour2D` for an in-range `j` (lines 682-707). -/
def contourPoint (env : Collab σ) (o : Options) (cl threshold x0 xMin xMax yMin yMax : ℚ)
    (j : Nat) (st : Scan σ) : Scan σ :=
  let yc := 1/2 * (yMax + yMin)
  let yr := 1/2 * (yMax - yMin)
  let s1 := env.setVal 1 (yc + yr * env.cosPi ((j : ℚ) / (o.points : ℚ))) st.model
  let s2 := env.setVal 0 x0 (env.setConstant 0 false s1)
  let r := env.minimizeXI s2
  let xc := env.getPoi 0 r.2
  let s3 := env.setConstant 0 true r.2
  let st1 := contourSide env cl threshold xc xMax { st with model := s3 }
  contourSide env cl threshold xc xMin st1

/-- Embedding of `MultiDimFit::doContour2D` (lines 662-711). The confidence
level `cl` is a global of the driver and the default value of the last
argument of `doBox` is declared in the header; both are outside the sources
and are the arguments `cl` and `boxCommits`. -/
def doContour2D (env : Collab σ) (o : Options) (cl : ℚ) (boxCommits : Bool) (st : Scan σ) :
    Except Err (Scan σ) :=
  if st.poiVals.length ≠ 2 then
    .error (Err.logic_error "Contour2D works only in 2 dimensions")
  else
    let x0 := st.poiVals.getD 0 0
    let threshold := env.getVal st.model
      + 1/2 * env.chisquared_quantile_c (1 - cl) (2 + o.nOtherFloatingPoi)
    let st1 := doBox env o cl "box" boxCommits st
    let xMin := env.getMinNamed 0 "box" st1.model
    let xMax := env.getMaxNamed 0 "box" st1.model
    let yMin := env.getMinNamed 1 "box" st1.model
    let yMax := env.getMaxNamed 1 "box" st1.model
    let st2 := { st1 with model := env.setConstant 1 true st1.model }
    .ok (rangeLoop o (contourPoint env o cl threshold x0 xMin xMax yMin yMax)
      (o.points + 1) 0 st2)

/-! ## Marching contour -/

/-- Constant `pi = 3.14159` of `doStitch2D`. -/
def stitchPi : ℚ := 314159/100000

/-- Loop `while (r*cos > pmin[0] && r*sin > pmin[1] && r*cos < pmax[0] &&
r*sin < pmax[1]) r += step` (line 750); `none` when the fuel runs out. -/
def outwardSearch (c s pmin0 pmin1 pmax0 pmax1 step : ℚ) : Nat → ℚ → Option ℚ
  | 0, _ => none
  | fuel + 1, r =>
    if r * c > pmin0 ∧ r * s > pmin1 ∧ r * c < pmax0 ∧ r * s < pmax1 then
      outwardSearch c s pmin0 pmin1 pmax0 pmax1 step fuel (r + step)
    else some r

/-- Radii and levels of the bisection of `doStitch2D`. -/
structure Radii where
  rmin : ℚ
  rmax : ℚ
  l1 : ℚ
  l2 : ℚ
  enough : Nat
deriving DecidableEq

/-- Loop `while ((rmax-rmin) > step)` of lines 777-809, which leaves by
`break` once `enough > points_/sectors`; `rem` bounds the iterations. -/
def bisectLoop (env : Collab σ) (o : Options) (nll0 x0 y0 c s step : ℚ) (sectors : Nat) :
    Nat → Radii → Scan σ → Radii × Scan σ
  | 0, rd, st => (rd, st)
  | rem + 1, rd, st =>
    if rd.rmax - rd.rmin > step then
      let x := x0 + (rd.rmax + rd.rmin) * c / 2
      let y := y0 + (rd.rmax + rd.rmin) * s / 2
      let st1 := profileAndCommit env o nll0 2 (setPoi env 1 y (setPoi env 0 x st))
      let rd1 :=
        if st1.deltaNLL - o.contour < 0 then
          { rd with rmin := (rd.rmax + rd.rmin) / 2, l1 := st1.deltaNLL - o.contour }
        else
          { rd with rmax := (rd.rmax + rd.rmin) / 2, l2 := st1.deltaNLL - o.contour }
      let rd2 := { rd1 with enough := rd1.enough + 1 }
      if rd2.enough > o.points / sectors then (rd2, st1)
      else bisectLoop env o nll0 x0 y0 c s step sectors rem rd2 st1
    else (rd, st)

/-- Loop `while (theta < theta_max)` of lines 830-895; `none` when the fuel
runs out. The counter `cost1` is only printed and is left out. -/
def marchLoop (env : Collab σ) (o : Options) (nll0 x0 y0 l alpha theta_max : ℚ) :
    Nat → ℚ → ℚ → ℚ → ℚ → Scan σ → Option (Scan σ)
  | 0, _, _, _, _, _ => none
  | fuel + 1, x, y, theta, theta_old, st =>
    if theta < theta_max then
      let t0 := env.atan2 (y - y0) (x - x0)
      let th := if t0 < 0 then t0 + 2 * stitchPi else t0
      let x1 := x - l * env.cos (th - alpha)
      let y1 := y - l * env.sin (th - alpha)
      let st1 := profileAndCommit env o nll0 2 (setPoi env 1 y1 (setPoi env 0 x1 st))
      let z1 := st1.deltaNLL - o.contour
      let x2 := x + l * env.cos (th + alpha)
      let y2 := y + l * env.sin (th + alpha)
      let st2 := profileAndCommit env o nll0 2 (setPoi env 1 y2 (setPoi env 0 x2 st1))
      let z2 := st2.deltaNLL - o.contour
      let X := x1 + (x2 - x1) * z1 / (z1 - z2)
      let Y := y1 + (y2 - y1) * z1 / (z1 - z2)
      if th > theta_old then
        let st3 := { setPoi env 1 Y (setPoi env 0 X st2) with deltaNLL := o.contour }
        let qN := 2 * st3.deltaNLL
        let prob := env.chisquared_cdf_c qN (2 + o.nOtherFloatingPoi)
        marchLoop env o nll0 x0 y0 l alpha theta_max fuel X Y th th
          (commitPoint prob (copySpecified env st3))
      else some st2
    else some st

/-- Body of the loop over the sectors of `doStitch2D` (lines 743-896). -/
def stitchSector (env : Collab σ) (o : Options) (nll0 x0 y0 step : ℚ)
    (pmin pmax : List ℚ) (sectors fuel u : Nat) (st : Scan σ) : Option (Scan σ) :=
  let theta_min := (u : ℚ) * 2 * stitchPi / sectors
  let theta_max := ((u : ℚ) + 1) * 2 * stitchPi / sectors
  let c := env.cos theta_min
  let s := env.sin theta_min
  match outwardSearch c s (pmin.getD 0 0) (pmin.getD 1 0) (pmax.getD 0 0) (pmax.getD 1 0)
      step fuel step with
  | none => none
  | some rmax =>
    let st1 := profileAndCommit env o nll0 2
      (setPoi env 1 (y0 + rmax * s) (setPoi env 0 (x0 + rmax * c) st))
    let rd0 : Radii := ⟨step, rmax, -o.contour, st1.deltaNLL - o.contour, 0⟩
    let r := bisectLoop env o nll0 x0 y0 c s step sectors (o.points / sectors + 1) rd0 st1
    let x_start := x0 + (r.1.rmax + r.1.rmin) * c / 2
    let y_start := y0 + (r.1.rmax + r.1.rmin) * s / 2
    let l := 2828427/1000000 * stitchPi * (r.1.rmax + r.1.rmin) / o.points
    let alpha := stitchPi / 4
    marchLoop env o nll0 x0 y0 l alpha theta_max fuel x_start y_start (-99999) (-99999) r.2

/-- Loop `for (u = 0; u < sectors; u++)`, with `rem = sectors - u` left. -/
def sectorLoop (body : Nat → Scan σ → Option (Scan σ)) : Nat → Nat → Scan σ → Option (Scan σ)
  | 0, _, st => some st
  | rem + 1, u, st =>
    match body u st with
    | none => none
    | some st1 => sectorLoop body rem (u + 1) st1

/-- Embedding of `MultiDimFit::doStitch2D` (lines 716-905). The two
unbounded `while` loops of a sector run on `fuel`: the result is `none` when
it runs out. With a number of parameters other than 2 the function prints
a message and returns. -/
def doStitch2D (env : Collab σ) (o : Options) (fuel : Nat) (st : Scan σ) :
    Option (Scan σ) :=
  let n := st.poiVals.length
  let sectors := 4
  if n = 2 then
    let nll0 := env.getVal st.model
    let fixed := fixPois env n 0 ([], [], st.model)
    let pmin := fixed.1
    let pmax := fixed.2.1
    let st1 := { st with model := fixed.2.2 }
    let step := env.pow ((pmax.getD 0 0 - pmin.getD 0 0) * (pmax.getD 1 0 - pmin.getD 1 0)
      / o.points) (1/2)
    let x0 := env.getPoi 0 st1.model
    let y0 := env.getPoi 1 st1.model
    sectorLoop (stitchSector env o nll0 x0 y0 step pmin pmax sectors fuel) sectors 0 st1
  else some st

/-! ## Point placement -/

/-- Placement anchored at the origin, `origin + (bound - origin)*pow(t, power)`
with `t` the relative index over the side count (lines 364, 389, 1024, 1030). -/
def originAnchored (env : Collab σ) (power origin bound t : ℚ) : ℚ :=
  origin + (bound - origin) * env.pow t power

/-- Placement anchored at the bound, `bound + (origin - bound)*pow(t, power)`
with `t` the relative index over the side count (lines 421, 446, 1025, 1031). -/
def boundAnchored (env : Collab σ) (power origin bound t : ℚ) : ℚ :=
  bound + (origin - bound) * env.pow t power

/-- Values `points_left` and `points_right` of the 1-D scan for `N` points
to distribute around `origin` (lines 357-358 with `N = points_ - count`,
lines 414-415 with `N = points_`). -/
def gridSidePoints (N : Nat) (origin pmin0 pmax0 : ℚ) : Nat × Nat :=
  (toUInt ((N : ℚ) * origin / (pmax0 - pmin0)),
    usub N (toUInt ((N : ℚ) * origin / (pmax0 - pmin0))))

/-! ## Steps of the 1-D minimum search -/

/-- One executed iteration of the minimum search (lines 299-345): the two
probes at `a + (b-a)/3` and `b - (b-a)/3` and the new bracket. -/
def searchStep (env : Collab σ) (o : Options) (nll0 : ℚ) (snap : σ) (br : Bracket)
    (st : Scan σ) : Bracket × Scan σ :=
  let d := (br.b - br.a) / 3
  let x1 := br.a + d
  let x2 := br.b - d
  let r1 := searchProbe env o nll0 snap x1 st
  let r2 := searchProbe env o nll0 snap x2 r1.2
  let br1 := { br with x1 := x1, x2 := x2, y1 := r1.1, y2 := r2.1,
                       count := (br.count + 2) % uintMod }
  (if r1.1 < r2.1 then { br1 with b := x2 } else { br1 with a := x1 }, r2.2)

/-- Local variables of `doGrid` after the loop of the minimum search
(line 346), for the bounds `[pmin0, pmax0]`. -/
def searchBracket (env : Collab σ) (o : Options) (nll0 : ℚ) (snap : σ) (pmin0 pmax0 : ℚ)
    (st : Scan σ) : Bracket :=
  (searchLoop env o nll0 snap ((pmax0 - pmin0) / o.points) (o.points / 2) 0
    ⟨pmin0, pmax0, 0, 0, 0, 0, 1⟩ st).1

/-- Bracket and scan state after `n` executed iterations of the minimum
search, one `searchStep` after the other. -/
def searchSteps (env : Collab σ) (o : Options) (nll0 : ℚ) (snap : σ) (n : Nat)
    (p : Bracket × Scan σ) : Bracket × Scan σ :=
  (fun q : Bracket × Scan σ => searchStep env o nll0 snap q.1 q.2)^[n] p

/-! ## Steps of the marching contour -/

/-- Angle `theta` of the current point (lines 831-832): `atan2` brought to
non-negative values by adding `2*pi`. -/
def marchAngle (env : Collab σ) (x0 y0 x y : ℚ) : ℚ :=
  if env.atan2 (y - y0) (x - x0) < 0 then env.atan2 (y - y0) (x - x0) + 2 * stitchPi
  else env.atan2 (y - y0) (x - x0)

/-- Result of one iteration of the march: the acceptance flag, the
interpolated point and the angle of the point the iteration started from. -/
structure MarchStep where
  accepted : Bool
  X : ℚ
  Y : ℚ
  theta : ℚ

/-- One iteration of the loop `while (theta < theta_max)` (lines 831-894)
from the current point `(x, y)`: the two probes are committed, the
interpolated point is accepted and committed when the angle of `(x, y)`
exceeds `theta_old`. -/
def marchIter (env : Collab σ) (o : Options) (nll0 x0 y0 l alpha x y theta_old : ℚ)
    (st : Scan σ) : MarchStep × Scan σ :=
  let th := marchAngle env x0 y0 x y
  let x1 := x - l * env.cos (th - alpha)
  let y1 := y - l * env.sin (th - alpha)
  let st1 := profileAndCommit env o nll0 2 (setPoi env 1 y1 (setPoi env 0 x1 st))
  let z1 := st1.deltaNLL - o.contour
  let x2 := x + l * env.cos (th + alpha)
  let y2 := y + l * env.sin (th + alpha)
  let st2 := profileAndCommit env o nll0 2 (setPoi env 1 y2 (setPoi env 0 x2 st1))
  let z2 := st2.deltaNLL - o.contour
  let X := x1 + (x2 - x1) * z1 / (z1 - z2)
  let Y := y1 + (y2 - y1) * z1 / (z1 - z2)
  if th > theta_old then
    let st3 := { setPoi env 1 Y (setPoi env 0 X st2) with deltaNLL := o.contour }
    let qN := 2 * st3.deltaNLL
    let prob := env.chisquared_cdf_c qN (2 + o.nOtherFloatingPoi)
    (⟨true, X, Y, th⟩, commitPoint prob (copySpecified env st3))
  else (⟨false, X, Y, th⟩, st2)

/-! ## Multi-dimensional neighbourhood scan -/

/-- Value `points` of line 999, `int(pow(points_, 1/double(D)))`: the power
is the double that `pow` returns, the conversion truncates it (a power
below zero, which `pow` does not return for these arguments, counts as 0). -/
def smartPoints (env : Collab σ) (o : Options) (D : Nat) : Nat :=
  (toInt (env.pow (o.points : ℚ) (1 / (D : ℚ)))).toNat

/-- Values `points_left[q]` and `points_right[q]` of the smart scan
(lines 1006-1007). -/
def smartSidePoints (points : Int) (origin pmin pmax : ℚ) : Int × Int :=
  (toInt ((points : ℚ) * (origin - pmin) / (pmax - pmin)),
    points - toInt ((points : ℚ) * (origin - pmin) / (pmax - pmin)))

/-- Coordinate of one axis of the smart scan for the relative index `index`
(lines 1021-1037). -/
def smartCoord (env : Collab σ) (power origin pmin pmax : ℚ)
    (points_left points_right index : Int) : ℚ :=
  if index > 0 then
    if power > 1 then originAnchored env power origin pmax ((index : ℚ) / (points_right : ℚ))
    else boundAnchored env power origin pmax ((index : ℚ) / (points_right : ℚ))
  else if index < 0 then
    if power > 1 then originAnchored env power origin pmin (((-index : Int) : ℚ) / (points_left : ℚ))
    else boundAnchored env power origin pmin (((-index : Int) : ℚ) / (points_left : ℚ))
  else if power > 1 then origin
  else pmin

/-- Relative index `(i/int(pow(points,j-1))%points) - points_left[j-1]` of
axis `q = j-1` for the point number `i` (line 1019). -/
def smartIndex (points i q : Nat) (points_left : Int) : Int :=
  ((i / points ^ q % points : Nat) : Int) - points_left

/-- Vector `x` of the point number `i` (loop of lines 1017-1040). -/
def smartPoint (env : Collab σ) (power : ℚ) (origin pmin pmax : List ℚ) (points D i : Nat) :
    List ℚ :=
  (List.range D).map (fun q =>
    smartCoord env power (origin.getD q 0) (pmin.getD q 0) (pmax.getD q 0)
      (smartSidePoints points (origin.getD q 0) (pmin.getD q 0) (pmax.getD q 0)).1
      (smartSidePoints points (origin.getD q 0) (pmin.getD q 0) (pmax.getD q 0)).2
      (smartIndex points i q
        (smartSidePoints points (origin.getD q 0) (pmin.getD q 0) (pmax.getD q 0)).1))

/-- Loop `for (t = 0; t < D; t++) { poiVals_[t] = x[t]; poiVars_[t]->setVal(x[t]); }`
from index `k` on, with `rem = D - k` iterations left. -/
def setPoint (env : Collab σ) (x : List ℚ) : Nat → Nat → Scan σ → Scan σ
  | 0, _, st => st
  | rem + 1, k, st => setPoint env x rem (k + 1) (setPoi env k (x.getD k 0) st)

/-- Body of the loop over the points of the smart scan (lines 1017-1056). -/
def smartBody (env : Collab σ) (o : Options) (nll0 : ℚ) (origin pmin pmax : List ℚ)
    (points D i : Nat) (st : Scan σ) : Scan σ :=
  profileAndCommit env o nll0 D
    (setPoint env (smartPoint env o.plotPower origin pmin pmax points D i) D 0 st)

/-- Loop `for (i = 0; i < pow(points,D); i++)`, with `rem = points^D - i`
iterations left. -/
def smartLoop (body : Nat → Scan σ → Scan σ) : Nat → Nat → Scan σ → Scan σ
  | 0, _, st => st
  | rem + 1, i, st => smartLoop body rem (i + 1) (body i st)

/-- Embedding of `MultiDimFit::doSmartScan` (lines 964-1057). The `int`
counters are natural numbers (they are never negative and are taken to stay
below `2^31`). -/
def doSmartScan (env : Collab σ) (o : Options) (st : Scan σ) : Scan σ :=
  let D := st.poiVals.length
  let nll0 := env.getVal st.model
  let fixed := fixPois env D 0 ([], [], st.model)
  let pmin := fixed.1
  let pmax := fixed.2.1
  let st1 := { st with model := fixed.2.2 }
  let origin := (List.range D).map (fun q => env.getPoi q st1.model)
  let points := smartPoints env o D
  smartLoop (smartBody env o nll0 origin pmin pmax points D) (points ^ D) 0 st1

/-- A property of the model state that the steps of a scan keep: setting a
value, minimizing, and assigning a snapshot that has the property. -/
def FrameInv (env : Collab σ) (P : σ → Prop) : Prop :=
  (∀ j x m, P m → P (env.setVal j x m)) ∧
  (∀ m, P m → P (env.minimize m).2) ∧
  (∀ a b, P a → P b → P (env.assign a b))

/-! ## Steps of the bisection and probes of the march -/

/-- First probe `(x1, y1)` of an iteration of the march from `(x, y)`
(lines 834-835). -/
def marchProbe1 (env : Collab σ) (x0 y0 l alpha x y : ℚ) : ℚ × ℚ :=
  (x - l * env.cos (marchAngle env x0 y0 x y - alpha),
    y - l * env.sin (marchAngle env x0 y0 x y - alpha))

/-- Second probe `(x2, y2)` of an iteration of the march from `(x, y)`
(lines 854-855). -/
def marchProbe2 (env : Collab σ) (x0 y0 l alpha x y : ℚ) : ℚ × ℚ :=
  (x + l * env.cos (marchAngle env x0 y0 x y + alpha),
    y + l * env.sin (marchAngle env x0 y0 x y + alpha))

/-- Values `z1` and `z2` of an iteration of the march (lines 851 and 871):
`deltaNLL_ - set_level` after the evaluation of each probe. -/
def marchLevels (env : Collab σ) (o : Options) (nll0 x0 y0 l alpha x y : ℚ)
    (st : Scan σ) : ℚ × ℚ :=
  let p1 := marchProbe1 env x0 y0 l alpha x y
  let st1 := profileAndCommit env o nll0 2 (setPoi env 1 p1.2 (setPoi env 0 p1.1 st))
  let p2 := marchProbe2 env x0 y0 l alpha x y
  let st2 := profileAndCommit env o nll0 2 (setPoi env 1 p2.2 (setPoi env 0 p2.1 st1))
  (st1.deltaNLL - o.contour, st2.deltaNLL - o.contour)

/-! ## Multi-index of the smart scan -/

/-- Multi-index of the point number `i` of the smart scan: the values
`i/int(pow(points,j-1))%points` for `j = 1..D` (line 1019). -/
def smartDigits (points D i : Nat) : List Nat :=
  (List.range D).map (fun q => i / points ^ q % points)

/-- What `initOnce` reads of the workspace and the model configuration: the
names of the parameters of interest and of the nuisance parameters, in the
order of their lists, whether a name is a `RooRealVar`, and its value. -/
structure ModelConfig where
  pois : List String
  nuisances : List String
  isRealVar : String → Bool
  getVal : String → ℚ

/-- Static members filled by `initOnce`; an object of the model is held by
its name. -/
structure InitState where
  poi : List String
  poiVars : List String
  poiVals : List ℚ
  poiList : List String
  specifiedNuis : List String
  specifiedVars : List String
  specifiedVals : List ℚ
  specifiedList : List String
deriving DecidableEq

/-- Loop over `poi_` of lines 171-179. -/
def initPois (mc : ModelConfig) : List String → InitState → Except Err InitState
  | [], s => .ok s
  | name :: rest, s =>
    if ¬ name ∈ mc.pois then
      .error (Err.invalid_argument ("Parameter of interest " ++ name ++ " not in model."))
    else if mc.isRealVar name = false then
      .error (Err.invalid_argument ("Parameter of interest " ++ name ++ " not a RooRealVar."))
    else initPois mc rest
      { s with poiVars := s.poiVars ++ [name], poiVals := s.poiVals ++ [mc.getVal name],
               poiList := s.poiList ++ [name] }

/-- Loop over `specifiedNuis_` of lines 190-199. -/
def initNuisances (mc : ModelConfig) : List String → InitState → Except Err InitState
  | [], s => .ok s
  | name :: rest, s =>
    if ¬ name ∈ mc.nuisances then
      .error (Err.invalid_argument ("Nuisance Parameter " ++ name ++ " not in model."))
    else if name ∈ s.poiList then initNuisances mc rest s
    else if mc.isRealVar name = false then
      .error (Err.invalid_argument ("Nuisance Parameter " ++ name ++ " not a RooRealVar."))
    else initNuisances mc rest
      { s with specifiedVars := s.specifiedVars ++ [name],
               specifiedVals := s.specifiedVals ++ [mc.getVal name],
               specifiedList := s.specifiedList ++ [name] }

/-- Loop over the parameters of interest of the model of lines 202-211 (the
result of the `dynamic_cast` is used unchecked there). -/
def initInactive (mc : ModelConfig) : List String → InitState → InitState
  | [], s => s
  | name :: rest, s =>
    if name ∈ s.poiList then initInactive mc rest s
    else if name ∈ s.specifiedList then initInactive mc rest s
    else initInactive mc rest
      { s with specifiedNuis := s.specifiedNuis ++ [name],
               specifiedVars := s.specifiedVars ++ [name],
               specifiedVals := s.specifiedVals ++ [mc.getVal name],
               specifiedList := s.specifiedList ++ [name] }

/-- Block of lines 181-200 for the requested names of `specifiedNuis_`. -/
def initSpecified (mc : ModelConfig) (withSystematics : Bool) (s : InitState) :
    Except Err InitState :=
  if !s.specifiedNuis.isEmpty && withSystematics then
    if s.specifiedNuis.length = 1 ∧ s.specifiedNuis.getD 0 "" = "all" then
      initNuisances mc mc.nuisances { s with specifiedNuis := mc.nuisances }
    else initNuisances mc s.specifiedNuis s
  else .ok s

/-- Embedding of `MultiDimFit::initOnce` (lines 163-222) up to the creation
of the branches: `poi` and `specifiedNuis` are the lists of names set by the
options, the other static vectors are empty before the call. -/
def initOnce (mc : ModelConfig) (withSystematics saveInactivePOI : Bool)
    (poi specifiedNuis : List String) : Except Err InitState :=
  let s0 : InitState :=
    ⟨if poi.isEmpty then mc.pois else poi, [], [], [], specifiedNuis, [], [], []⟩
  match initPois mc s0.poi s0 with
  | .error e => .error e
  | .ok s1 =>
    match initSpecified mc withSystematics s1 with
    | .error e => .error e
    | .ok s2 => .ok (if saveInactivePOI then initInactive mc mc.pois s2 else s2)

/-- A concrete model configuration: parameters of interest `r` and `mu`,
nuisance parameters `n1`, `n2` and `r`, all of them `RooRealVar` with
value 1. -/
def sampleConfig : ModelConfig := ⟨["r", "mu"], ["n1", "n2", "r"], fun _ => true, fun _ => 1⟩

/-! ## Range filter -/

/-- Range filter of the loops: an index passes both tests
`if (ipoint < firstPoint_) continue; if (ipoint > lastPoint_) break;`. -/
def inRange (o : Options) (p : Nat) : Bool :=
  decide (o.firstPoint ≤ p ∧ p ≤ o.lastPoint)

/-- In-range lattice indices of a grid of `total` points, in scan order. -/
def scanned (o : Options) (total : Nat) : List Nat :=
  (List.range total).filter (inRange o)

/-! ## Rows of a lattice index -/

/-- Rows that the body of the two-parameter loop commits for the lattice
index `p` when it is started on the snapshot itself with an empty output
tree. -/
def latticeRows (env : Collab σ) (o : Options) (nll0 : ℚ) (snap : σ) (pmin pmax : List ℚ)
    (p : Nat) : List ScanPoint :=
  let sqrn := ceilSqrt o.points
  (gridPoint2 env o nll0 snap (pmin.getD 0 0) (pmin.getD 1 0)
    ((pmax.getD 0 0 - pmin.getD 0 0) / sqrn) ((pmax.getD 1 0 - pmin.getD 1 0) / sqrn)
    (p / sqrn) (p % sqrn) ⟨snap, [0, 0], 0, [], [], 0, []⟩).committed

/-- Rows of the lattice index `p` for a two-parameter `doGrid` started in
`st`: the best-fit objective, the snapshot and the bounds are the ones that
`doGrid` reads on entry. -/
def doGridRows (env : Collab σ) (o : Options) (st : Scan σ) (p : Nat) : List ScanPoint :=
  latticeRows env o (env.getVal st.model) (gridSnapshot env st) (gridPmin env st)
    (gridPmax env st) p

/-- First coordinate `pmin[0] + (i+0.5)*deltaX` of the lattice index
`p = i*sqrn + j` of a two-parameter `doGrid` started in `st`. -/
def latticeX (env : Collab σ) (o : Options) (st : Scan σ) (p : Nat) : ℚ :=
  cellCentre ((gridPmin env st).getD 0 0)
    (((gridPmax env st).getD 0 0 - (gridPmin env st).getD 0 0) / ceilSqrt o.points)
    (p / ceilSqrt o.points)

/-- Second coordinate `pmin[1] + (j+0.5)*deltaY` of the lattice index
`p = i*sqrn + j` of a two-parameter `doGrid` started in `st`. -/
def latticeY (env : Collab σ) (o : Options) (st : Scan σ) (p : Nat) : ℚ :=
  cellCentre ((gridPmin env st).getD 1 0)
    (((gridPmax env st).getD 1 0 - (gridPmin env st).getD 1 0) / ceilSqrt o.points)
    (p % ceilSqrt o.points)

/-! ## Concrete collaborators, for evaluating the code on examples -/

/-- Cartesian product of the index ranges `0 .. a-1` of the axes, first axis
slowest (a stand-in for `utils::generateCombinations` in the examples). -/
def cartesian : List Int → List (List Int)
  | [] => [[]]
  | a :: rest =>
    (List.range a.toNat).flatMap (fun k => (cartesian rest).map (fun c => (k : Int) :: c))

/-- A concrete model whose state is the list of the values of the parameters
of interest: objective `f`, number of evaluation errors `errs`, a minimizer
that leaves the state alone and reports `okFlag`, a crossing finder that
reports `cross`, every range equal to `[0, 1]`. The constant flags are not
part of this state: `setConstant` does nothing and `isConstant` reports
`false`. -/
def listEnv (f : List ℚ → ℚ) (errs : List ℚ → Nat) (okFlag : Bool) (cross : Option ℚ) :
    Collab (List ℚ) where
  getVal := f
  numEvalErrors := errs
  minimize := fun s => (okFlag, s)
  setVal := fun i x s => s.set i x
  getPoi := fun i s => s.getD i 0
  getMin := fun _ _ => 0
  getMax := fun _ _ => 1
  setConstant := fun _ _ s => s
  isConstant := fun _ _ => false
  assign := fun snap _ => snap
  specified := fun _ => []
  chisquared_cdf_c := fun q _ => 1 / (1 + q * q)
  chisquared_quantile_c := fun _ _ => 1
  findCrossing := fun _ _ _ _ s => (cross, s)
  setRange := fun _ _ _ _ s => s
  minimizeXI := fun s => (true, s)
  generateCombinations := cartesian
  getMinNamed := fun _ _ _ => 0
  getMaxNamed := fun _ _ _ => 1
  cosPi := fun _ => 1
  cos := fun _ => 1
  sin := fun _ => 0
  atan2 := fun _ _ => 0
  pow := fun x _ => x
  Power := fun x y => ((ceilRoot (⌊1 / y⌋.toNat) (⌊x⌋.toNat) : Nat) : ℚ)

/-- A concrete one-parameter model with the objective `(x - c)^2` of the
parameter of interest `x`, on top of `listEnv`. -/
def parabolaEnv (c : ℚ) : Collab (List ℚ) :=
  listEnv (fun l => (l.getD 0 0 - c) ^ 2) (fun _ => 0) true none

/-- Scan state at the start of a run with the given values of the
parameters of interest and an empty output tree. -/
def startScan (vals : List ℚ) : Scan (List ℚ) :=
  ⟨vals, vals, 0, [], [], 0, []⟩

/-- A concrete model that also keeps the constant flags: the state is the
list of the values of the parameters of interest and the flag of each index;
objective `f` of the values, a minimizer that leaves the state alone and
succeeds, every range equal to `[0, 1]`, an assignment that copies values
and flags of the snapshot. -/
def flagEnv (f : List ℚ → ℚ) : Collab (List ℚ × (Nat → Bool)) where
  getVal := fun s => f s.1
  numEvalErrors := fun _ => 0
  minimize := fun s => (true, s)
  setVal := fun i x s => (s.1.set i x, s.2)
  getPoi := fun i s => s.1.getD i 0
  getMin := fun _ _ => 0
  getMax := fun _ _ => 1
  setConstant := fun i b s => (s.1, fun k => if k = i then b else s.2 k)
  isConstant := fun i s => s.2 i
  assign := fun snap _ => snap
  specified := fun _ => []
  chisquared_cdf_c := fun q _ => 1 / (1 + q * q)
  chisquared_quantile_c := fun _ _ => 1
  findCrossing := fun _ _ _ _ s => (none, s)
  setRange := fun _ _ _ _ s => s
  minimizeXI := fun s => (true, s)
  generateCombinations := cartesian
  getMinNamed := fun _ _ _ => 0
  getMaxNamed := fun _ _ _ => 1
  cosPi := fun _ => 1
  cos := fun _ => 1
  sin := fun _ => 0
  atan2 := fun _ _ => 0
  pow := fun x _ => x
  Power := fun x y => ((ceilRoot (⌊1 / y⌋.toNat) (⌊x⌋.toNat) : Nat) : ℚ)

/-- Scan state at the start of a run of `flagEnv`, every parameter of
interest floating. -/
def startFlagScan (vals : List ℚ) : Scan (List ℚ × (Nat → Bool)) :=
  ⟨(vals, fun _ => false), vals, 0, [], [], 0, []⟩

/-! ## Theorems -/

/-! ### Arithmetic and lists -/

theorem ceilSqrtFrom_spec (B : Nat) : ∀ fuel s, B ≤ fuel + s → (∀ t, t < s → t * t < B) →
    B ≤ ceilSqrtFrom B fuel s * ceilSqrtFrom B fuel s ∧
    ∀ t, B ≤ t * t → ceilSqrtFrom B fuel s ≤ t := by
  intro fuel
  induction fuel with
  | zero =>
    intro s hs hlt
    simp only [ceilSqrtFrom]
    constructor
    · rcases Nat.eq_zero_or_pos s with h0 | hpos
      · subst h0; omega
      · calc B ≤ s := by omega
          _ = s * 1 := (Nat.mul_one s).symm
          _ ≤ s * s := Nat.mul_le_mul_left s hpos
    · intro t ht
      by_contra hcon
      exact absurd (hlt t (by omega)) (by omega)
  | succ fuel ih =>
    intro s hs hlt
    simp only [ceilSqrtFrom]
    split
    · rename_i hB
      refine ⟨hB, ?_⟩
      intro t ht
      by_contra hcon
      exact absurd (hlt t (by omega)) (by omega)
    · rename_i hB
      apply ih (s + 1) (by omega)
      intro t ht
      rcases Nat.lt_succ_iff_lt_or_eq.mp ht with h | h
      · exact hlt t h
      · subst h; omega

theorem ceilSqrt_spec (B : Nat) :
    B ≤ ceilSqrt B * ceilSqrt B ∧ ∀ t, B ≤ t * t → ceilSqrt B ≤ t :=
  ceilSqrtFrom_spec B B 0 (by omega) (fun t ht => absurd ht (Nat.not_lt_zero t))

theorem ceilSqrt_sq_le_uint (B : Nat) (hB : B < 4294967296) :
    ceilSqrt B * ceilSqrt B ≤ 4294967296 := by
  have h := (ceilSqrt_spec B).2 65536 (by omega)
  calc ceilSqrt B * ceilSqrt B ≤ 65536 * 65536 := Nat.mul_le_mul h h
    _ = 4294967296 := by norm_num

theorem set_set_two (l : List ℚ) (x y : ℚ) (h : l.length = 2) :
    (l.set 0 x).set 1 y = [x, y] := by
  match l, h with
  | [_, _], _ => rfl

theorem take_set_succ (l : List ℚ) : ∀ (k : Nat) (x : ℚ), k < l.length →
    (l.set k x).take (k + 1) = l.take k ++ [x] := by
  induction l with
  | nil => intro k x h; simp at h
  | cons a l ih =>
    intro k x h
    cases k with
    | zero => simp
    | succ k =>
      simp only [List.set_cons_succ, List.take_succ_cons, List.cons_append]
      rw [ih k x (by simpa using h)]

/-! ### The range filter -/

theorem filter_inRange_dead (o : Options) (a n : Nat) (h : o.lastPoint < a) :
    (List.range' a n).filter (inRange o) = [] := by
  rw [List.filter_eq_nil_iff]
  intro p hp
  rw [List.mem_range'_1] at hp
  simp only [inRange, decide_eq_true_eq, not_and, not_le]
  intro _
  omega

theorem scanned_full (o : Options) (total : Nat) (h1 : o.firstPoint = 0)
    (h2 : total ≤ o.lastPoint + 1) : scanned o total = List.range total := by
  unfold scanned
  rw [List.filter_eq_self]
  intro p hp
  rw [List.mem_range] at hp
  simp only [inRange, decide_eq_true_eq]
  omega

theorem scanned_split (o : Options) (total k hi : Nat) (h : total ≤ hi + 1) :
    scanned { o with firstPoint := 0, lastPoint := k } total
      ++ scanned { o with firstPoint := k + 1, lastPoint := hi } total
      = List.range total := by
  unfold scanned
  induction total with
  | zero => simp
  | succ n ih =>
    rw [List.range_succ, List.filter_append, List.filter_append, List.append_assoc]
    have ih2 := ih (by omega)
    by_cases hk : n ≤ k
    · have h1 : ∀ p, p ∈ List.range n →
          ¬ inRange { o with firstPoint := k + 1, lastPoint := hi } p = true := by
        intro p hp
        rw [List.mem_range] at hp
        simp only [inRange, decide_eq_true_eq, not_and, not_le]
        intro _; omega
      have h2 : List.filter (inRange { o with firstPoint := k + 1, lastPoint := hi })
          (List.range n) = [] := List.filter_eq_nil_iff.mpr h1
      rw [h2] at ih2 ⊢
      rw [List.append_nil] at ih2
      rw [ih2]
      simp [inRange, hk]
      intro hc
      omega
    · have h1 : inRange { o with firstPoint := 0, lastPoint := k } n = false := by
        simp only [inRange, decide_eq_false_iff_not, not_and, not_le]
        intro _; omega
      have h2 : inRange { o with firstPoint := k + 1, lastPoint := hi } n = true := by
        simp only [inRange, decide_eq_true_eq]
        omega
      rw [List.filter_cons_of_neg (by simp [h1]), List.filter_nil, List.nil_append,
        List.filter_cons_of_pos h2, List.filter_nil, ← List.append_assoc, ih2]

/-! ### The commit blocks -/

theorem commitProb_committed (env : Collab σ) (o : Options) (nll0 : ℚ) (n : Nat) (st : Scan σ) :
    (commitProb env o nll0 n st).committed
      = st.committed ++ [⟨st.poiVals, env.getVal st.model - nll0,
          env.chisquared_cdf_c (2 * (env.getVal st.model - nll0)) (n + o.nOtherFloatingPoi),
          env.specified st.model⟩] := rfl

theorem commitInvalid_committed (env : Collab σ) (st : Scan σ) :
    (commitInvalid env st).committed
      = st.committed ++ [⟨st.poiVals, 9999, 0, env.specified st.model⟩] := rfl

theorem profileAndCommit_skip (env : Collab σ) (o : Options) (nll0 : ℚ) (n : Nat) (st : Scan σ)
    (h : o.fastScan = true ∨
      (o.hasMaxDeltaNLLForProf = true ∧ env.getVal st.model - nll0 > o.maxDeltaNLLForProf)) :
    profileAndCommit env o nll0 n st = commitProb env o nll0 n st := by
  unfold profileAndCommit
  rcases h with h | ⟨h1, h2⟩
  · simp [h]
  · simp [h1, h2]

theorem profileAndCommit_run (env : Collab σ) (o : Options) (nll0 : ℚ) (n : Nat) (st : Scan σ)
    (h1 : o.fastScan = false)
    (h2 : ¬ (o.hasMaxDeltaNLLForProf = true ∧ env.getVal st.model - nll0 > o.maxDeltaNLLForProf)) :
    profileAndCommit env o nll0 n st
      = if (env.minimize st.model).1 = true then commitProb env o nll0 n (runMinimize env st).2
        else (runMinimize env st).2 := by
  unfold profileAndCommit
  have h3 : (o.hasMaxDeltaNLLForProf
      && decide (env.getVal st.model - nll0 > o.maxDeltaNLLForProf)) = false := by
    rw [Bool.and_eq_false_iff]
    by_cases hm : o.hasMaxDeltaNLLForProf = true
    · right
      simp only [decide_eq_false_iff_not]
      exact fun hc => h2 ⟨hm, hc⟩
    · left; simpa using hm
  simp only [h1, h3, Bool.or_self, Bool.false_eq_true, if_false]
  rfl

theorem profileAndCommit_rows (env : Collab σ) (o : Options) (nll0 : ℚ) (n : Nat)
    (st : Scan σ) :
    ∃ rest, (profileAndCommit env o nll0 n st).committed = st.committed ++ rest ∧
      rest.length ≤ 1 ∧
      ((∀ s, (env.minimize s).1 = true) → rest.length = 1) ∧
      ∀ pt, pt ∈ rest → pt.poiVals = st.poiVals ∧
        pt.quantile = env.chisquared_cdf_c (2 * pt.deltaNLL) (n + o.nOtherFloatingPoi) := by
  by_cases h : o.fastScan = true ∨
      (o.hasMaxDeltaNLLForProf = true ∧ env.getVal st.model - nll0 > o.maxDeltaNLLForProf)
  · rw [profileAndCommit_skip env o nll0 n st h, commitProb_committed]
    exact ⟨_, rfl, by simp, by simp, by simp⟩
  · rw [not_or] at h
    rw [profileAndCommit_run env o nll0 n st (by simpa using h.1) h.2]
    by_cases hm : (env.minimize st.model).1 = true
    · rw [if_pos hm, commitProb_committed]
      exact ⟨_, rfl, by simp, by simp, by simp [runMinimize]⟩
    · rw [if_neg hm]
      refine ⟨[], by simp [runMinimize], by simp, ?_, by simp⟩
      intro hok
      exact absurd (hok _) hm

theorem profileAndCommit_length_ok (env : Collab σ) (o : Options) (nll0 : ℚ) (n : Nat)
    (st : Scan σ) (hok : ∀ s, (env.minimize s).1 = true) :
    (profileAndCommit env o nll0 n st).committed.length = st.committed.length + 1 := by
  by_cases h : o.fastScan = true ∨
      (o.hasMaxDeltaNLLForProf = true ∧ env.getVal st.model - nll0 > o.maxDeltaNLLForProf)
  · rw [profileAndCommit_skip env o nll0 n st h, commitProb_committed]
    simp
  · rw [not_or] at h
    rw [profileAndCommit_run env o nll0 n st (by simpa using h.1) h.2, if_pos (hok _),
      commitProb_committed]
    simp [runMinimize]

theorem profileAndCommit_fast (env : Collab σ) (o : Options) (nll0 : ℚ) (n : Nat)
    (st : Scan σ) (hfast : o.fastScan = true) :
    (profileAndCommit env o nll0 n st).minimCalls = st.minimCalls ∧
    (profileAndCommit env o nll0 n st).model = st.model ∧
    (profileAndCommit env o nll0 n st).committed
      = st.committed ++ [⟨st.poiVals, env.getVal st.model - nll0,
          env.chisquared_cdf_c (2 * (env.getVal st.model - nll0)) (n + o.nOtherFloatingPoi),
          env.specified st.model⟩] := by
  rw [profileAndCommit_skip env o nll0 n st (Or.inl hfast)]
  exact ⟨rfl, rfl, rfl⟩

/-! ### The 3x3 loops -/

theorem loop3x3_unfold (body : Int → Int → Scan σ → Scan σ) (st : Scan σ) :
    loop3x3 body st
      = body 1 1 (body 1 0 (body 1 (-1) (body 0 1 (body 0 (-1)
          (body (-1) 1 (body (-1) 0 (body (-1) (-1) st))))))) := by
  simp [loop3x3, offsets3]

theorem loop3x3_length (body : Int → Int → Scan σ → Scan σ)
    (h : ∀ i2 j2 st, (body i2 j2 st).committed.length = st.committed.length + 1) (st : Scan σ) :
    (loop3x3 body st).committed.length = st.committed.length + 8 := by
  rw [loop3x3_unfold]
  simp only [h]

theorem loop3x3_minimCalls (body : Int → Int → Scan σ → Scan σ)
    (h : ∀ i2 j2 st, (body i2 j2 st).minimCalls = st.minimCalls) (st : Scan σ) :
    (loop3x3 body st).minimCalls = st.minimCalls := by
  rw [loop3x3_unfold]
  simp only [h]

theorem loop3x3_rows (body : Int → Int → Scan σ → Scan σ) (P : ScanPoint → Prop)
    (h : ∀ i2 j2 st, (body i2 j2 st).minimCalls = st.minimCalls ∧
      ∃ q, (body i2 j2 st).committed = st.committed ++ [q] ∧ P q) (st : Scan σ) :
    (loop3x3 body st).minimCalls = st.minimCalls ∧
    ∃ rest, (loop3x3 body st).committed = st.committed ++ rest ∧ rest.length = 8 ∧
      ∀ q, q ∈ rest → P q := by
  rw [loop3x3_unfold]
  obtain ⟨m1, q1, c1, p1⟩ := h (-1) (-1) st
  obtain ⟨m2, q2, c2, p2⟩ := h (-1) 0 (body (-1) (-1) st)
  obtain ⟨m3, q3, c3, p3⟩ := h (-1) 1 (body (-1) 0 (body (-1) (-1) st))
  obtain ⟨m4, q4, c4, p4⟩ := h 0 (-1) (body (-1) 1 (body (-1) 0 (body (-1) (-1) st)))
  obtain ⟨m5, q5, c5, p5⟩ := h 0 1 (body 0 (-1) (body (-1) 1 (body (-1) 0 (body (-1) (-1) st))))
  obtain ⟨m6, q6, c6, p6⟩ := h 1 (-1)
    (body 0 1 (body 0 (-1) (body (-1) 1 (body (-1) 0 (body (-1) (-1) st)))))
  obtain ⟨m7, q7, c7, p7⟩ := h 1 0
    (body 1 (-1) (body 0 1 (body 0 (-1) (body (-1) 1 (body (-1) 0 (body (-1) (-1) st))))))
  obtain ⟨m8, q8, c8, p8⟩ := h 1 1
    (body 1 0 (body 1 (-1) (body 0 1 (body 0 (-1) (body (-1) 1 (body (-1) 0
      (body (-1) (-1) st)))))))
  refine ⟨by rw [m8, m7, m6, m5, m4, m3, m2, m1], [q1, q2, q3, q4, q5, q6, q7, q8], ?_, rfl, ?_⟩
  · rw [c8, c7, c6, c5, c4, c3, c2, c1]
    simp
  · intro q hq
    simp only [List.mem_cons, List.mem_singleton, List.not_mem_nil, or_false] at hq
    rcases hq with h | h | h | h | h | h | h | h <;> rw [h] <;> assumption

theorem invalidNeighbour_length (env : Collab σ) (x y dX dY : ℚ) (i2 j2 : Int) (st : Scan σ) :
    (invalidNeighbour env x y dX dY i2 j2 st).committed.length = st.committed.length + 1 := by
  simp [invalidNeighbour, commitInvalid, commitPoint, copySpecified]

theorem invalidNeighbour_rows (env : Collab σ) (x y dX dY : ℚ) (i2 j2 : Int) (st : Scan σ) :
    (invalidNeighbour env x y dX dY i2 j2 st).minimCalls = st.minimCalls ∧
    (invalidNeighbour env x y dX dY i2 j2 st).model = st.model ∧
    ∃ q, (invalidNeighbour env x y dX dY i2 j2 st).committed = st.committed ++ [q] ∧
      q.deltaNLL = 9999 ∧ q.quantile = 0 :=
  ⟨rfl, rfl, _, rfl, rfl, rfl⟩

theorem loop3x3_invalid_rows (env : Collab σ) (x y dX dY : ℚ) (st : Scan σ) :
    (loop3x3 (invalidNeighbour env x y dX dY) st).minimCalls = st.minimCalls ∧
    ∃ rest, (loop3x3 (invalidNeighbour env x y dX dY) st).committed = st.committed ++ rest ∧
      rest.length = 8 ∧ ∀ q, q ∈ rest → q.deltaNLL = 9999 ∧ q.quantile = 0 :=
  loop3x3_rows _ (fun q => q.deltaNLL = 9999 ∧ q.quantile = 0)
    (fun i2 j2 s => ⟨(invalidNeighbour_rows env x y dX dY i2 j2 s).1,
      (invalidNeighbour_rows env x y dX dY i2 j2 s).2.2⟩) st

theorem gridNeighbour_length (env : Collab σ) (o : Options) (nll0 : ℚ) (n : Nat) (fp : Bool)
    (center : σ) (x0 y0 dX dY : ℚ) (i2 j2 : Int) (st : Scan σ) :
    (gridNeighbour env o nll0 n fp center x0 y0 dX dY i2 j2 st).committed.length
      = st.committed.length + 1 := by
  unfold gridNeighbour
  simp only []
  split
  · simp [commitInvalid, commitPoint, copySpecified, setPoi]
  · split <;> simp [commitPoint, copySpecified, setPoi, runMinimize]

theorem gridNeighbour_fast (env : Collab σ) (o : Options) (nll0 : ℚ) (n : Nat)
    (center : σ) (x0 y0 dX dY : ℚ) (i2 j2 : Int) (st : Scan σ) (hfast : o.fastScan = true) :
    (gridNeighbour env o nll0 n false center x0 y0 dX dY i2 j2 st).minimCalls = st.minimCalls := by
  unfold gridNeighbour
  simp only [hfast, Bool.not_true, Bool.false_and, Bool.or_self, Bool.false_eq_true, if_false]
  split <;> rfl

theorem gridNeighbour_row (env : Collab σ) (o : Options) (nll0 : ℚ) (n : Nat) (fp : Bool)
    (center : σ) (x0 y0 dX dY : ℚ) (i2 j2 : Int) (st : Scan σ) :
    ∃ q, (gridNeighbour env o nll0 n fp center x0 y0 dX dY i2 j2 st).committed
      = st.committed ++ [q] ∧ True := by
  unfold gridNeighbour
  simp only []
  split
  · exact ⟨_, rfl, trivial⟩
  · split
    · exact ⟨_, rfl, trivial⟩
    · exact ⟨_, rfl, trivial⟩

theorem gridNeighbours_length (env : Collab σ) (o : Options) (nll0 : ℚ) (n : Nat)
    (x0 y0 dX dY : ℚ) (st : Scan σ) :
    (gridNeighbours env o nll0 n x0 y0 dX dY st).committed.length = st.committed.length + 8 := by
  unfold gridNeighbours
  exact loop3x3_length _ (gridNeighbour_length env o nll0 n _ _ _ _ dX dY) st

/-! ### The loops of the two-parameter grid as a fold -/

theorem gridRow2_dead (o : Options) (body : Nat → Nat → Scan σ → Scan σ) (i rem j ip : Nat)
    (st : Scan σ) (h1 : o.lastPoint < ip) (h2 : o.firstPoint ≤ ip) :
    gridRow2 o body i rem j ip st = (ip, st) := by
  cases rem with
  | zero => rfl
  | succ rem =>
    simp only [gridRow2]
    rw [if_neg (by omega), if_pos (by omega)]

theorem gridRow2_spec (o : Options) (body : Nat → Nat → Scan σ → Scan σ) (S i : Nat) :
    ∀ rem j ip (st : Scan σ), ip = i * S + j → j + rem = S →
      (gridRow2 o body i rem j ip st).2
          = ((List.range' ip rem).filter (inRange o)).foldl
              (fun st1 p => body (p / S) (p % S) st1) st ∧
      ((gridRow2 o body i rem j ip st).1 = ip + rem ∨
        ((gridRow2 o body i rem j ip st).1 ≤ ip + rem ∧
          o.lastPoint < (gridRow2 o body i rem j ip st).1 ∧
          o.firstPoint ≤ (gridRow2 o body i rem j ip st).1)) := by
  intro rem
  induction rem with
  | zero =>
    intro j ip st _ _
    simp [gridRow2]
  | succ rem ih =>
    intro j ip st hip hj
    have hS : 0 < S := by omega
    have hdiv : ip / S = i := by
      rw [hip, Nat.mul_comm, Nat.mul_add_div hS, Nat.div_eq_of_lt (by omega)]; rfl
    have hmod : ip % S = j := by
      rw [hip, Nat.mul_comm, Nat.mul_add_mod, Nat.mod_eq_of_lt (by omega)]
    simp only [gridRow2, List.range'_succ]
    by_cases hlo : ip < o.firstPoint
    · have hr : inRange o ip = false := by
        simp only [inRange, decide_eq_false_iff_not, not_and, not_le]; intro; omega
      rw [if_pos hlo, List.filter_cons_of_neg (by simp [hr])]
      obtain ⟨e1, e2⟩ := ih (j + 1) (ip + 1) st (by omega) (by omega)
      refine ⟨e1, ?_⟩
      rcases e2 with e2 | e2
      · left; omega
      · right; omega
    · rw [if_neg hlo]
      by_cases hhi : ip > o.lastPoint
      · have hr : inRange o ip = false := by
          simp only [inRange, decide_eq_false_iff_not, not_and, not_le]; intro; omega
        rw [if_pos hhi, List.filter_cons_of_neg (by simp [hr]),
          filter_inRange_dead o (ip + 1) rem (by omega)]
        refine ⟨rfl, Or.inr ?_⟩
        simp only
        omega
      · have hr : inRange o ip = true := by
          simp only [inRange, decide_eq_true_eq]; omega
        rw [if_neg hhi, List.filter_cons_of_pos hr, List.foldl_cons, hdiv, hmod]
        obtain ⟨e1, e2⟩ := ih (j + 1) (ip + 1) (body i j st) (by omega) (by omega)
        refine ⟨e1, ?_⟩
        rcases e2 with e2 | e2
        · left; omega
        · right; omega

theorem gridRows2_dead (o : Options) (body : Nat → Nat → Scan σ → Scan σ) (S : Nat) :
    ∀ rem i ip (st : Scan σ), o.lastPoint < ip → o.firstPoint ≤ ip →
      gridRows2 o body S rem i ip st = (ip, st) := by
  intro rem
  induction rem with
  | zero => intro i ip st _ _; rfl
  | succ rem ih =>
    intro i ip st h1 h2
    simp only [gridRows2]
    rw [gridRow2_dead o body i S 0 ip st h1 h2]
    exact ih (i + 1) ip st h1 h2

theorem gridRows2_spec (o : Options) (body : Nat → Nat → Scan σ → Scan σ) (S : Nat) :
    ∀ rem i (st : Scan σ),
      (gridRows2 o body S rem i (i * S) st).2
        = ((List.range' (i * S) (rem * S)).filter (inRange o)).foldl
            (fun st1 p => body (p / S) (p % S) st1) st := by
  intro rem
  induction rem with
  | zero => intro i st; simp [gridRows2]
  | succ rem ih =>
    intro i st
    simp only [gridRows2]
    obtain ⟨e1, e2⟩ := gridRow2_spec o body S i S 0 (i * S) st (by omega) (by omega)
    have hsplit : List.range' (i * S) ((rem + 1) * S)
        = List.range' (i * S) S ++ List.range' ((i + 1) * S) (rem * S) := by
      have h := List.range'_append (i * S) S (rem * S) 1
      rw [Nat.one_mul] at h
      have h3 : rem * S + S = (rem + 1) * S := by ring
      have h4 : i * S + S = (i + 1) * S := by ring
      rw [h3, h4] at h
      exact h.symm
    rw [hsplit, List.filter_append, List.foldl_append, ← e1]
    rcases e2 with e2 | e2
    · have h4 : i * S + S = (i + 1) * S := by ring
      rw [e2, h4]
      exact ih (i + 1) _
    · rw [gridRows2_dead o body S rem (i + 1) _ _ e2.2.1 e2.2.2]
      have hge : (gridRow2 o body i S 0 (i * S) st).1 ≤ (i + 1) * S := by
        have h4 : i * S + S = (i + 1) * S := by ring
        omega
      rw [filter_inRange_dead o ((i + 1) * S) (rem * S) (by omega)]
      rfl

/-- The loops of the two-parameter grid run the body of the loop exactly on
the in-range lattice indices `p = i*sqrn + j`, in increasing order. -/
theorem doGrid2_eq_foldl (env : Collab σ) (o : Options) (nll0 : ℚ) (snap : σ)
    (pmin pmax : List ℚ) (st : Scan σ) :
    doGrid2 env o nll0 snap pmin pmax st
      = (scanned o (ceilSqrt o.points * ceilSqrt o.points)).foldl
          (fun st1 p =>
            gridPoint2 env o nll0 snap (pmin.getD 0 0) (pmin.getD 1 0)
              ((pmax.getD 0 0 - pmin.getD 0 0) / ceilSqrt o.points)
              ((pmax.getD 1 0 - pmin.getD 1 0) / ceilSqrt o.points)
              (p / ceilSqrt o.points) (p % ceilSqrt o.points) st1) st := by
  have h := gridRows2_spec o
    (gridPoint2 env o nll0 snap (pmin.getD 0 0) (pmin.getD 1 0)
      ((pmax.getD 0 0 - pmin.getD 0 0) / ceilSqrt o.points)
      ((pmax.getD 1 0 - pmin.getD 1 0) / ceilSqrt o.points))
    (ceilSqrt o.points) (ceilSqrt o.points) 0 st
  simp only [Nat.zero_mul] at h
  simp only [doGrid2, scanned, List.range_eq_range']
  exact h

/-- With two parameters of interest `doGrid` runs the two-parameter branch. -/
theorem doGrid_two (env : Collab σ) (o : Options) (st : Scan σ) (hlen : st.poiVals.length = 2) :
    doGrid env o st
      = doGrid2 env o (env.getVal st.model) (gridSnapshot env st) (gridPmin env st)
          (gridPmax env st) { st with model := gridSnapshot env st } := by
  simp [doGrid, hlen]

theorem foldl_committed_length (f : Nat → Scan σ → Scan σ) (c : Nat)
    (h : ∀ p st, (f p st).committed.length = st.committed.length + c) :
    ∀ (l : List Nat) (st : Scan σ),
      (l.foldl (fun st1 p => f p st1) st).committed.length = st.committed.length + c * l.length := by
  intro l
  induction l with
  | nil => intro st; simp
  | cons p l ih =>
    intro st
    rw [List.foldl_cons, ih, h, List.length_cons]
    ring

theorem foldl_committed_flatMap (f : Nat → Scan σ → Scan σ) (rows : Nat → List ScanPoint)
    (inv : Scan σ → Prop)
    (h : ∀ p st, inv st → inv (f p st) ∧ (f p st).committed = st.committed ++ rows p) :
    ∀ (l : List Nat) (st : Scan σ), inv st →
      (l.foldl (fun st1 p => f p st1) st).committed = st.committed ++ l.flatMap rows := by
  intro l
  induction l with
  | nil => intro st _; simp
  | cons p l ih =>
    intro st hst
    rw [List.foldl_cons, ih _ (h p st hst).1, (h p st hst).2, List.flatMap_cons,
      List.append_assoc]

theorem foldl_minimCalls (f : Nat → Scan σ → Scan σ)
    (h : ∀ p st, (f p st).minimCalls = st.minimCalls) :
    ∀ (l : List Nat) (st : Scan σ),
      (l.foldl (fun st1 p => f p st1) st).minimCalls = st.minimCalls := by
  intro l
  induction l with
  | nil => intro st; rfl
  | cons p l ih => intro st; rw [List.foldl_cons, ih, h]

/-- Explicit form of the rows committed by the body of the two-parameter
loop in 1x1 mode. -/
theorem gridPoint2_plain (env : Collab σ) (o : Options) (nll0 : ℚ) (snap : σ)
    (pmin0 pmin1 dX dY : ℚ) (i j : Nat) (st : Scan σ) (hplain : o.gridType = GridType.G1x1) :
    (gridPoint2 env o nll0 snap pmin0 pmin1 dX dY i j st).committed
      = st.committed ++
        (if 0 < env.numEvalErrors
            (pointState env snap (cellCentre pmin0 dX i) (cellCentre pmin1 dY j) st.model) then
          [⟨(st.poiVals.set 0 (cellCentre pmin0 dX i)).set 1 (cellCentre pmin1 dY j), 9999, 0,
            env.specified
              (pointState env snap (cellCentre pmin0 dX i) (cellCentre pmin1 dY j) st.model)⟩]
        else (profileAndCommit env o nll0 2
          ⟨pointState env snap (cellCentre pmin0 dX i) (cellCentre pmin1 dY j) st.model,
            (st.poiVals.set 0 (cellCentre pmin0 dX i)).set 1 (cellCentre pmin1 dY j),
            0, [], [], 0, []⟩).committed) ∧
    (gridPoint2 env o nll0 snap pmin0 pmin1 dX dY i j st).poiVals
      = (st.poiVals.set 0 (cellCentre pmin0 dX i)).set 1 (cellCentre pmin1 dY j) := by
  have hg : ¬ (o.gridType = GridType.G3x3) := by rw [hplain]; decide
  unfold gridPoint2
  simp only [hg, if_false]
  split
  · exact ⟨rfl, rfl⟩
  · unfold profileAndCommit
    simp only []
    split
    · exact ⟨by simp [commitProb, commitPoint, copySpecified], rfl⟩
    · simp only [runMinimize]
      split
      · exact ⟨by simp [commitProb, commitPoint, copySpecified], rfl⟩
      · exact ⟨by simp, rfl⟩

theorem gridPoint2_rows (env : Collab σ) (o : Options) (nll0 : ℚ) (snap : σ)
    (pmin0 pmin1 dX dY : ℚ) (i j : Nat) (st : Scan σ) (hplain : o.gridType = GridType.G1x1)
    (hdet : ∀ s s1, env.assign snap s = env.assign snap s1) (hlen : st.poiVals.length = 2) :
    (gridPoint2 env o nll0 snap pmin0 pmin1 dX dY i j st).poiVals.length = 2 ∧
    (gridPoint2 env o nll0 snap pmin0 pmin1 dX dY i j st).committed
      = st.committed
        ++ (gridPoint2 env o nll0 snap pmin0 pmin1 dX dY i j ⟨snap, [0, 0], 0, [], [], 0, []⟩).committed := by
  obtain ⟨e1, e2⟩ := gridPoint2_plain env o nll0 snap pmin0 pmin1 dX dY i j st hplain
  obtain ⟨f1, _⟩ := gridPoint2_plain env o nll0 snap pmin0 pmin1 dX dY i j
    ⟨snap, [0, 0], 0, [], [], 0, []⟩ hplain
  refine ⟨by rw [e2, set_set_two _ _ _ hlen]; rfl, ?_⟩
  rw [e1, f1, set_set_two _ _ _ hlen]
  simp only [pointState]
  rw [hdet st.model snap]
  simp [List.set]

theorem gridPoint2_length (env : Collab σ) (o : Options) (nll0 : ℚ) (snap : σ)
    (pmin0 pmin1 dX dY : ℚ) (i j : Nat) (st : Scan σ) (hok : ∀ s, (env.minimize s).1 = true) :
    (gridPoint2 env o nll0 snap pmin0 pmin1 dX dY i j st).committed.length
      = st.committed.length + (if o.gridType = GridType.G3x3 then 9 else 1) := by
  unfold gridPoint2
  simp only []
  split
  · split
    · rw [loop3x3_length _ (invalidNeighbour_length env _ _ dX dY), commitInvalid_committed]
      simp
    · rw [commitInvalid_committed]; simp
  · split
    · unfold gridNeighbours
      simp only []
      rw [loop3x3_length _ (gridNeighbour_length env o nll0 2 _ _ _ _ dX dY),
        profileAndCommit_length_ok env o nll0 2 _ hok]
    · rw [profileAndCommit_length_ok env o nll0 2 _ hok]

theorem gridPoint2_fast (env : Collab σ) (o : Options) (nll0 : ℚ) (snap : σ)
    (pmin0 pmin1 dX dY : ℚ) (i j : Nat) (st : Scan σ) (hfast : o.fastScan = true) :
    (gridPoint2 env o nll0 snap pmin0 pmin1 dX dY i j st).minimCalls = st.minimCalls := by
  unfold gridPoint2
  simp only []
  split
  · split
    · rw [loop3x3_minimCalls (invalidNeighbour env _ _ dX dY) (fun i2 j2 s => rfl)]
      rfl
    · rfl
  · split
    · unfold gridNeighbours
      simp only [hfast, Bool.not_true, Bool.false_and]
      rw [loop3x3_minimCalls _ (fun i2 j2 s => gridNeighbour_fast env o nll0 2 _ _ _ dX dY i2 j2
        s hfast), (profileAndCommit_fast env o nll0 2 _ hfast).1]
    · rw [(profileAndCommit_fast env o nll0 2 _ hfast).1]

theorem latticeRows_facts (env : Collab σ) (o : Options) (nll0 : ℚ) (snap : σ)
    (pmin pmax : List ℚ) (p : Nat) (hplain : o.gridType = GridType.G1x1) :
    (latticeRows env o nll0 snap pmin pmax p).length ≤ 1 ∧
    ((∀ s, (env.minimize s).1 = true) → (latticeRows env o nll0 snap pmin pmax p).length = 1) ∧
    ∀ pt, pt ∈ latticeRows env o nll0 snap pmin pmax p →
      pt.poiVals
        = [cellCentre (pmin.getD 0 0) ((pmax.getD 0 0 - pmin.getD 0 0) / ceilSqrt o.points)
              (p / ceilSqrt o.points),
            cellCentre (pmin.getD 1 0) ((pmax.getD 1 0 - pmin.getD 1 0) / ceilSqrt o.points)
              (p % ceilSqrt o.points)] := by
  unfold latticeRows
  simp only []
  rw [(gridPoint2_plain env o nll0 snap _ _ _ _ _ _ _ hplain).1]
  split
  · simp [List.set]
  · obtain ⟨rest, e, hl, hone, hpt⟩ := profileAndCommit_rows env o nll0 2
      ⟨pointState env snap
          (cellCentre (pmin.getD 0 0)
            ((pmax.getD 0 0 - pmin.getD 0 0) / ceilSqrt o.points) (p / ceilSqrt o.points))
          (cellCentre (pmin.getD 1 0)
            ((pmax.getD 1 0 - pmin.getD 1 0) / ceilSqrt o.points) (p % ceilSqrt o.points)) snap,
        (([0, 0] : List ℚ).set 0 (cellCentre (pmin.getD 0 0)
            ((pmax.getD 0 0 - pmin.getD 0 0) / ceilSqrt o.points) (p / ceilSqrt o.points))).set 1
          (cellCentre (pmin.getD 1 0)
            ((pmax.getD 1 0 - pmin.getD 1 0) / ceilSqrt o.points) (p % ceilSqrt o.points)),
        0, [], [], 0, []⟩
    rw [e]
    simp only [List.nil_append]
    exact ⟨hl, hone, fun pt h => by rw [(hpt pt h).1]; rfl⟩

theorem latticeRows_nil_iff (env : Collab σ) (o : Options) (nll0 : ℚ) (snap : σ)
    (pmin pmax : List ℚ) (p : Nat) (hplain : o.gridType = GridType.G1x1) :
    latticeRows env o nll0 snap pmin pmax p = [] ↔
      (env.numEvalErrors (pointState env snap
          (cellCentre (pmin.getD 0 0) ((pmax.getD 0 0 - pmin.getD 0 0) / ceilSqrt o.points)
            (p / ceilSqrt o.points))
          (cellCentre (pmin.getD 1 0) ((pmax.getD 1 0 - pmin.getD 1 0) / ceilSqrt o.points)
            (p % ceilSqrt o.points)) snap) = 0 ∧
        o.fastScan = false ∧
        ¬ (o.hasMaxDeltaNLLForProf = true ∧
          env.getVal (pointState env snap
            (cellCentre (pmin.getD 0 0) ((pmax.getD 0 0 - pmin.getD 0 0) / ceilSqrt o.points)
              (p / ceilSqrt o.points))
            (cellCentre (pmin.getD 1 0) ((pmax.getD 1 0 - pmin.getD 1 0) / ceilSqrt o.points)
              (p % ceilSqrt o.points)) snap) - nll0 > o.maxDeltaNLLForProf) ∧
        (env.minimize (pointState env snap
          (cellCentre (pmin.getD 0 0) ((pmax.getD 0 0 - pmin.getD 0 0) / ceilSqrt o.points)
            (p / ceilSqrt o.points))
          (cellCentre (pmin.getD 1 0) ((pmax.getD 1 0 - pmin.getD 1 0) / ceilSqrt o.points)
            (p % ceilSqrt o.points)) snap)).1 = false) := by
  unfold latticeRows
  simp only []
  rw [(gridPoint2_plain env o nll0 snap _ _ _ _ _ _ _ hplain).1]
  simp only [List.nil_append]
  by_cases herr : 0 < env.numEvalErrors (pointState env snap
          (cellCentre (pmin.getD 0 0) ((pmax.getD 0 0 - pmin.getD 0 0) / ceilSqrt o.points)
            (p / ceilSqrt o.points))
          (cellCentre (pmin.getD 1 0) ((pmax.getD 1 0 - pmin.getD 1 0) / ceilSqrt o.points)
            (p % ceilSqrt o.points)) snap)
  · rw [if_pos herr]
    constructor
    · intro h; exact absurd h (by simp)
    · intro h; omega
  · rw [if_neg herr]
    have h0 : env.numEvalErrors (pointState env snap
          (cellCentre (pmin.getD 0 0) ((pmax.getD 0 0 - pmin.getD 0 0) / ceilSqrt o.points)
            (p / ceilSqrt o.points))
          (cellCentre (pmin.getD 1 0) ((pmax.getD 1 0 - pmin.getD 1 0) / ceilSqrt o.points)
            (p % ceilSqrt o.points)) snap) = 0 := by omega
    by_cases hs : o.fastScan = true ∨
        (o.hasMaxDeltaNLLForProf = true ∧
          env.getVal (pointState env snap
            (cellCentre (pmin.getD 0 0) ((pmax.getD 0 0 - pmin.getD 0 0) / ceilSqrt o.points)
              (p / ceilSqrt o.points))
            (cellCentre (pmin.getD 1 0) ((pmax.getD 1 0 - pmin.getD 1 0) / ceilSqrt o.points)
              (p % ceilSqrt o.points)) snap) - nll0 > o.maxDeltaNLLForProf)
    · rw [profileAndCommit_skip env o nll0 2 _ hs, commitProb_committed]
      constructor
      · intro h; exact absurd h (by simp)
      · rintro ⟨_, hf, hk, _⟩
        rcases hs with hs | hs
        · rw [hf] at hs; exact absurd hs (by decide)
        · exact absurd hs hk
    · rw [not_or] at hs
      have hf : o.fastScan = false := by simpa using hs.1
      rw [profileAndCommit_run env o nll0 2 _ hf hs.2]
      by_cases hm : (env.minimize (pointState env snap
          (cellCentre (pmin.getD 0 0) ((pmax.getD 0 0 - pmin.getD 0 0) / ceilSqrt o.points)
            (p / ceilSqrt o.points))
          (cellCentre (pmin.getD 1 0) ((pmax.getD 1 0 - pmin.getD 1 0) / ceilSqrt o.points)
            (p % ceilSqrt o.points)) snap)).1 = true
      · rw [if_pos hm, commitProb_committed]
        constructor
        · intro h; exact absurd h (by simp)
        · rintro ⟨_, _, _, hfail⟩
          rw [hfail] at hm; exact absurd hm (by decide)
      · rw [if_neg hm]
        constructor
        · intro _
          exact ⟨h0, hf, hs.2, by simpa using hm⟩
        · intro _
          rfl

/-! ### The loop over the combinations -/

/-- The loop over the axes of a combination leaves the output tree and the
call counter alone and sets coordinate `k` to `pmin[k] + deltaXi*(ip+0.5)`. -/
theorem setCombination_fields (env : Collab σ) (pmin pmax : List ℚ) (rootn : Nat)
    (perm : List Int) : ∀ (rem k : Nat) (st : Scan σ),
      (setCombination env pmin pmax rootn perm rem k st).committed = st.committed ∧
      (setCombination env pmin pmax rootn perm rem k st).minimCalls = st.minimCalls ∧
      (k + rem = st.poiVals.length →
        (setCombination env pmin pmax rootn perm rem k st).poiVals
          = st.poiVals.take k ++ (List.range' k rem).map (fun a =>
              pmin.getD a 0 + (pmax.getD a 0 - pmin.getD a 0) / rootn
                * (((perm.getD a 0 : Int) : ℚ) + 1/2))) := by
  intro rem
  induction rem with
  | zero =>
    intro k st
    refine ⟨rfl, rfl, ?_⟩
    intro h
    simp only [setCombination, List.range'_zero, List.map_nil, List.append_nil]
    rw [List.take_of_length_le (by omega)]
  | succ rem ih =>
    intro k st
    obtain ⟨e1, e2, e3⟩ := ih (k + 1) (setPoi env k
      (pmin.getD k 0 + (pmax.getD k 0 - pmin.getD k 0) / rootn
        * (((perm.getD k 0 : Int) : ℚ) + 1/2)) st)
    refine ⟨e1, e2, ?_⟩
    intro h
    simp only [setCombination]
    rw [e3 (by simp only [setPoi, List.length_set]; omega)]
    simp only [setPoi, List.range'_succ, List.map_cons]
    rw [take_set_succ _ _ _ (by omega), List.append_assoc]
    rfl

/-- With a positive `firstPoint_` the loop over the combinations never
leaves its `continue`: the counter stays at 0 and nothing is evaluated. -/
theorem gridLoopN_first_pos (o : Options) (body : List Int → Scan σ → Bool × Scan σ)
    (h : 0 < o.firstPoint) :
    ∀ (perms : List (List Int)) (st : Scan σ), gridLoopN o body perms 0 st = st := by
  intro perms
  induction perms with
  | nil => intro st; rfl
  | cons perm rest ih =>
    intro st
    simp only [gridLoopN]
    rw [if_pos h]
    exact ih st

theorem gridLoopN_minimCalls (o : Options) (body : List Int → Scan σ → Bool × Scan σ)
    (h : ∀ perm st, (body perm st).2.minimCalls = st.minimCalls) :
    ∀ (perms : List (List Int)) (ipoint : Nat) (st : Scan σ),
      (gridLoopN o body perms ipoint st).minimCalls = st.minimCalls := by
  intro perms
  induction perms with
  | nil => intro ipoint st; rfl
  | cons perm rest ih =>
    intro ipoint st
    simp only [gridLoopN]
    split
    · exact ih _ _
    · split
      · rfl
      · rw [ih, h]

theorem gridPointN_fast (env : Collab σ) (o : Options) (nll0 : ℚ) (snap : σ) (n : Nat)
    (pmin pmax : List ℚ) (rootn : Nat) (perm : List Int) (st : Scan σ)
    (hfast : o.fastScan = true) :
    (gridPointN env o nll0 snap n pmin pmax rootn perm st).2.minimCalls = st.minimCalls := by
  have hc : (combinationScan env snap n pmin pmax rootn perm st).minimCalls = st.minimCalls :=
    (setCombination_fields env pmin pmax rootn perm n 0 _).2.1
  unfold gridPointN
  simp only []
  split
  · exact hc
  · rw [← hc]
    exact (profileAndCommit_fast env o nll0 n _ hfast).1

/-! ### The 1-D sweeps and the whole scan in fast-scan mode -/

theorem rangeLoop_minimCalls (o : Options) (body : Nat → Scan σ → Scan σ)
    (h : ∀ i st, (body i st).minimCalls = st.minimCalls) :
    ∀ (rem i : Nat) (st : Scan σ), (rangeLoop o body rem i st).minimCalls = st.minimCalls := by
  intro rem
  induction rem with
  | zero => intro i st; rfl
  | succ rem ih =>
    intro i st
    simp only [rangeLoop]
    split
    · exact ih _ _
    · split
      · rfl
      · rw [ih, h]

theorem sweepPoint_fast (env : Collab σ) (o : Options) (nll0 : ℚ) (snap : σ) (x : ℚ)
    (st : Scan σ) (hfast : o.fastScan = true) :
    (sweepPoint env o nll0 snap x st).minimCalls = st.minimCalls := by
  unfold sweepPoint
  rw [(profileAndCommit_fast env o nll0 1 _ hfast).1]
  rfl

theorem doGrid_fast_minimCalls (env : Collab σ) (o : Options) (st : Scan σ)
    (hfast : o.fastScan = true) (hcase : st.poiVals.length ≠ 1 ∨ o.plotPower ≤ 1) :
    (doGrid env o st).minimCalls = st.minimCalls := by
  unfold doGrid
  simp only []
  split
  · rename_i h1
    have hp : ¬ (o.plotPower > 1) := by
      rcases hcase with h | h
      · exact absurd h1 h
      · exact not_lt.mpr h
    unfold doGrid1
    rw [if_neg hp]
    split
    · unfold doGrid1Bounds
      simp only []
      rw [rangeLoop_minimCalls o _ (fun i s => sweepPoint_fast env o _ _ _ s hfast),
        rangeLoop_minimCalls o _ (fun i s => sweepPoint_fast env o _ _ _ s hfast)]
    · unfold doGrid1Linear
      rw [rangeLoop_minimCalls o _ (fun i s => sweepPoint_fast env o _ _ _ s hfast)]
  · split
    · rw [doGrid2_eq_foldl,
        foldl_minimCalls _ (fun p s => gridPoint2_fast env o _ _ _ _ _ _ _ _ s hfast)]
    · unfold doGridN
      simp only []
      rw [gridLoopN_minimCalls o _ (fun perm s => gridPointN_fast env o _ _ _ _ _ _ perm s hfast)]

/-! ### The confidence box -/

theorem boxSide_length (env : Collab σ) (o : Options) (cl nll0 threshold : ℚ) (n : Nat)
    (p0 : List ℚ) (i : Nat) (limit : σ → ℚ) (st : Scan σ) :
    (boxSide env o cl nll0 threshold n p0 true i limit st).2.committed.length
      = st.committed.length + 1 := by
  unfold boxSide
  simp only []
  split <;> simp [commitPoint, readPois]

theorem boxSide_ranges (env : Collab σ) (o : Options) (cl nll0 threshold : ℚ) (n : Nat)
    (p0 : List ℚ) (i : Nat) (limit : σ → ℚ) (st : Scan σ) :
    (boxSide env o cl nll0 threshold n p0 true i limit st).2.ranges = st.ranges := by
  unfold boxSide
  simp only []
  split <;> rfl

theorem boxAxis_length (env : Collab σ) (o : Options) (cl nll0 threshold : ℚ) (n : Nat)
    (p0 : List ℚ) (name : String) (i : Nat) (st : Scan σ) :
    (boxAxis env o cl nll0 threshold n p0 name true i st).committed.length
      = st.committed.length + 2 := by
  unfold boxAxis
  simp only []
  rw [boxSide_length, boxSide_length]

theorem boxLoop_length (body : Nat → Scan σ → Scan σ)
    (h : ∀ i st, (body i st).committed.length = st.committed.length + 2) :
    ∀ (rem i : Nat) (st : Scan σ),
      (boxLoop body rem i st).committed.length = st.committed.length + 2 * rem := by
  intro rem
  induction rem with
  | zero => intro i st; rfl
  | succ rem ih =>
    intro i st
    simp only [boxLoop]
    rw [ih, h]
    ring

/-! ### C1: partition of the two-parameter scan by the range filter -/

/-- C1 (amended): in the two-parameter grid scan in 1x1 mode, when the
restored snapshot erases the history of the model, every run with a range
filter `[lo, hi]` commits, for the lattice indices `p = i*S + j` of its own
range in increasing order, the rows of `p`; the rows of an index do not
depend on the filter: there is at most one, at the lattice coordinates of
`p`, exactly one when every local optimization succeeds, and none exactly
when the point is valid and its local optimization is run and fails. The
index sets of the filters `[0, k]` and `[k+1, max]` are disjoint and cover
`[0, S^2)`, so the two runs together commit what the unpartitioned run
commits. -/
theorem doGrid_two_poi_range_split (env : Collab σ) (o : Options) (st : Scan σ)
    (hlen : st.poiVals.length = 2) (hplain : o.gridType = GridType.G1x1)
    (hB : o.points < 4294967296)
    (hdet : ∀ s s1, env.assign (gridSnapshot env st) s = env.assign (gridSnapshot env st) s1) :
    (∀ lo hi, (doGrid env { o with firstPoint := lo, lastPoint := hi } st).committed
        = st.committed
          ++ (scanned { o with firstPoint := lo, lastPoint := hi }
              (ceilSqrt o.points * ceilSqrt o.points)).flatMap (doGridRows env o st)) ∧
    (∀ k, scanned { o with firstPoint := 0, lastPoint := k }
            (ceilSqrt o.points * ceilSqrt o.points)
          ++ scanned { o with firstPoint := k + 1, lastPoint := 4294967295 }
            (ceilSqrt o.points * ceilSqrt o.points)
        = List.range (ceilSqrt o.points * ceilSqrt o.points)) ∧
    (∀ k, (doGrid env { o with firstPoint := 0, lastPoint := 4294967295 } st).committed
        = st.committed
          ++ ((scanned { o with firstPoint := 0, lastPoint := k }
                (ceilSqrt o.points * ceilSqrt o.points)).flatMap (doGridRows env o st)
            ++ (scanned { o with firstPoint := k + 1, lastPoint := 4294967295 }
                (ceilSqrt o.points * ceilSqrt o.points)).flatMap (doGridRows env o st))) ∧
    (∀ p, (doGridRows env o st p).length ≤ 1) ∧
    ((∀ s, (env.minimize s).1 = true) → ∀ p, (doGridRows env o st p).length = 1) ∧
    (∀ p pt, pt ∈ doGridRows env o st p →
      pt.poiVals = [latticeX env o st p, latticeY env o st p]) ∧
    (∀ p, doGridRows env o st p = [] ↔
      (env.numEvalErrors (pointState env (gridSnapshot env st) (latticeX env o st p)
          (latticeY env o st p) (gridSnapshot env st)) = 0 ∧
        o.fastScan = false ∧
        ¬ (o.hasMaxDeltaNLLForProf = true ∧
          env.getVal (pointState env (gridSnapshot env st) (latticeX env o st p)
            (latticeY env o st p) (gridSnapshot env st)) - env.getVal st.model
              > o.maxDeltaNLLForProf) ∧
        (env.minimize (pointState env (gridSnapshot env st) (latticeX env o st p)
          (latticeY env o st p) (gridSnapshot env st))).1 = false)) := by
  have hrun : ∀ lo hi, (doGrid env { o with firstPoint := lo, lastPoint := hi } st).committed
        = st.committed
          ++ (scanned { o with firstPoint := lo, lastPoint := hi }
              (ceilSqrt o.points * ceilSqrt o.points)).flatMap (doGridRows env o st) := by
    intro lo hi
    rw [doGrid_two env _ st hlen, doGrid2_eq_foldl]
    exact foldl_committed_flatMap _ (doGridRows env o st) (fun s => s.poiVals.length = 2)
      (fun p s hs => gridPoint2_rows env { o with firstPoint := lo, lastPoint := hi } _ _ _ _ _ _
        _ _ s hplain hdet hs) _ _ hlen
  have hsplit := fun k => scanned_split o (ceilSqrt o.points * ceilSqrt o.points) k 4294967295
    (by have := ceilSqrt_sq_le_uint o.points hB; omega)
  refine ⟨hrun, hsplit, ?_, ?_, ?_, ?_, ?_⟩
  · intro k
    rw [hrun, ← List.flatMap_append, hsplit k,
      scanned_full _ _ rfl (by have := ceilSqrt_sq_le_uint o.points hB; simp only; omega)]
  · intro p
    exact (latticeRows_facts env o _ _ _ _ p hplain).1
  · intro hok p
    exact (latticeRows_facts env o _ _ _ _ p hplain).2.1 hok
  · intro p pt hpt
    exact (latticeRows_facts env o _ _ _ _ p hplain).2.2 pt hpt
  · intro p
    exact latticeRows_nil_iff env o _ _ _ _ p hplain

/-- Witness of C1: a scan of budget 4 over the unit square, split after
index 1. -/
theorem doGrid_two_poi_range_split_witness :
    (startScan [0, 0]).poiVals.length = 2 ∧
    ({ points := 4 } : Options).gridType = GridType.G1x1 ∧
    (∀ s s1 : List ℚ,
      (listEnv (fun _ => 0) (fun _ => 0) true none).assign
          (gridSnapshot (listEnv (fun _ => 0) (fun _ => 0) true none) (startScan [0, 0])) s
        = (listEnv (fun _ => 0) (fun _ => 0) true none).assign
          (gridSnapshot (listEnv (fun _ => 0) (fun _ => 0) true none) (startScan [0, 0])) s1) ∧
    (doGrid (listEnv (fun _ => 0) (fun _ => 0) true none)
        { ({ points := 4 } : Options) with firstPoint := 0, lastPoint := 4294967295 }
        (startScan [0, 0])).committed
      = (startScan [0, 0]).committed
        ++ ((scanned { ({ points := 4 } : Options) with firstPoint := 0, lastPoint := 1 }
              (ceilSqrt 4 * ceilSqrt 4)).flatMap
              (doGridRows (listEnv (fun _ => 0) (fun _ => 0) true none) { points := 4 }
                (startScan [0, 0]))
          ++ (scanned
                { ({ points := 4 } : Options) with firstPoint := 1 + 1, lastPoint := 4294967295 }
              (ceilSqrt 4 * ceilSqrt 4)).flatMap
              (doGridRows (listEnv (fun _ => 0) (fun _ => 0) true none) { points := 4 }
                (startScan [0, 0]))) :=
  ⟨rfl, rfl, fun _ _ => rfl,
    (doGrid_two_poi_range_split (listEnv (fun _ => 0) (fun _ => 0) true none) { points := 4 }
      (startScan [0, 0]) rfl rfl (by decide) (fun _ _ => rfl)).2.2.1 1⟩

/-- Counterexample to C1 as stated: with a local optimization that fails,
the run of budget 1 with range filter `[0, 0]` has the lattice index 0 in
its range (and the restored snapshot erases the history), yet it commits no
point. -/
theorem doGrid_two_poi_range_split_counterexample :
    scanned { points := 1, firstPoint := 0, lastPoint := 0 } (ceilSqrt 1 * ceilSqrt 1) = [0] ∧
    (∀ s s1 : List ℚ,
      (listEnv (fun _ => 0) (fun _ => 0) false none).assign
          (gridSnapshot (listEnv (fun _ => 0) (fun _ => 0) false none) (startScan [0, 0])) s
        = (listEnv (fun _ => 0) (fun _ => 0) false none).assign
          (gridSnapshot (listEnv (fun _ => 0) (fun _ => 0) false none) (startScan [0, 0])) s1) ∧
    (doGrid (listEnv (fun _ => 0) (fun _ => 0) false none)
      { points := 1, firstPoint := 0, lastPoint := 0 } (startScan [0, 0])).committed = [] :=
  ⟨by decide, fun _ _ => rfl, by decide⟩

/-! ### C2: range filter of the scan with more than two parameters -/

/-- C2 (code defect): with three parameters of interest, budget 8 (two
cells per axis, eight combinations) and the range filter `[1, max]`, the
scan commits no point at all, although the combinations at positions
1 to 7 lie in the range; with the filter `[0, max]` all eight are committed. -/
theorem doGrid_three_poi_first_point_commits_nothing :
    ceilRoot 3 8 = 2 ∧
    ((listEnv (fun _ => 0) (fun _ => 0) true none).generateCombinations [2, 2, 2]).length = 8 ∧
    (doGrid (listEnv (fun _ => 0) (fun _ => 0) true none) { points := 8, firstPoint := 1 }
      (startScan [0, 0, 0])).committed = [] ∧
    (doGrid (listEnv (fun _ => 0) (fun _ => 0) true none) { points := 8, firstPoint := 0 }
      (startScan [0, 0, 0])).committed.length = 8 := by
  decide!

/-! ### C3: number of points of the two-parameter scan -/

/-- C3: with the full index range and a local optimization that always
reports success, the two-parameter grid scan of budget `B ≥ 1` commits
exactly `S^2` points in 1x1 mode, where `S = ceil(sqrt(B))` is the smallest
integer with `S^2 ≥ B`, and between `S^2` and `9*S^2` points in 3x3 mode. -/
theorem doGrid_two_poi_point_count (env : Collab σ) (o : Options) (st : Scan σ)
    (hlen : st.poiVals.length = 2) (hB : 1 ≤ o.points) (hB2 : o.points < 4294967296)
    (hfirst : o.firstPoint = 0) (hlast : o.lastPoint = 4294967295)
    (hok : ∀ s, (env.minimize s).1 = true) :
    (o.points ≤ ceilSqrt o.points ^ 2 ∧ ∀ t, o.points ≤ t ^ 2 → ceilSqrt o.points ≤ t) ∧
    (o.gridType = GridType.G1x1 →
      (doGrid env o st).committed.length = st.committed.length + ceilSqrt o.points ^ 2) ∧
    (o.gridType = GridType.G3x3 →
      st.committed.length + ceilSqrt o.points ^ 2 ≤ (doGrid env o st).committed.length ∧
      (doGrid env o st).committed.length ≤ st.committed.length + 9 * ceilSqrt o.points ^ 2) := by
  have hspec := ceilSqrt_spec o.points
  have hlen2 : (doGrid env o st).committed.length
      = st.committed.length
        + (if o.gridType = GridType.G3x3 then 9 else 1) * ceilSqrt o.points ^ 2 := by
    rw [doGrid_two env o st hlen, doGrid2_eq_foldl,
      foldl_committed_length _ _ (fun p st1 => gridPoint2_length env o _ _ _ _ _ _ _ _ st1 hok),
      scanned_full o _ hfirst (by have := ceilSqrt_sq_le_uint o.points hB2; omega),
      List.length_range, sq]
  refine ⟨⟨by rw [sq]; exact hspec.1, fun t ht => hspec.2 t (by rw [← sq]; exact ht)⟩, ?_, ?_⟩
  · intro hg
    rw [hlen2, if_neg (by rw [hg]; decide), Nat.one_mul]
  · intro hg
    rw [hlen2, if_pos hg]
    constructor <;> nlinarith [Nat.zero_le (ceilSqrt o.points ^ 2)]

/-- Witness of C3: a scan of budget 5 over the unit square. -/
theorem doGrid_two_poi_point_count_witness :
    (startScan [0, 0]).poiVals.length = 2 ∧
    (1 : Nat) ≤ ({ points := 5 } : Options).points ∧
    (∀ s, ((listEnv (fun _ => 0) (fun _ => 0) true none).minimize s).1 = true) ∧
    ((doGrid (listEnv (fun _ => 0) (fun _ => 0) true none) { points := 5 }
        (startScan [0, 0])).committed.length
      = (startScan [0, 0]).committed.length + ceilSqrt 5 ^ 2) :=
  ⟨rfl, by decide, fun _ => rfl,
    (doGrid_two_poi_point_count (listEnv (fun _ => 0) (fun _ => 0) true none) { points := 5 }
      (startScan [0, 0]) rfl (by decide) (by decide) rfl rfl (fun _ => rfl)).2.1 rfl⟩

/-! ### C5: failed local optimization -/

/-- C5 (amended): in the grid scan, a valid in-range point whose local
optimization is run and reports failure is not committed: in 1x1 mode and
with more than two parameters of interest no row is appended for it, in 3x3
mode only the eight rows of its neighbours are; when the optimization
reports success exactly one row is appended for the point, with the quantile
equal to the chi-squared survival function of `2*deltaNLL`. -/
theorem grid_failed_minimize_drops_point (env : Collab σ) (o : Options) (nll0 : ℚ) (snap : σ)
    (hfast : o.fastScan = false) :
    (∀ (pmin0 pmin1 dX dY : ℚ) (i j : Nat) (st : Scan σ),
      env.numEvalErrors
        (pointState env snap (cellCentre pmin0 dX i) (cellCentre pmin1 dY j) st.model) = 0 →
      ¬ (o.hasMaxDeltaNLLForProf = true ∧
        env.getVal (pointState env snap (cellCentre pmin0 dX i) (cellCentre pmin1 dY j) st.model)
          - nll0 > o.maxDeltaNLLForProf) →
      ((env.minimize
          (pointState env snap (cellCentre pmin0 dX i) (cellCentre pmin1 dY j) st.model)).1
            = false →
        (o.gridType = GridType.G1x1 →
          (gridPoint2 env o nll0 snap pmin0 pmin1 dX dY i j st).committed = st.committed) ∧
        (o.gridType = GridType.G3x3 →
          (gridPoint2 env o nll0 snap pmin0 pmin1 dX dY i j st).committed.length
            = st.committed.length + 8)) ∧
      ((env.minimize
          (pointState env snap (cellCentre pmin0 dX i) (cellCentre pmin1 dY j) st.model)).1
            = true →
        o.gridType = GridType.G1x1 →
        ∃ pt, (gridPoint2 env o nll0 snap pmin0 pmin1 dX dY i j st).committed
            = st.committed ++ [pt] ∧
          pt.quantile = env.chisquared_cdf_c (2 * pt.deltaNLL) (2 + o.nOtherFloatingPoi))) ∧
    (∀ (n : Nat) (pmin pmax : List ℚ) (rootn : Nat) (perm : List Int) (st : Scan σ),
      env.numEvalErrors (combinationScan env snap n pmin pmax rootn perm st).model = 0 →
      ¬ (o.hasMaxDeltaNLLForProf = true ∧
        env.getVal (combinationScan env snap n pmin pmax rootn perm st).model - nll0
          > o.maxDeltaNLLForProf) →
      ((env.minimize (combinationScan env snap n pmin pmax rootn perm st).model).1 = false →
        (gridPointN env o nll0 snap n pmin pmax rootn perm st).2.committed = st.committed) ∧
      ((env.minimize (combinationScan env snap n pmin pmax rootn perm st).model).1 = true →
        ∃ pt, (gridPointN env o nll0 snap n pmin pmax rootn perm st).2.committed
            = st.committed ++ [pt] ∧
          pt.quantile = env.chisquared_cdf_c (2 * pt.deltaNLL) (n + o.nOtherFloatingPoi))) := by
  constructor
  · intro pmin0 pmin1 dX dY i j st herr hskip
    have hpc := profileAndCommit_run env o nll0 2
      { st with poiVals := (st.poiVals.set 0 (cellCentre pmin0 dX i)).set 1
                  (cellCentre pmin1 dY j),
                model := pointState env snap (cellCentre pmin0 dX i)
                  (cellCentre pmin1 dY j) st.model } hfast hskip
    refine ⟨fun hfail => ⟨fun hg => ?_, fun hg => ?_⟩, fun hsucc hg => ?_⟩
    · have hg3 : ¬ (o.gridType = GridType.G3x3) := by rw [hg]; decide
      unfold gridPoint2
      simp only [gt_iff_lt, herr, lt_irrefl, if_false, hg3]
      rw [hpc]
      simp only [hfail, Bool.false_eq_true, if_false]
      rfl
    · unfold gridPoint2
      simp only [gt_iff_lt, herr, lt_irrefl, if_false, hg, if_true]
      rw [gridNeighbours_length, hpc]
      simp only [hfail, Bool.false_eq_true, if_false]
      rfl
    · have hg3 : ¬ (o.gridType = GridType.G3x3) := by rw [hg]; decide
      unfold gridPoint2
      simp only [gt_iff_lt, herr, lt_irrefl, if_false, hg3]
      rw [hpc]
      simp only [hsucc, if_true]
      exact ⟨_, rfl, rfl⟩
  · intro n pmin pmax rootn perm st herr hskip
    have hpc := profileAndCommit_run env o nll0 n
      (combinationScan env snap n pmin pmax rootn perm st) hfast hskip
    have hc : (combinationScan env snap n pmin pmax rootn perm st).committed = st.committed :=
      (setCombination_fields env pmin pmax rootn perm n 0 _).1
    refine ⟨fun hfail => ?_, fun hsucc => ?_⟩
    · unfold gridPointN
      simp only [gt_iff_lt, herr, lt_irrefl, if_false]
      rw [hpc]
      simp only [hfail, Bool.false_eq_true, if_false]
      exact hc
    · unfold gridPointN
      simp only [gt_iff_lt, herr, lt_irrefl, if_false]
      rw [hpc]
      simp only [hsucc, if_true]
      rw [commitProb_committed]
      simp only [runMinimize]
      rw [hc]
      exact ⟨_, rfl, rfl⟩

/-- Witness of C5: a local optimization that fails, at a valid point. -/
theorem grid_failed_minimize_drops_point_witness :
    ({ } : Options).fastScan = false ∧
    (listEnv (fun _ => 0) (fun _ => 0) false none).numEvalErrors
      (pointState (listEnv (fun _ => 0) (fun _ => 0) false none) [0, 0]
        (cellCentre 0 1 0) (cellCentre 0 1 0) (startScan [0, 0]).model) = 0 ∧
    ((listEnv (fun _ => 0) (fun _ => 0) false none).minimize
      (pointState (listEnv (fun _ => 0) (fun _ => 0) false none) [0, 0]
        (cellCentre 0 1 0) (cellCentre 0 1 0) (startScan [0, 0]).model)).1 = false ∧
    (gridPoint2 (listEnv (fun _ => 0) (fun _ => 0) false none) { } 0 [0, 0] 0 0 1 1 0 0
      (startScan [0, 0])).committed = (startScan [0, 0]).committed :=
  ⟨rfl, by decide, by decide,
    ((((grid_failed_minimize_drops_point (listEnv (fun _ => 0) (fun _ => 0) false none) { } 0
      [0, 0] rfl).1 0 0 1 1 0 0 (startScan [0, 0]) (by decide) (by decide)).1 (by decide)).1
        rfl)⟩

/-- Counterexample to C5 as stated: with a local optimization that reports
failure at every point, the two-parameter scan of budget 4 runs the
optimizer at each of the four in-range lattice points and commits no point. -/
theorem grid_failed_minimize_counterexample :
    scanned { points := 4 } (ceilSqrt 4 * ceilSqrt 4) = [0, 1, 2, 3] ∧
    (doGrid (listEnv (fun _ => 0) (fun _ => 0) false none) { points := 4 }
      (startScan [0, 0])).minimCalls = 4 ∧
    (doGrid (listEnv (fun _ => 0) (fun _ => 0) false none) { points := 4 }
      (startScan [0, 0])).committed = [] := by
  decide

/-! ### C6: fast-scan mode -/

/-- C6 (amended): in fast-scan mode the grid scan with two or more
parameters of interest, and the 1-D scan with power at most 1, never invoke
the local optimizer; every valid point (lattice point, 3x3 neighbour,
combination, 1-D sweep point) is committed with `deltaNLL` equal to the
unprofiled objective in the state of the point minus the best-fit objective
(points with evaluation errors carry the sentinel instead). -/
theorem doGrid_fastScan_unprofiled (env : Collab σ) (o : Options) (nll0 : ℚ) (snap : σ)
    (hfast : o.fastScan = true) :
    (∀ st : Scan σ, st.poiVals.length ≠ 1 ∨ o.plotPower ≤ 1 →
      (doGrid env o st).minimCalls = st.minimCalls) ∧
    (∀ (pmin0 pmin1 dX dY : ℚ) (i j : Nat) (st : Scan σ),
      st.poiVals.length = 2 →
      env.numEvalErrors
        (pointState env snap (cellCentre pmin0 dX i) (cellCentre pmin1 dY j) st.model) = 0 →
      ∃ rest, (gridPoint2 env o nll0 snap pmin0 pmin1 dX dY i j st).committed
          = st.committed ++ ⟨[cellCentre pmin0 dX i, cellCentre pmin1 dY j],
              env.getVal
                (pointState env snap (cellCentre pmin0 dX i) (cellCentre pmin1 dY j) st.model)
                - nll0,
              env.chisquared_cdf_c (2 * (env.getVal
                (pointState env snap (cellCentre pmin0 dX i) (cellCentre pmin1 dY j) st.model)
                - nll0)) (2 + o.nOtherFloatingPoi),
              env.specified
                (pointState env snap (cellCentre pmin0 dX i) (cellCentre pmin1 dY j) st.model)⟩
            :: rest ∧
        (o.gridType = GridType.G1x1 → rest = [])) ∧
    (∀ (n : Nat) (b : Bool) (center : σ) (x0 y0 dX dY : ℚ) (i2 j2 : Int) (st : Scan σ),
      env.numEvalErrors (pointState env center (x0 + 33333333/100000000 * i2 * dX)
        (y0 + 33333333/100000000 * j2 * dY) st.model) = 0 →
      (gridNeighbour env o nll0 n (!o.fastScan && b) center x0 y0 dX dY i2 j2 st).committed
        = st.committed ++ [⟨(st.poiVals.set 0 (x0 + 33333333/100000000 * i2 * dX)).set 1
              (y0 + 33333333/100000000 * j2 * dY),
            env.getVal (pointState env center (x0 + 33333333/100000000 * i2 * dX)
              (y0 + 33333333/100000000 * j2 * dY) st.model) - nll0,
            env.chisquared_cdf_c (2 * (env.getVal
              (pointState env center (x0 + 33333333/100000000 * i2 * dX)
                (y0 + 33333333/100000000 * j2 * dY) st.model) - nll0))
              (n + o.nOtherFloatingPoi),
            env.specified (pointState env center (x0 + 33333333/100000000 * i2 * dX)
              (y0 + 33333333/100000000 * j2 * dY) st.model)⟩]) ∧
    (∀ (n : Nat) (pmin pmax : List ℚ) (rootn : Nat) (perm : List Int) (st : Scan σ),
      env.numEvalErrors (combinationScan env snap n pmin pmax rootn perm st).model = 0 →
      (gridPointN env o nll0 snap n pmin pmax rootn perm st).2.committed
        = st.committed ++ [⟨(combinationScan env snap n pmin pmax rootn perm st).poiVals,
            env.getVal (combinationScan env snap n pmin pmax rootn perm st).model - nll0,
            env.chisquared_cdf_c
              (2 * (env.getVal (combinationScan env snap n pmin pmax rootn perm st).model - nll0))
              (n + o.nOtherFloatingPoi),
            env.specified (combinationScan env snap n pmin pmax rootn perm st).model⟩]) ∧
    (∀ (x : ℚ) (st : Scan σ),
      (sweepPoint env o nll0 snap x st).committed
        = st.committed ++ [⟨st.poiVals.set 0 x,
            env.getVal (env.setVal 0 x (env.assign snap st.model)) - nll0,
            env.chisquared_cdf_c
              (2 * (env.getVal (env.setVal 0 x (env.assign snap st.model)) - nll0))
              (1 + o.nOtherFloatingPoi),
            env.specified (env.setVal 0 x (env.assign snap st.model))⟩]) := by
  refine ⟨fun st h => doGrid_fast_minimCalls env o st hfast h, ?_, ?_, ?_, ?_⟩
  · intro pmin0 pmin1 dX dY i j st hlen hvalid
    unfold gridPoint2
    simp only [gt_iff_lt, hvalid, lt_irrefl, if_false]
    by_cases hg : o.gridType = GridType.G3x3
    · simp only [hg, if_true]
      unfold gridNeighbours
      simp only [hfast, Bool.not_true, Bool.false_and]
      obtain ⟨_, rest, e, _, _⟩ := loop3x3_rows
        (gridNeighbour env o nll0 2 false
          (profileAndCommit env o nll0 2
            { st with poiVals := (st.poiVals.set 0 (cellCentre pmin0 dX i)).set 1
                        (cellCentre pmin1 dY j),
                      model := pointState env snap (cellCentre pmin0 dX i)
                        (cellCentre pmin1 dY j) st.model }).model
          (cellCentre pmin0 dX i) (cellCentre pmin1 dY j) dX dY)
        (fun _ => True)
        (fun i2 j2 s => ⟨gridNeighbour_fast env o nll0 2 _ _ _ dX dY i2 j2 s hfast,
          gridNeighbour_row env o nll0 2 false _ _ _ dX dY i2 j2 s⟩)
        (profileAndCommit env o nll0 2
          { st with poiVals := (st.poiVals.set 0 (cellCentre pmin0 dX i)).set 1
                      (cellCentre pmin1 dY j),
                    model := pointState env snap (cellCentre pmin0 dX i)
                      (cellCentre pmin1 dY j) st.model })
      refine ⟨rest, ?_, fun h => absurd h (by decide)⟩
      rw [e, (profileAndCommit_fast env o nll0 2 _ hfast).2.2, List.append_assoc]
      simp only [List.singleton_append]
      rw [set_set_two _ _ _ hlen]
    · simp only [hg, if_false]
      refine ⟨[], ?_, fun _ => rfl⟩
      rw [(profileAndCommit_fast env o nll0 2 _ hfast).2.2]
      simp only []
      rw [set_set_two _ _ _ hlen]
  · intro n b center x0 y0 dX dY i2 j2 st hvalid
    unfold gridNeighbour
    simp only [setPoi, pointState] at hvalid ⊢
    simp only [gt_iff_lt, hvalid, lt_irrefl, if_false, hfast, Bool.not_true, Bool.false_and,
      Bool.or_self, Bool.false_eq_true]
    rfl
  · intro n pmin pmax rootn perm st hvalid
    unfold gridPointN
    simp only [gt_iff_lt, hvalid, lt_irrefl, if_false]
    rw [(profileAndCommit_fast env o nll0 n _ hfast).2.2,
      show (combinationScan env snap n pmin pmax rootn perm st).committed = st.committed from
        (setCombination_fields env pmin pmax rootn perm n 0 _).1]
  · intro x st
    unfold sweepPoint
    simp only []
    rw [(profileAndCommit_fast env o nll0 1 _ hfast).2.2]
    rfl

/-- Witness of C6: the default scan of 50 points in fast-scan mode. -/
theorem doGrid_fastScan_unprofiled_witness :
    ({ fastScan := true } : Options).fastScan = true ∧
    ((startScan [0, 0]).poiVals.length ≠ 1 ∨ ({ fastScan := true } : Options).plotPower ≤ 1) ∧
    (doGrid (listEnv (fun _ => 0) (fun _ => 0) true none) { fastScan := true }
      (startScan [0, 0])).minimCalls = (startScan [0, 0]).minimCalls :=
  ⟨rfl, Or.inl (by decide),
    (doGrid_fastScan_unprofiled (listEnv (fun _ => 0) (fun _ => 0) true none)
      { fastScan := true } 0 [0, 0] rfl).1 (startScan [0, 0]) (Or.inl (by decide))⟩

/-- Counterexample to C6 as stated, in fast-scan mode: a lattice point with
evaluation errors is committed with `deltaNLL = 9999`, although the
unprofiled objective minus the best-fit objective is 0 in every state; and
the minimum search of the 1-D scan with power 2 calls the local optimizer,
once for each of its two probes. -/
theorem doGrid_fastScan_counterexample :
    ((doGrid (listEnv (fun _ => 0) (fun _ => 1) true none) { points := 1, fastScan := true }
        (startScan [0, 0])).committed.map (fun pt => pt.deltaNLL) = [9999] ∧
      ∀ s : List ℚ, (listEnv (fun _ => 0) (fun _ => 1) true none).getVal s
        - (listEnv (fun _ => 0) (fun _ => 1) true none).getVal (startScan [0, 0]).model = 0) ∧
    (doGrid (listEnv (fun _ => 0) (fun _ => 0) true none)
      { points := 2, fastScan := true, plotPower := 2, lastPoint := 0 }
      (startScan [0])).minimCalls = 2 :=
  ⟨⟨by decide!, fun _ => sub_self _⟩, by decide!⟩

/-! ### C7: ceiling on the unprofiled objective -/

/-- C7 (amended): in the two-parameter grid scan (1x1 mode, fast scan off
or on), when the ceiling has been given explicitly (`hasMaxDeltaNLLForProf_`, which
`applyOptions` sets exactly when the option is not defaulted), a valid
in-range point whose unprofiled objective exceeds the best-fit objective by
more than `maxDeltaNLLForProf_` is committed with `deltaNLL` equal to the
unprofiled objective minus the best-fit objective, and the local optimizer
is not invoked for it. -/
theorem grid_ceiling_skips_profiling (env : Collab σ) (o : Options) (nll0 : ℚ) (snap : σ)
    (pmin0 pmin1 dX dY : ℚ) (i j : Nat) (st : Scan σ)
    (hlen : st.poiVals.length = 2) (hplain : o.gridType = GridType.G1x1)
    (hvalid : env.numEvalErrors
      (pointState env snap (cellCentre pmin0 dX i) (cellCentre pmin1 dY j) st.model) = 0)
    (hhas : o.hasMaxDeltaNLLForProf = true)
    (hceil : env.getVal
        (pointState env snap (cellCentre pmin0 dX i) (cellCentre pmin1 dY j) st.model) - nll0
      > o.maxDeltaNLLForProf) :
    ((gridPoint2 env o nll0 snap pmin0 pmin1 dX dY i j st).minimCalls = st.minimCalls ∧
      (gridPoint2 env o nll0 snap pmin0 pmin1 dX dY i j st).committed
        = st.committed ++ [⟨[cellCentre pmin0 dX i, cellCentre pmin1 dY j],
            env.getVal
              (pointState env snap (cellCentre pmin0 dX i) (cellCentre pmin1 dY j) st.model)
              - nll0,
            env.chisquared_cdf_c (2 * (env.getVal
              (pointState env snap (cellCentre pmin0 dX i) (cellCentre pmin1 dY j) st.model)
              - nll0)) (2 + o.nOtherFloatingPoi),
            env.specified
              (pointState env snap (cellCentre pmin0 dX i) (cellCentre pmin1 dY j) st.model)⟩]) ∧
    (∀ vm o0 o1, applyOptions vm o0 = .ok o1 →
      o1.hasMaxDeltaNLLForProf = !vm.maxDeltaNLLForProfDefaulted ∧
      o1.maxDeltaNLLForProf = o0.maxDeltaNLLForProf) := by
  have hg3 : ¬ (o.gridType = GridType.G3x3) := by rw [hplain]; decide
  refine ⟨?_, ?_⟩
  · unfold gridPoint2
    simp only [gt_iff_lt, hvalid, lt_irrefl, if_false, hg3]
    rw [profileAndCommit_skip env o nll0 2 _ (Or.inr ⟨hhas, hceil⟩)]
    refine ⟨rfl, ?_⟩
    rw [commitProb_committed]
    simp only []
    rw [set_set_two _ _ _ hlen]
  · intro vm o0 o1 h
    unfold applyOptions at h
    simp only [] at h
    split at h
    · exact absurd h (by simp)
    · rename_i o2 hsel
      simp only [Except.ok.injEq] at h
      subst h
      refine ⟨rfl, ?_⟩
      simp only []
      split_ifs at hsel <;> simp only [Except.ok.injEq] at hsel <;> subst hsel <;> rfl

/-- Witness of C7: ceiling given explicitly, objective 300 above the best
fit at the lattice point. -/
theorem grid_ceiling_skips_profiling_witness :
    (startScan [0, 0]).poiVals.length = 2 ∧
    ({ hasMaxDeltaNLLForProf := true } : Options).gridType = GridType.G1x1 ∧
    (listEnv (fun s => 600 * s.getD 0 0) (fun _ => 0) true none).numEvalErrors
      (pointState (listEnv (fun s => 600 * s.getD 0 0) (fun _ => 0) true none) [0, 0]
        (cellCentre 0 1 0) (cellCentre 0 1 0) (startScan [0, 0]).model) = 0 ∧
    ({ hasMaxDeltaNLLForProf := true } : Options).hasMaxDeltaNLLForProf = true ∧
    (listEnv (fun s => 600 * s.getD 0 0) (fun _ => 0) true none).getVal
        (pointState (listEnv (fun s => 600 * s.getD 0 0) (fun _ => 0) true none) [0, 0]
          (cellCentre 0 1 0) (cellCentre 0 1 0) (startScan [0, 0]).model) - 0
      > ({ hasMaxDeltaNLLForProf := true } : Options).maxDeltaNLLForProf ∧
    (gridPoint2 (listEnv (fun s => 600 * s.getD 0 0) (fun _ => 0) true none)
      { hasMaxDeltaNLLForProf := true } 0 [0, 0] 0 0 1 1 0 0 (startScan [0, 0])).minimCalls
      = (startScan [0, 0]).minimCalls :=
  ⟨rfl, rfl, by decide, rfl, by decide!,
    (grid_ceiling_skips_profiling (listEnv (fun s => 600 * s.getD 0 0) (fun _ => 0) true none)
      { hasMaxDeltaNLLForProf := true } 0 [0, 0] 0 0 1 1 0 0 (startScan [0, 0]) rfl rfl
      (by decide) rfl (by decide!)).1.1⟩

/-- Counterexample to C7 as stated: with the options left at their defaults
the ceiling `maxDeltaNLLForProf_` is 200 but is not applied; a valid lattice
point whose unprofiled objective exceeds the best fit by 300 is still handed
to the local optimizer. -/
theorem grid_ceiling_counterexample :
    ({ points := 1 } : Options).maxDeltaNLLForProf = 200 ∧
    ({ points := 1 } : Options).fastScan = false ∧
    ({ points := 1 } : Options).gridType = GridType.G1x1 ∧
    (listEnv (fun s => 600 * s.getD 0 0) (fun _ => 0) true none).getVal [1/2, 1/2]
      - (listEnv (fun s => 600 * s.getD 0 0) (fun _ => 0) true none).getVal [0, 0] = 300 ∧
    (doGrid (listEnv (fun s => 600 * s.getD 0 0) (fun _ => 0) true none) { points := 1 }
      (startScan [0, 0])).committed.map (fun pt => pt.poiVals) = [[1/2, 1/2]] ∧
    (doGrid (listEnv (fun s => 600 * s.getD 0 0) (fun _ => 0) true none) { points := 1 }
      (startScan [0, 0])).minimCalls = 1 := by
  decide!

/-! ### C8: algorithm selection -/

/-- C8: `applyOptions` accepts exactly the nine algorithm names `none`,
`singles`, `cross`, `grid`, `grid3x3`, `random`, `contour2d`, `stitch2d` and
`smartscan`; `grid` and `grid3x3` both select `Grid`, with grid type 1x1 and
3x3 respectively, every other name selects its own algorithm, and every
other string is refused with an invalid-argument error. -/
theorem applyOptions_names (vm : VariablesMap) (o : Options) :
    (vm.algo = "none" → ∃ r, applyOptions vm o = .ok r ∧ r.algo = Algo.None) ∧
    (vm.algo = "singles" → ∃ r, applyOptions vm o = .ok r ∧ r.algo = Algo.Singles) ∧
    (vm.algo = "cross" → ∃ r, applyOptions vm o = .ok r ∧ r.algo = Algo.Cross) ∧
    (vm.algo = "grid" → ∃ r, applyOptions vm o = .ok r ∧ r.algo = Algo.Grid
      ∧ r.gridType = GridType.G1x1) ∧
    (vm.algo = "grid3x3" → ∃ r, applyOptions vm o = .ok r ∧ r.algo = Algo.Grid
      ∧ r.gridType = GridType.G3x3) ∧
    (vm.algo = "random" → ∃ r, applyOptions vm o = .ok r ∧ r.algo = Algo.RandomPoints) ∧
    (vm.algo = "contour2d" → ∃ r, applyOptions vm o = .ok r ∧ r.algo = Algo.Contour2D) ∧
    (vm.algo = "stitch2d" → ∃ r, applyOptions vm o = .ok r ∧ r.algo = Algo.Stitch2D) ∧
    (vm.algo = "smartscan" → ∃ r, applyOptions vm o = .ok r ∧ r.algo = Algo.SmartScan) ∧
    (vm.algo ∉ ["none", "singles", "cross", "grid", "grid3x3", "random", "contour2d",
        "stitch2d", "smartscan"] →
      applyOptions vm o = .error (Err.invalid_argument ("Unknown algorithm: " ++ vm.algo))) := by
  refine ⟨?_, ?_, ?_, ?_, ?_, ?_, ?_, ?_, ?_, ?_⟩
  all_goals intro h
  all_goals simp [applyOptions, h]
  simp only [List.mem_cons, List.mem_singleton, List.not_mem_nil, or_false, not_or] at h
  obtain ⟨h1, h2, h3, h4, h5, h6, h7, h8, h9⟩ := h
  simp [applyOptions, h1, h2, h3, h4, h5, h6, h7, h8, h9]

/-- Witness of C8: the name `grid3x3`. -/
theorem applyOptions_names_witness :
    (⟨"grid3x3", 0, true, true⟩ : VariablesMap).algo = "grid3x3" ∧
    ∃ r, applyOptions ⟨"grid3x3", 0, true, true⟩ { } = .ok r ∧ r.algo = Algo.Grid
      ∧ r.gridType = GridType.G3x3 :=
  ⟨rfl, (applyOptions_names ⟨"grid3x3", 0, true, true⟩ { }).2.2.2.2.1 rfl⟩

/-! ### C9: structural misuse -/

/-- C9 (amended): with a number of parameters of interest other than 2,
`doContour2D` fails at once with a logic error, and `doStitch2D` returns
normally (it only prints a message); in both cases no scan point is
committed and no parameter is modified. -/
theorem contour_stitch_wrong_dimension (env : Collab σ) (o : Options) (cl : ℚ) (b : Bool)
    (st : Scan σ) (h : st.poiVals.length ≠ 2) :
    doContour2D env o cl b st
      = .error (Err.logic_error "Contour2D works only in 2 dimensions") ∧
    ∀ fuel, doStitch2D env o fuel st = some st := by
  constructor
  · unfold doContour2D
    rw [if_pos h]
  · intro fuel
    unfold doStitch2D
    simp only []
    rw [if_neg h]

/-- Witness of C9: one parameter of interest. -/
theorem contour_stitch_wrong_dimension_witness :
    (startScan [0]).poiVals.length ≠ 2 ∧
    doContour2D (listEnv (fun _ => 0) (fun _ => 0) true none) { } (68/100) true (startScan [0])
      = .error (Err.logic_error "Contour2D works only in 2 dimensions") :=
  ⟨by decide,
    (contour_stitch_wrong_dimension (listEnv (fun _ => 0) (fun _ => 0) true none) { } (68/100)
      true (startScan [0]) (by decide)).1⟩

/-- Counterexample to C9 as stated: `doStitch2D` called with one parameter
of interest does not fail; it returns normally, whatever the fuel, and
leaves the scan state as it was. -/
theorem doStitch2D_one_poi_returns :
    (startScan [0]).poiVals.length ≠ 2 ∧
    ∀ fuel, (doStitch2D (listEnv (fun _ => 0) (fun _ => 0) true none) { } fuel
        (startScan [0])).isSome = true :=
  ⟨by decide, fun _ => rfl⟩

/-! ### C10: confidence box -/

/-- C10: `doBox` with point committing enabled commits exactly two scan
points per axis, `2n` in total, whatever the crossing finder returns; when
the crossing finder returns NaN for one side of an axis, the edge stored in
the named range for that side is the declared limit of the axis and the
point is committed with quantile equal to the chi-squared survival
probability of `2*(nll - nll0)` with `n + nOtherFloatingPoi_` degrees of
freedom instead of `1 - cl`. -/
theorem doBox_commits_two_per_axis (env : Collab σ) (o : Options) (cl : ℚ) (name : String) :
    (∀ st : Scan σ, (doBox env o cl name true st).committed.length
      = st.committed.length + 2 * st.poiVals.length) ∧
    (∀ (nll0 threshold : ℚ) (n : Nat) (p0 : List ℚ) (i : Nat) (st : Scan σ),
      (boxAxis env o cl nll0 threshold n p0 name true i st).ranges
        = st.ranges ++ [(i, name,
            (boxSide env o cl nll0 threshold n p0 true i (env.getMin i)
              { st with model := env.setConstant i true st.model }).1,
            (boxSide env o cl nll0 threshold n p0 true i (env.getMax i)
              (boxSide env o cl nll0 threshold n p0 true i (env.getMin i)
                { st with model := env.setConstant i true st.model }).2).1)]) ∧
    (∀ (nll0 threshold : ℚ) (n : Nat) (p0 : List ℚ) (i : Nat) (limit : σ → ℚ) (st : Scan σ),
      (env.findCrossing i threshold (p0.getD i 0) (limit (resetPois env p0 n 0 st.model))
        (resetPois env p0 n 0 st.model)).1 = none →
      (boxSide env o cl nll0 threshold n p0 true i limit st).1
        = limit (boxSide env o cl nll0 threshold n p0 true i limit st).2.model ∧
      (boxSide env o cl nll0 threshold n p0 true i limit st).2.committed
        = st.committed ++ [⟨(List.range n).map (fun j =>
              env.getPoi j (boxSide env o cl nll0 threshold n p0 true i limit st).2.model),
            st.deltaNLL,
            env.chisquared_cdf_c
              (2 * (env.getVal (boxSide env o cl nll0 threshold n p0 true i limit st).2.model
                - nll0)) (n + o.nOtherFloatingPoi),
            st.specifiedVals⟩]) := by
  refine ⟨?_, ?_, ?_⟩
  · intro st
    unfold doBox
    simp only []
    rw [boxLoop_length _ (fun i s => boxAxis_length env o cl _ _ _ _ name i s)]
  · intro nll0 threshold n p0 i st
    unfold boxAxis
    simp only []
    rw [boxSide_ranges, boxSide_ranges]
  · intro nll0 threshold n p0 i limit st hnan
    unfold boxSide
    simp only [hnan]
    exact ⟨rfl, rfl⟩

/-- Witness of C10: a crossing finder that always returns NaN; the lower
edge of axis 0 is then the lower limit 0 of the axis. -/
theorem doBox_commits_two_per_axis_witness :
    ((listEnv (fun _ => 0) (fun _ => 0) true none).findCrossing 0 1 (([0, 0] : List ℚ).getD 0 0)
      ((listEnv (fun _ => 0) (fun _ => 0) true none).getMin 0
        (resetPois (listEnv (fun _ => 0) (fun _ => 0) true none) [0, 0] 2 0
          (startScan [0, 0]).model))
      (resetPois (listEnv (fun _ => 0) (fun _ => 0) true none) [0, 0] 2 0
        (startScan [0, 0]).model)).1 = none ∧
    (boxSide (listEnv (fun _ => 0) (fun _ => 0) true none) { } (68/100) 0 1 2 [0, 0] true 0
      ((listEnv (fun _ => 0) (fun _ => 0) true none).getMin 0) (startScan [0, 0])).1
      = (listEnv (fun _ => 0) (fun _ => 0) true none).getMin 0
          (boxSide (listEnv (fun _ => 0) (fun _ => 0) true none) { } (68/100) 0 1 2 [0, 0] true 0
            ((listEnv (fun _ => 0) (fun _ => 0) true none).getMin 0)
            (startScan [0, 0])).2.model :=
  ⟨rfl,
    ((doBox_commits_two_per_axis (listEnv (fun _ => 0) (fun _ => 0) true none) { } (68/100)
      "box").2.2 0 1 2 [0, 0] 0 ((listEnv (fun _ => 0) (fun _ => 0) true none).getMin 0)
      (startScan [0, 0]) rfl).1⟩

/-! ## The 1-D minimum search as iterated steps -/

theorem searchLoop_succ (env : Collab σ) (o : Options) (nll0 : ℚ) (snap : σ) (precision : ℚ)
    (rem i : Nat) (br : Bracket) (st : Scan σ) :
    searchLoop env o nll0 snap precision (rem + 1) i br st =
      if br.b - br.a < precision then (br, st)
      else if i < o.firstPoint then searchLoop env o nll0 snap precision rem (i + 1) br st
      else if i > o.lastPoint then (br, st)
      else searchLoop env o nll0 snap precision rem (i + 1)
        (searchStep env o nll0 snap br st).1 (searchStep env o nll0 snap br st).2 := rfl

theorem searchSteps_zero (env : Collab σ) (o : Options) (nll0 : ℚ) (snap : σ)
    (p : Bracket × Scan σ) : searchSteps env o nll0 snap 0 p = p := rfl

theorem searchSteps_succ (env : Collab σ) (o : Options) (nll0 : ℚ) (snap : σ) (n : Nat)
    (p : Bracket × Scan σ) :
    searchSteps env o nll0 snap (n + 1) p =
      searchSteps env o nll0 snap n (searchStep env o nll0 snap p.1 p.2) := by
  simp only [searchSteps, Function.iterate_succ_apply]

theorem searchSteps_last (env : Collab σ) (o : Options) (nll0 : ℚ) (snap : σ) (n : Nat)
    (p : Bracket × Scan σ) :
    searchSteps env o nll0 snap (n + 1) p =
      searchStep env o nll0 snap (searchSteps env o nll0 snap n p).1
        (searchSteps env o nll0 snap n p).2 := by
  simp only [searchSteps, Function.iterate_succ_apply']

/-- The loop of the minimum search is a number of executed iterations, at
most the number of iterations left. -/
theorem searchLoop_steps (env : Collab σ) (o : Options) (nll0 : ℚ) (snap : σ) (precision : ℚ) :
    ∀ (rem i : Nat) (br : Bracket) (st : Scan σ), ∃ n, n ≤ rem ∧
      searchLoop env o nll0 snap precision rem i br st =
        searchSteps env o nll0 snap n (br, st) := by
  intro rem
  induction rem with
  | zero => intro i br st; exact ⟨0, le_refl _, rfl⟩
  | succ rem ih =>
    intro i br st
    rw [searchLoop_succ]
    split
    · exact ⟨0, Nat.zero_le _, rfl⟩
    · split
      · obtain ⟨n, hn, h⟩ := ih (i + 1) br st
        exact ⟨n, Nat.le_succ_of_le hn, h⟩
      · split
        · exact ⟨0, Nat.zero_le _, rfl⟩
        · obtain ⟨n, hn, h⟩ := ih (i + 1) (searchStep env o nll0 snap br st).1
            (searchStep env o nll0 snap br st).2
          exact ⟨n + 1, Nat.succ_le_succ hn, by rw [h, searchSteps_succ]⟩

/-- With the full index range the loop stops only when the iterations are
used up or the bracket is narrower than the precision. -/
theorem searchLoop_steps_full (env : Collab σ) (o : Options) (nll0 : ℚ) (snap : σ)
    (precision : ℚ) (hfirst : o.firstPoint = 0) :
    ∀ (rem i : Nat) (br : Bracket) (st : Scan σ), i + rem ≤ o.lastPoint + 1 → ∃ n, n ≤ rem ∧
      searchLoop env o nll0 snap precision rem i br st =
        searchSteps env o nll0 snap n (br, st) ∧
      (n = rem ∨ (searchSteps env o nll0 snap n (br, st)).1.b -
        (searchSteps env o nll0 snap n (br, st)).1.a < precision) ∧
      (n = 0 ∨ ¬ br.b - br.a < precision) := by
  intro rem
  induction rem with
  | zero => intro i br st _; exact ⟨0, le_refl _, rfl, Or.inl rfl, Or.inl rfl⟩
  | succ rem ih =>
    intro i br st hi
    rw [searchLoop_succ]
    by_cases h1 : br.b - br.a < precision
    · rw [if_pos h1]
      exact ⟨0, Nat.zero_le _, rfl, Or.inr h1, Or.inl rfl⟩
    · rw [if_neg h1, if_neg (by omega), if_neg (by omega)]
      obtain ⟨n, hn, h, hstop, _⟩ := ih (i + 1) (searchStep env o nll0 snap br st).1
        (searchStep env o nll0 snap br st).2 (by omega)
      refine ⟨n + 1, Nat.succ_le_succ hn, by rw [h, searchSteps_succ], ?_, Or.inr h1⟩
      rw [searchSteps_succ]
      rcases hstop with hstop | hstop
      · exact Or.inl (by omega)
      · exact Or.inr hstop

/-- Bracket after one executed iteration, whatever the probes read: the
probes, the counter and the two possible new brackets. -/
theorem searchStep_cases (env : Collab σ) (o : Options) (nll0 : ℚ) (snap : σ)
    (br : Bracket) (st : Scan σ) :
    (searchStep env o nll0 snap br st).1.x1 = br.a + (br.b - br.a) / 3 ∧
    (searchStep env o nll0 snap br st).1.x2 = br.b - (br.b - br.a) / 3 ∧
    (searchStep env o nll0 snap br st).1.count = (br.count + 2) % uintMod ∧
    ((searchStep env o nll0 snap br st).1.a = br.a ∧
        (searchStep env o nll0 snap br st).1.b = br.b - (br.b - br.a) / 3 ∨
      (searchStep env o nll0 snap br st).1.a = br.a + (br.b - br.a) / 3 ∧
        (searchStep env o nll0 snap br st).1.b = br.b) := by
  simp only [searchStep]
  split
  · exact ⟨rfl, rfl, rfl, Or.inl ⟨rfl, rfl⟩⟩
  · exact ⟨rfl, rfl, rfl, Or.inr ⟨rfl, rfl⟩⟩

/-- Width of the bracket after one executed iteration. -/
theorem searchStep_width (env : Collab σ) (o : Options) (nll0 : ℚ) (snap : σ)
    (br : Bracket) (st : Scan σ) :
    (searchStep env o nll0 snap br st).1.b - (searchStep env o nll0 snap br st).1.a =
      2 / 3 * (br.b - br.a) := by
  obtain ⟨_, _, _, h | h⟩ := searchStep_cases env o nll0 snap br st
  · rw [h.1, h.2]; ring
  · rw [h.1, h.2]; ring

/-- Fields of the bracket after one executed iteration, for probes that
read the profile `f`. -/
theorem searchStep_fields (env : Collab σ) (o : Options) (nll0 : ℚ) (snap : σ) (f : ℚ → ℚ)
    (hf : ∀ x s, (searchProbe env o nll0 snap x s).1 = f x) (br : Bracket) (st : Scan σ) :
    (searchStep env o nll0 snap br st).1.y1 = f (br.a + (br.b - br.a) / 3) ∧
    (searchStep env o nll0 snap br st).1.y2 = f (br.b - (br.b - br.a) / 3) ∧
    (f (br.a + (br.b - br.a) / 3) < f (br.b - (br.b - br.a) / 3) →
      (searchStep env o nll0 snap br st).1.a = br.a ∧
      (searchStep env o nll0 snap br st).1.b = br.b - (br.b - br.a) / 3) ∧
    (¬ f (br.a + (br.b - br.a) / 3) < f (br.b - (br.b - br.a) / 3) →
      (searchStep env o nll0 snap br st).1.a = br.a + (br.b - br.a) / 3 ∧
      (searchStep env o nll0 snap br st).1.b = br.b) := by
  simp only [searchStep, hf]
  by_cases h : f (br.a + (br.b - br.a) / 3) < f (br.b - (br.b - br.a) / 3)
  · simp [h]
  · simp [h]

/-- Width and counter after `n` executed iterations. -/
theorem searchSteps_width (env : Collab σ) (o : Options) (nll0 : ℚ) (snap : σ) (n : Nat)
    (br : Bracket) (st : Scan σ) (hc : br.count < uintMod) :
    (searchSteps env o nll0 snap n (br, st)).1.b - (searchSteps env o nll0 snap n (br, st)).1.a =
      (2 / 3) ^ n * (br.b - br.a) ∧
    (searchSteps env o nll0 snap n (br, st)).1.count = (br.count + 2 * n) % uintMod := by
  induction n with
  | zero => exact ⟨by simp [searchSteps_zero], by simp [searchSteps_zero, Nat.mod_eq_of_lt hc]⟩
  | succ n ih =>
    rw [searchSteps_last]
    refine ⟨?_, ?_⟩
    · rw [searchStep_width, ih.1]; ring
    · rw [(searchStep_cases env o nll0 snap _ _).2.2.1, ih.2, Nat.mod_add_mod]
      congr 1

/-- After one executed iteration of a bracket with `a ≤ b` the probes lie
in the new bracket and the new bracket in the old one. -/
theorem searchStep_inside (env : Collab σ) (o : Options) (nll0 : ℚ) (snap : σ)
    (br : Bracket) (st : Scan σ) (hab : br.a ≤ br.b) :
    br.a ≤ (searchStep env o nll0 snap br st).1.a ∧
    (searchStep env o nll0 snap br st).1.a ≤ (searchStep env o nll0 snap br st).1.x1 ∧
    (searchStep env o nll0 snap br st).1.x1 ≤ (searchStep env o nll0 snap br st).1.x2 ∧
    (searchStep env o nll0 snap br st).1.x2 ≤ (searchStep env o nll0 snap br st).1.b ∧
    (searchStep env o nll0 snap br st).1.b ≤ br.b := by
  obtain ⟨h1, h2, _, h | h⟩ := searchStep_cases env o nll0 snap br st
  · rw [h1, h2, h.1, h.2]
    refine ⟨le_refl _, ?_, ?_, le_refl _, ?_⟩ <;> linarith
  · rw [h1, h2, h.1, h.2]
    refine ⟨?_, le_refl _, ?_, ?_, le_refl _⟩ <;> linarith

/-- After `n` executed iterations of a bracket with `a ≤ b` the bracket lies
in the initial one. -/
theorem searchSteps_inside (env : Collab σ) (o : Options) (nll0 : ℚ) (snap : σ) (n : Nat)
    (br : Bracket) (st : Scan σ) (hab : br.a ≤ br.b) :
    br.a ≤ (searchSteps env o nll0 snap n (br, st)).1.a ∧
    (searchSteps env o nll0 snap n (br, st)).1.a ≤ (searchSteps env o nll0 snap n (br, st)).1.b ∧
    (searchSteps env o nll0 snap n (br, st)).1.b ≤ br.b := by
  induction n with
  | zero => exact ⟨le_refl _, hab, le_refl _⟩
  | succ n ih =>
    rw [searchSteps_last]
    have h := searchStep_inside env o nll0 snap (searchSteps env o nll0 snap n (br, st)).1
      (searchSteps env o nll0 snap n (br, st)).2 ih.2.1
    exact ⟨le_trans ih.1 h.1, by linarith [h.2.1, h.2.2.1, h.2.2.2.1], le_trans h.2.2.2.2 ih.2.2⟩

/-- After one executed iteration the midpoint of the probes is within three
quarters of the new width of every point of the new bracket. -/
theorem searchStep_midpoint (env : Collab σ) (o : Options) (nll0 : ℚ) (snap : σ)
    (br : Bracket) (st : Scan σ) (xs : ℚ)
    (h1 : (searchStep env o nll0 snap br st).1.a ≤ xs)
    (h2 : xs ≤ (searchStep env o nll0 snap br st).1.b) :
    |((searchStep env o nll0 snap br st).1.x1 + (searchStep env o nll0 snap br st).1.x2) / 2 - xs|
      ≤ 3 / 4 * ((searchStep env o nll0 snap br st).1.b - (searchStep env o nll0 snap br st).1.a) := by
  obtain ⟨e1, e2, _, h | h⟩ := searchStep_cases env o nll0 snap br st
  · rw [h.1] at h1; rw [h.2] at h2
    rw [e1, e2, h.1, h.2, abs_le]
    constructor <;> linarith
  · rw [h.1] at h1; rw [h.2] at h2
    rw [e1, e2, h.1, h.2, abs_le]
    constructor <;> linarith

/-- A strictly convex profile with minimiser `xs` on `[A, B]`: a point
strictly between another point and the minimiser has a lower value than that
other point. -/
theorem strictConvex_between (f : ℚ → ℚ) (A B xs : ℚ)
    (hconv : StrictConvexOn ℚ (Set.Icc A B) f) (hxs : xs ∈ Set.Icc A B)
    (hmin : ∀ x ∈ Set.Icc A B, f xs ≤ f x) (p z : ℚ) (hp : p ∈ Set.Icc A B)
    (hz : (p < z ∧ z < xs) ∨ (xs < z ∧ z < p)) : f z < f p := by
  rcases hz with hz | hz
  · have hne : p ≠ xs := ne_of_lt (lt_trans hz.1 hz.2)
    have h := hconv.lt_on_openSegment hp hxs hne
      (by rw [openSegment_eq_Ioo (lt_trans hz.1 hz.2)]; exact ⟨hz.1, hz.2⟩)
    rwa [max_eq_left (hmin p hp)] at h
  · have hne : xs ≠ p := ne_of_lt (lt_trans hz.1 hz.2)
    have h := hconv.lt_on_openSegment hxs hp hne
      (by rw [openSegment_eq_Ioo (lt_trans hz.1 hz.2)]; exact ⟨hz.1, hz.2⟩)
    rwa [max_eq_right (hmin p hp)] at h

/-- One executed iteration keeps the minimiser of a strictly convex profile
in the bracket. -/
theorem searchStep_minimiser (env : Collab σ) (o : Options) (nll0 : ℚ) (snap : σ) (f : ℚ → ℚ)
    (hf : ∀ x s, (searchProbe env o nll0 snap x s).1 = f x) (A B xs : ℚ)
    (hconv : StrictConvexOn ℚ (Set.Icc A B) f) (hxs : xs ∈ Set.Icc A B)
    (hmin : ∀ x ∈ Set.Icc A B, f xs ≤ f x) (br : Bracket) (st : Scan σ)
    (hA : A ≤ br.a) (hB : br.b ≤ B) (h1 : br.a ≤ xs) (h2 : xs ≤ br.b) :
    (searchStep env o nll0 snap br st).1.a ≤ xs ∧ xs ≤ (searchStep env o nll0 snap br st).1.b := by
  obtain ⟨_, _, hlt, hge⟩ := searchStep_fields env o nll0 snap f hf br st
  have hab : br.a ≤ br.b := le_trans h1 h2
  have hx1 : br.a + (br.b - br.a) / 3 ∈ Set.Icc A B := ⟨by linarith, by linarith⟩
  have hx2 : br.b - (br.b - br.a) / 3 ∈ Set.Icc A B := ⟨by linarith, by linarith⟩
  by_cases h : f (br.a + (br.b - br.a) / 3) < f (br.b - (br.b - br.a) / 3)
  · rw [(hlt h).1, (hlt h).2]
    refine ⟨h1, ?_⟩
    by_contra hc
    push_neg at hc
    have hd : br.a < br.b := by linarith
    have := strictConvex_between f A B xs hconv hxs hmin _ _ hx1
      (Or.inl ⟨by linarith, hc⟩)
    exact absurd h (not_lt.mpr (le_of_lt this))
  · rw [(hge h).1, (hge h).2]
    refine ⟨?_, h2⟩
    by_contra hc
    push_neg at hc
    have hd : br.a < br.b := by linarith
    have := strictConvex_between f A B xs hconv hxs hmin _ _ hx2
      (Or.inr ⟨hc, by linarith⟩)
    exact h this

/-- Every number of executed iterations keeps the minimiser of a strictly
convex profile in the bracket. -/
theorem searchSteps_minimiser (env : Collab σ) (o : Options) (nll0 : ℚ) (snap : σ) (f : ℚ → ℚ)
    (hf : ∀ x s, (searchProbe env o nll0 snap x s).1 = f x) (A B xs : ℚ)
    (hconv : StrictConvexOn ℚ (Set.Icc A B) f) (hxs : xs ∈ Set.Icc A B)
    (hmin : ∀ x ∈ Set.Icc A B, f xs ≤ f x) (br : Bracket) (st : Scan σ)
    (hA : A ≤ br.a) (hB : br.b ≤ B) (h1 : br.a ≤ xs) (h2 : xs ≤ br.b) (n : Nat) :
    (searchSteps env o nll0 snap n (br, st)).1.a ≤ xs ∧
    xs ≤ (searchSteps env o nll0 snap n (br, st)).1.b := by
  induction n with
  | zero => exact ⟨h1, h2⟩
  | succ n ih =>
    rw [searchSteps_last]
    have hin := searchSteps_inside env o nll0 snap n br st (le_trans h1 h2)
    exact searchStep_minimiser env o nll0 snap f hf A B xs hconv hxs hmin _ _
      (le_trans hA hin.1) (le_trans hin.2.2 hB) ih.1 ih.2

/-- The objective of `parabolaEnv` is strictly convex on every interval. -/
theorem parabola_strictConvexOn (c A B : ℚ) :
    StrictConvexOn ℚ (Set.Icc A B) (fun x : ℚ => (x - c) ^ 2) := by
  refine ⟨convex_Icc A B, ?_⟩
  intro x _ y _ hxy a b ha hb hab
  have hb1 : b = 1 - a := by linarith
  subst hb1
  have h1 : 0 < (x - y) ^ 2 := by
    have : x - y ≠ 0 := sub_ne_zero.mpr hxy
    positivity
  have h2 : 0 < a * (1 - a) * (x - y) ^ 2 := mul_pos (mul_pos ha hb) h1
  simp only [smul_eq_mul]
  nlinarith [h2]

/-- The probes of the minimum search read the objective of `parabolaEnv`. -/
theorem parabola_probe (c : ℚ) (o : Options) (nll0 x : ℚ) (s : Scan (List ℚ)) :
    (searchProbe (parabolaEnv c) o nll0 [0] x s).1 = (x - c) ^ 2 := by
  simp [searchProbe, parabolaEnv, listEnv, runMinimize, setPoi]

/-- When the range filter skips every index of the search loop, the bracket
is left as initialised. -/
theorem searchLoop_skipped (env : Collab σ) (o : Options) (nll0 : ℚ) (snap : σ) (precision : ℚ) :
    ∀ (rem i : Nat) (br : Bracket) (st : Scan σ), i + rem ≤ o.firstPoint →
      searchLoop env o nll0 snap precision rem i br st = (br, st) := by
  intro rem
  induction rem with
  | zero => intro i br st _; rfl
  | succ rem ih =>
    intro i br st hi
    rw [searchLoop_succ]
    split
    · rfl
    · rw [if_pos (by omega)]
      exact ih (i + 1) br st (by omega)

/-- After at least one executed iteration from `[pmin, pmax]` the probes
`x1 ≤ x2` lie in the final bracket, which lies in `[pmin, pmax]`. -/
theorem searchSteps_probes_inside (env : Collab σ) (o : Options) (nll0 : ℚ) (snap : σ) (m : Nat)
    (br : Bracket) (st : Scan σ) (hab : br.a ≤ br.b) :
    br.a ≤ (searchSteps env o nll0 snap (m + 1) (br, st)).1.a ∧
    (searchSteps env o nll0 snap (m + 1) (br, st)).1.a ≤
      (searchSteps env o nll0 snap (m + 1) (br, st)).1.x1 ∧
    (searchSteps env o nll0 snap (m + 1) (br, st)).1.x1 ≤
      (searchSteps env o nll0 snap (m + 1) (br, st)).1.x2 ∧
    (searchSteps env o nll0 snap (m + 1) (br, st)).1.x2 ≤
      (searchSteps env o nll0 snap (m + 1) (br, st)).1.b ∧
    (searchSteps env o nll0 snap (m + 1) (br, st)).1.b ≤ br.b := by
  have hin := searchSteps_inside env o nll0 snap m br st hab
  rw [searchSteps_last]
  have h := searchStep_inside env o nll0 snap (searchSteps env o nll0 snap m (br, st)).1
    (searchSteps env o nll0 snap m (br, st)).2 hin.2.1
  exact ⟨le_trans hin.1 h.1, h.2.1, h.2.2.1, h.2.2.2.1, le_trans h.2.2.2.2 hin.2.2⟩

/-- With the full index range, at least two points and `pmin < pmax`, the
search loop executes `n` iterations with `1 ≤ n ≤ points_/2`, and stops
before `points_/2` only with a bracket narrower than the precision. -/
theorem searchLoop_steps_pos (env : Collab σ) (o : Options) (nll0 : ℚ) (snap : σ)
    (pmin0 pmax0 : ℚ) (st : Scan σ) (hfirst : o.firstPoint = 0)
    (hlast : o.points / 2 ≤ o.lastPoint + 1) (hN : 2 ≤ o.points) (hab : pmin0 < pmax0) :
    ∃ m, m + 1 ≤ o.points / 2 ∧
      searchLoop env o nll0 snap ((pmax0 - pmin0) / o.points) (o.points / 2) 0
          ⟨pmin0, pmax0, 0, 0, 0, 0, 1⟩ st =
        searchSteps env o nll0 snap (m + 1) (⟨pmin0, pmax0, 0, 0, 0, 0, 1⟩, st) ∧
      (m + 1 = o.points / 2 ∨
        (searchSteps env o nll0 snap (m + 1) (⟨pmin0, pmax0, 0, 0, 0, 0, 1⟩, st)).1.b -
          (searchSteps env o nll0 snap (m + 1) (⟨pmin0, pmax0, 0, 0, 0, 0, 1⟩, st)).1.a
          < (pmax0 - pmin0) / o.points) := by
  obtain ⟨n, hn, h, hstop, _⟩ := searchLoop_steps_full env o nll0 snap
    ((pmax0 - pmin0) / o.points) hfirst (o.points / 2) 0 ⟨pmin0, pmax0, 0, 0, 0, 0, 1⟩ st
    (by omega)
  have hNq : (1 : ℚ) ≤ (o.points : ℚ) := by exact_mod_cast (by omega : 1 ≤ o.points)
  have hwide : ¬ (pmax0 - pmin0 < (pmax0 - pmin0) / o.points) := by
    rw [not_lt, div_le_iff₀ (by linarith)]
    nlinarith
  cases n with
  | zero =>
    exfalso
    rcases hstop with hstop | hstop
    · omega
    · exact hwide hstop
  | succ m => exact ⟨m, hn, h, hstop⟩

/-! ### C13: the bracket reported by the minimum search -/

/-- C13: when the range filter skips every index of the search loop
(`points_/2 ≤ firstPoint_`, also `points_ < 2`), the search reports the
bracket `x1 = x2 = 0` it was initialised with and the origin `0`, which for
`0 < pmin` lies outside `[pmin, pmax]`; with the full index range, at least
two points and `pmin < pmax` at least one iteration runs and
`pmin ≤ x1 ≤ x2 ≤ pmax` holds, for the midpoint too. -/
theorem search_reported_bracket (env : Collab σ) (o : Options) (nll0 : ℚ) (snap : σ)
    (pmin0 pmax0 : ℚ) (st : Scan σ) :
    (o.points / 2 ≤ o.firstPoint →
      (searchBracket env o nll0 snap pmin0 pmax0 st).x1 = 0 ∧
      (searchBracket env o nll0 snap pmin0 pmax0 st).x2 = 0 ∧
      ((searchBracket env o nll0 snap pmin0 pmax0 st).x1 +
        (searchBracket env o nll0 snap pmin0 pmax0 st).x2) / 2 = 0 ∧
      (0 < pmin0 → ¬ pmin0 ≤ (searchBracket env o nll0 snap pmin0 pmax0 st).x1)) ∧
    (o.firstPoint = 0 → o.points / 2 ≤ o.lastPoint + 1 → 2 ≤ o.points → pmin0 < pmax0 →
      pmin0 ≤ (searchBracket env o nll0 snap pmin0 pmax0 st).x1 ∧
      (searchBracket env o nll0 snap pmin0 pmax0 st).x1 ≤
        (searchBracket env o nll0 snap pmin0 pmax0 st).x2 ∧
      (searchBracket env o nll0 snap pmin0 pmax0 st).x2 ≤ pmax0 ∧
      pmin0 ≤ ((searchBracket env o nll0 snap pmin0 pmax0 st).x1 +
        (searchBracket env o nll0 snap pmin0 pmax0 st).x2) / 2 ∧
      ((searchBracket env o nll0 snap pmin0 pmax0 st).x1 +
        (searchBracket env o nll0 snap pmin0 pmax0 st).x2) / 2 ≤ pmax0) := by
  constructor
  · intro h
    have e : searchBracket env o nll0 snap pmin0 pmax0 st = ⟨pmin0, pmax0, 0, 0, 0, 0, 1⟩ := by
      simp only [searchBracket]
      rw [searchLoop_skipped env o nll0 snap _ (o.points / 2) 0 _ st (by omega)]
    rw [e]
    exact ⟨rfl, rfl, by norm_num, fun hp => not_le.mpr hp⟩
  · intro hfirst hlast hN hab
    obtain ⟨m, _, h, _⟩ := searchLoop_steps_pos env o nll0 snap pmin0 pmax0 st hfirst hlast hN hab
    have hp := searchSteps_probes_inside env o nll0 snap m ⟨pmin0, pmax0, 0, 0, 0, 0, 1⟩ st
      (le_of_lt hab)
    simp only [searchBracket, h]
    obtain ⟨h1, h2, h3, h4, h5⟩ := hp
    simp only [] at h1 h5
    refine ⟨by linarith, h3, by linarith, by linarith, by linarith⟩

/-- Witness for C13: 50 points on `[1, 2]` and `firstPoint_ = 25`: the
search reports `x1 = x2 = 0` and the origin `0`, below `pmin = 1`. -/
theorem search_reported_bracket_witness :
    ({ firstPoint := 25 } : Options).points / 2 ≤ ({ firstPoint := 25 } : Options).firstPoint ∧
    (0 : ℚ) < 1 ∧
    (searchBracket (parabolaEnv (3/2)) { firstPoint := 25 } 0 [0] 1 2 (startScan [0])).x1 = 0 ∧
    (searchBracket (parabolaEnv (3/2)) { firstPoint := 25 } 0 [0] 1 2 (startScan [0])).x2 = 0 ∧
    ((searchBracket (parabolaEnv (3/2)) { firstPoint := 25 } 0 [0] 1 2 (startScan [0])).x1 +
      (searchBracket (parabolaEnv (3/2)) { firstPoint := 25 } 0 [0] 1 2 (startScan [0])).x2) / 2
      = 0 ∧
    ¬ 1 ≤ (searchBracket (parabolaEnv (3/2)) { firstPoint := 25 } 0 [0] 1 2 (startScan [0])).x1 :=
  ⟨by decide, by norm_num,
    ((search_reported_bracket (parabolaEnv (3/2)) { firstPoint := 25 } 0 [0] 1 2
      (startScan [0])).1 (by decide)).1,
    ((search_reported_bracket (parabolaEnv (3/2)) { firstPoint := 25 } 0 [0] 1 2
      (startScan [0])).1 (by decide)).2.1,
    ((search_reported_bracket (parabolaEnv (3/2)) { firstPoint := 25 } 0 [0] 1 2
      (startScan [0])).1 (by decide)).2.2.1,
    ((search_reported_bracket (parabolaEnv (3/2)) { firstPoint := 25 } 0 [0] 1 2
      (startScan [0])).1 (by decide)).2.2.2 (by norm_num)⟩

/-! ### C14: precision of the minimum search -/

/-- C14, counterexample: 3 points on `[0, 3]` with the strictly convex
profile `x^2`, minimiser `0`: the only iteration probes 1 and 2, the
midpoint `3/2` is further than the precision `(3-0)/3 = 1` from the
minimiser. -/
theorem search_precision_counterexample :
    (∀ x s, (searchProbe (parabolaEnv 0) { points := 3, plotPower := 2 } 0 [0] x s).1
      = (x - 0) ^ 2) ∧
    StrictConvexOn ℚ (Set.Icc 0 3) (fun x : ℚ => (x - 0) ^ 2) ∧
    (0 : ℚ) ∈ Set.Icc (0 : ℚ) 3 ∧
    (∀ x ∈ Set.Icc (0 : ℚ) 3, ((0 : ℚ) - 0) ^ 2 ≤ (x - 0) ^ 2) ∧
    ({ points := 3, plotPower := 2 } : Options).firstPoint = 0 ∧
    ({ points := 3, plotPower := 2 } : Options).lastPoint = 4294967295 ∧
    (searchBracket (parabolaEnv 0) { points := 3, plotPower := 2 } 0 [0] 0 3 (startScan [0])).x1
      = 1 ∧
    (searchBracket (parabolaEnv 0) { points := 3, plotPower := 2 } 0 [0] 0 3 (startScan [0])).x2
      = 2 ∧
    ¬ |((searchBracket (parabolaEnv 0) { points := 3, plotPower := 2 } 0 [0] 0 3
          (startScan [0])).x1 +
        (searchBracket (parabolaEnv 0) { points := 3, plotPower := 2 } 0 [0] 0 3
          (startScan [0])).x2) / 2 - 0| ≤ (3 - 0) / ((3 : Nat) : ℚ) := by
  have e1 : (searchBracket (parabolaEnv 0) { points := 3, plotPower := 2 } 0 [0] 0 3
      (startScan [0])).x1 = 1 := by decide!
  have e2 : (searchBracket (parabolaEnv 0) { points := 3, plotPower := 2 } 0 [0] 0 3
      (startScan [0])).x2 = 2 := by decide!
  refine ⟨parabola_probe 0 _ 0, parabola_strictConvexOn 0 0 3, ⟨by norm_num, by norm_num⟩,
    fun x _ => by simp only [sub_self]; positivity, rfl, rfl, e1, e2, ?_⟩
  rw [e1, e2, show ((1 : ℚ) + 2) / 2 - 0 = 3 / 2 by norm_num,
    abs_of_pos (by norm_num : (0 : ℚ) < 3 / 2)]
  norm_num

/-- C14, amended: with the full index range, at least two points, exact
profile values and a strictly convex profile with minimiser `xs` in
`[pmin, pmax]`, `pmin < pmax`, the search executes `n` iterations with
`1 ≤ n ≤ points_/2`, stopping before `points_/2` only with a bracket
narrower than the precision, and the midpoint of the final probes is within
`3/4 * (2/3)^n * (pmax - pmin)`, three quarters of the final width, of `xs`;
it is within the precision whenever the final bracket is narrower than the
precision. -/
theorem search_midpoint_near_minimiser (env : Collab σ) (o : Options) (nll0 : ℚ) (snap : σ)
    (f : ℚ → ℚ) (hf : ∀ x s, (searchProbe env o nll0 snap x s).1 = f x)
    (pmin0 pmax0 xs : ℚ) (st : Scan σ) (hfirst : o.firstPoint = 0)
    (hlast : o.points / 2 ≤ o.lastPoint + 1) (hN : 2 ≤ o.points) (hab : pmin0 < pmax0)
    (hconv : StrictConvexOn ℚ (Set.Icc pmin0 pmax0) f) (hxs : xs ∈ Set.Icc pmin0 pmax0)
    (hmin : ∀ x ∈ Set.Icc pmin0 pmax0, f xs ≤ f x) :
    ∃ n, 1 ≤ n ∧ n ≤ o.points / 2 ∧
      (searchBracket env o nll0 snap pmin0 pmax0 st).b -
        (searchBracket env o nll0 snap pmin0 pmax0 st).a = (2 / 3) ^ n * (pmax0 - pmin0) ∧
      (n = o.points / 2 ∨ (2 / 3) ^ n * (pmax0 - pmin0) < (pmax0 - pmin0) / o.points) ∧
      |((searchBracket env o nll0 snap pmin0 pmax0 st).x1 +
          (searchBracket env o nll0 snap pmin0 pmax0 st).x2) / 2 - xs|
        ≤ 3 / 4 * ((2 / 3) ^ n * (pmax0 - pmin0)) ∧
      ((2 / 3) ^ n * (pmax0 - pmin0) < (pmax0 - pmin0) / o.points →
        |((searchBracket env o nll0 snap pmin0 pmax0 st).x1 +
          (searchBracket env o nll0 snap pmin0 pmax0 st).x2) / 2 - xs|
        < (pmax0 - pmin0) / o.points) := by
  obtain ⟨m, hm, h, hstop⟩ :=
    searchLoop_steps_pos env o nll0 snap pmin0 pmax0 st hfirst hlast hN hab
  have hw := (searchSteps_width env o nll0 snap (m + 1) ⟨pmin0, pmax0, 0, 0, 0, 0, 1⟩ st
    (show 1 < uintMod by decide)).1
  have hx := searchSteps_minimiser env o nll0 snap f hf pmin0 pmax0 xs hconv hxs hmin
    ⟨pmin0, pmax0, 0, 0, 0, 0, 1⟩ st (le_refl _) (le_refl _) hxs.1 hxs.2 (m + 1)
  have hmid : |((searchSteps env o nll0 snap (m + 1) (⟨pmin0, pmax0, 0, 0, 0, 0, 1⟩, st)).1.x1 +
      (searchSteps env o nll0 snap (m + 1) (⟨pmin0, pmax0, 0, 0, 0, 0, 1⟩, st)).1.x2) / 2 - xs|
      ≤ 3 / 4 * ((2 / 3) ^ (m + 1) * (pmax0 - pmin0)) := by
    rw [← hw]
    rw [searchSteps_last] at hx ⊢
    exact searchStep_midpoint env o nll0 snap _ _ xs hx.1 hx.2
  have hpos : 0 < (2 / 3 : ℚ) ^ (m + 1) * (pmax0 - pmin0) :=
    mul_pos (by positivity) (by linarith)
  simp only [] at hw
  refine ⟨m + 1, by omega, hm, ?_, ?_, ?_, ?_⟩
  · simp only [searchBracket, h]; exact hw
  · rcases hstop with hstop | hstop
    · exact Or.inl hstop
    · rw [hw] at hstop; exact Or.inr hstop
  · simp only [searchBracket, h]; exact hmid
  · intro hnarrow
    simp only [searchBracket, h]
    linarith

/-- Witness for C14: 50 points on `[0, 1]` with the profile `(x - 1/3)^2`. -/
theorem search_midpoint_near_minimiser_witness :
    (∀ x s, (searchProbe (parabolaEnv (1/3)) { } 0 [0] x s).1 = (x - 1/3) ^ 2) ∧
    ({ } : Options).firstPoint = 0 ∧
    ({ } : Options).points / 2 ≤ ({ } : Options).lastPoint + 1 ∧
    2 ≤ ({ } : Options).points ∧ (0 : ℚ) < 1 ∧
    StrictConvexOn ℚ (Set.Icc 0 1) (fun x : ℚ => (x - 1/3) ^ 2) ∧
    (1/3 : ℚ) ∈ Set.Icc (0 : ℚ) 1 ∧
    (∀ x ∈ Set.Icc (0 : ℚ) 1, ((1/3 : ℚ) - 1/3) ^ 2 ≤ (x - 1/3) ^ 2) ∧
    ∃ n, 1 ≤ n ∧ n ≤ ({ } : Options).points / 2 ∧
      (searchBracket (parabolaEnv (1/3)) { } 0 [0] 0 1 (startScan [0])).b -
        (searchBracket (parabolaEnv (1/3)) { } 0 [0] 0 1 (startScan [0])).a
          = (2 / 3) ^ n * (1 - 0) ∧
      (n = ({ } : Options).points / 2 ∨
        (2 / 3) ^ n * ((1 : ℚ) - 0) < (1 - 0) / (({ } : Options).points : ℚ)) ∧
      |((searchBracket (parabolaEnv (1/3)) { } 0 [0] 0 1 (startScan [0])).x1 +
          (searchBracket (parabolaEnv (1/3)) { } 0 [0] 0 1 (startScan [0])).x2) / 2 - 1/3|
        ≤ 3 / 4 * ((2 / 3) ^ n * (1 - 0)) ∧
      ((2 / 3) ^ n * ((1 : ℚ) - 0) < (1 - 0) / (({ } : Options).points : ℚ) →
        |((searchBracket (parabolaEnv (1/3)) { } 0 [0] 0 1 (startScan [0])).x1 +
          (searchBracket (parabolaEnv (1/3)) { } 0 [0] 0 1 (startScan [0])).x2) / 2 - 1/3|
        < (1 - 0) / (({ } : Options).points : ℚ)) :=
  ⟨parabola_probe (1/3) { } 0, rfl, by decide, by decide, by norm_num,
    parabola_strictConvexOn (1/3) 0 1, ⟨by norm_num, by norm_num⟩,
    fun x _ => by simp only [sub_self]; positivity,
    search_midpoint_near_minimiser (parabolaEnv (1/3)) { } 0 [0] (fun x => (x - 1/3) ^ 2)
      (parabola_probe (1/3) { } 0) 0 1 (1/3) (startScan [0]) rfl (by decide) (by decide)
      (by norm_num) (parabola_strictConvexOn (1/3) 0 1) ⟨by norm_num, by norm_num⟩
      (fun x _ => by simp only [sub_self]; positivity)⟩

/-! ### C20: one iteration of the 1-D minimum search -/

/-- C20: every executed iteration of the 1-D minimum search probes the
profile at `x1 = a + (b-a)/3` and then at `x2 = b - (b-a)/3`, keeps `[a, x2]`
when the value at `x1` is strictly lower than the value at `x2` and
`[x1, b]` otherwise, and so multiplies the width by `2/3`; the loop is `n`
such iterations for some `n ≤ points_/2`, with final width
`(2/3)^n * (pmax - pmin)`; and for a strictly convex profile with minimiser
in `[pmin, pmax]` the minimiser is in the bracket after every number of
iterations. -/
theorem search_iteration_narrows_bracket (env : Collab σ) (o : Options) (nll0 : ℚ) (snap : σ)
    (f : ℚ → ℚ) (hf : ∀ x s, (searchProbe env o nll0 snap x s).1 = f x) :
    (∀ (br : Bracket) (st : Scan σ),
      (searchStep env o nll0 snap br st).2 =
        (searchProbe env o nll0 snap (br.b - (br.b - br.a) / 3)
          (searchProbe env o nll0 snap (br.a + (br.b - br.a) / 3) st).2).2 ∧
      (searchStep env o nll0 snap br st).1.x1 = br.a + (br.b - br.a) / 3 ∧
      (searchStep env o nll0 snap br st).1.x2 = br.b - (br.b - br.a) / 3 ∧
      (searchStep env o nll0 snap br st).1.y1 = f (br.a + (br.b - br.a) / 3) ∧
      (searchStep env o nll0 snap br st).1.y2 = f (br.b - (br.b - br.a) / 3) ∧
      (f (br.a + (br.b - br.a) / 3) < f (br.b - (br.b - br.a) / 3) →
        (searchStep env o nll0 snap br st).1.a = br.a ∧
        (searchStep env o nll0 snap br st).1.b = br.b - (br.b - br.a) / 3) ∧
      (¬ f (br.a + (br.b - br.a) / 3) < f (br.b - (br.b - br.a) / 3) →
        (searchStep env o nll0 snap br st).1.a = br.a + (br.b - br.a) / 3 ∧
        (searchStep env o nll0 snap br st).1.b = br.b) ∧
      (searchStep env o nll0 snap br st).1.b - (searchStep env o nll0 snap br st).1.a =
        2 / 3 * (br.b - br.a)) ∧
    (∀ (pmin0 pmax0 : ℚ) (st : Scan σ), ∃ n, n ≤ o.points / 2 ∧
      searchLoop env o nll0 snap ((pmax0 - pmin0) / o.points) (o.points / 2) 0
          ⟨pmin0, pmax0, 0, 0, 0, 0, 1⟩ st =
        searchSteps env o nll0 snap n (⟨pmin0, pmax0, 0, 0, 0, 0, 1⟩, st) ∧
      (searchBracket env o nll0 snap pmin0 pmax0 st).b -
          (searchBracket env o nll0 snap pmin0 pmax0 st).a = (2 / 3) ^ n * (pmax0 - pmin0) ∧
      (searchBracket env o nll0 snap pmin0 pmax0 st).count = (1 + 2 * n) % uintMod) ∧
    (∀ (pmin0 pmax0 xs : ℚ), StrictConvexOn ℚ (Set.Icc pmin0 pmax0) f →
      xs ∈ Set.Icc pmin0 pmax0 → (∀ x ∈ Set.Icc pmin0 pmax0, f xs ≤ f x) →
      ∀ (n : Nat) (st : Scan σ),
        (searchSteps env o nll0 snap n (⟨pmin0, pmax0, 0, 0, 0, 0, 1⟩, st)).1.a ≤ xs ∧
        xs ≤ (searchSteps env o nll0 snap n (⟨pmin0, pmax0, 0, 0, 0, 0, 1⟩, st)).1.b) := by
  refine ⟨?_, ?_, ?_⟩
  · intro br st
    obtain ⟨e1, e2, _, _⟩ := searchStep_cases env o nll0 snap br st
    obtain ⟨e3, e4, e5, e6⟩ := searchStep_fields env o nll0 snap f hf br st
    refine ⟨?_, e1, e2, e3, e4, e5, e6, searchStep_width env o nll0 snap br st⟩
    simp only [searchStep]
  · intro pmin0 pmax0 st
    obtain ⟨n, hn, h⟩ := searchLoop_steps env o nll0 snap ((pmax0 - pmin0) / o.points)
      (o.points / 2) 0 ⟨pmin0, pmax0, 0, 0, 0, 0, 1⟩ st
    have hw := searchSteps_width env o nll0 snap n ⟨pmin0, pmax0, 0, 0, 0, 0, 1⟩ st
      (show 1 < uintMod by decide)
    refine ⟨n, hn, h, ?_, ?_⟩
    · simp only [searchBracket, h]; exact hw.1
    · simp only [searchBracket, h]; exact hw.2
  · intro pmin0 pmax0 xs hconv hxs hmin n st
    exact searchSteps_minimiser env o nll0 snap f hf pmin0 pmax0 xs hconv hxs hmin
      ⟨pmin0, pmax0, 0, 0, 0, 0, 1⟩ st (le_refl _) (le_refl _) hxs.1 hxs.2 n

/-- Witness for C20: the objective `(x - 1/3)^2` on `[0, 1]` with 50 points;
after two iterations the bracket still holds the minimiser `1/3`. -/
theorem search_iteration_narrows_bracket_witness :
    (∀ x s, (searchProbe (parabolaEnv (1/3)) { } 0 [0] x s).1 = (x - 1/3) ^ 2) ∧
    StrictConvexOn ℚ (Set.Icc 0 1) (fun x : ℚ => (x - 1/3) ^ 2) ∧
    (1/3 : ℚ) ∈ Set.Icc (0 : ℚ) 1 ∧
    (∀ x ∈ Set.Icc (0 : ℚ) 1, ((1/3 : ℚ) - 1/3) ^ 2 ≤ (x - 1/3) ^ 2) ∧
    ((searchSteps (parabolaEnv (1/3)) { } 0 [0] 2 (⟨0, 1, 0, 0, 0, 0, 1⟩, startScan [0])).1.a
        ≤ 1/3 ∧
      1/3 ≤ (searchSteps (parabolaEnv (1/3)) { } 0 [0] 2
        (⟨0, 1, 0, 0, 0, 0, 1⟩, startScan [0])).1.b) :=
  ⟨parabola_probe (1/3) { } 0, parabola_strictConvexOn (1/3) 0 1, ⟨by norm_num, by norm_num⟩,
    fun x _ => by simp only [sub_self]; positivity,
    (search_iteration_narrows_bracket (parabolaEnv (1/3)) { } 0 [0] (fun x => (x - 1/3) ^ 2)
      (parabola_probe (1/3) { } 0)).2.2 0 1 (1/3) (parabola_strictConvexOn (1/3) 0 1)
      ⟨by norm_num, by norm_num⟩ (fun x _ => by simp only [sub_self]; positivity) 2
      (startScan [0])⟩

/-! ## Point placement -/

/-- The sweeps of the branch `plotPower_ > 1` of the 1-D scan place their
points with `originAnchored`, around the midpoint of the search, with the
side counts `gridSidePoints` of the points left after the search. -/
theorem doGrid1Search_placement (env : Collab σ) (o : Options) (nll0 : ℚ) (snap : σ)
    (pmin0 pmax0 : ℚ) (st : Scan σ) :
    doGrid1Search env o nll0 snap pmin0 pmax0 st =
      rangeLoop o (fun i => sweepPoint env o nll0 snap
          (originAnchored env o.plotPower
            (((searchBracket env o nll0 snap pmin0 pmax0 st).x1 +
              (searchBracket env o nll0 snap pmin0 pmax0 st).x2) / 2) pmin0
            ((i : ℚ) / ((gridSidePoints
              (usub o.points (usub (searchBracket env o nll0 snap pmin0 pmax0 st).count 2))
              (((searchBracket env o nll0 snap pmin0 pmax0 st).x1 +
                (searchBracket env o nll0 snap pmin0 pmax0 st).x2) / 2) pmin0 pmax0).1 : ℚ))))
        (usub (gridSidePoints
              (usub o.points (usub (searchBracket env o nll0 snap pmin0 pmax0 st).count 2))
              (((searchBracket env o nll0 snap pmin0 pmax0 st).x1 +
                (searchBracket env o nll0 snap pmin0 pmax0 st).x2) / 2) pmin0 pmax0).1 1 - 1) 1
        (rangeLoop o (fun i => sweepPoint env o nll0 snap
          (originAnchored env o.plotPower
            (((searchBracket env o nll0 snap pmin0 pmax0 st).x1 +
              (searchBracket env o nll0 snap pmin0 pmax0 st).x2) / 2) pmax0
            ((i : ℚ) / ((gridSidePoints
              (usub o.points (usub (searchBracket env o nll0 snap pmin0 pmax0 st).count 2))
              (((searchBracket env o nll0 snap pmin0 pmax0 st).x1 +
                (searchBracket env o nll0 snap pmin0 pmax0 st).x2) / 2) pmin0 pmax0).2 : ℚ))))
          (((gridSidePoints
              (usub o.points (usub (searchBracket env o nll0 snap pmin0 pmax0 st).count 2))
              (((searchBracket env o nll0 snap pmin0 pmax0 st).x1 +
                (searchBracket env o nll0 snap pmin0 pmax0 st).x2) / 2) pmin0 pmax0).2 + 1)
            % uintMod - 1) 1
          (searchLoop env o nll0 snap ((pmax0 - pmin0) / o.points) (o.points / 2) 0
            ⟨pmin0, pmax0, 0, 0, 0, 0, 1⟩ st).2) := rfl

/-- The sweeps of the branch `plotPower_ < 1` of the 1-D scan place their
points with `boundAnchored`, around the current value of the parameter, with
the side counts `gridSidePoints` of all `points_`. -/
theorem doGrid1Bounds_placement (env : Collab σ) (o : Options) (nll0 : ℚ) (snap : σ)
    (pmin0 pmax0 : ℚ) (st : Scan σ) :
    doGrid1Bounds env o nll0 snap pmin0 pmax0 st =
      rangeLoop o (fun i => sweepPoint env o nll0 snap
          (boundAnchored env o.plotPower (env.getPoi 0 st.model) pmin0
            ((i : ℚ) / ((gridSidePoints o.points (env.getPoi 0 st.model) pmin0 pmax0).1 : ℚ))))
        (((gridSidePoints o.points (env.getPoi 0 st.model) pmin0 pmax0).1 + 1) % uintMod - 1) 1
        (rangeLoop o (fun i => sweepPoint env o nll0 snap
          (boundAnchored env o.plotPower (env.getPoi 0 st.model) pmax0
            ((i : ℚ) / ((gridSidePoints o.points (env.getPoi 0 st.model) pmin0 pmax0).2 : ℚ))))
          (((gridSidePoints o.points (env.getPoi 0 st.model) pmin0 pmax0).2 + 1) % uintMod - 1) 1
          st) := rfl

/-- A weight in `[0, 1]` places both formulas between the origin and the
bound. -/
theorem anchored_between (env : Collab σ) (power origin bound t lo hi : ℚ)
    (h0 : 0 ≤ env.pow t power) (h1 : env.pow t power ≤ 1)
    (ho : lo ≤ origin ∧ origin ≤ hi) (hb : lo ≤ bound ∧ bound ≤ hi) :
    (lo ≤ originAnchored env power origin bound t ∧
      originAnchored env power origin bound t ≤ hi) ∧
    (lo ≤ boundAnchored env power origin bound t ∧
      boundAnchored env power origin bound t ≤ hi) := by
  simp only [originAnchored, boundAnchored]
  have e1 : origin + (bound - origin) * env.pow t power
      = (1 - env.pow t power) * origin + env.pow t power * bound := by ring
  have e2 : bound + (origin - bound) * env.pow t power
      = (1 - env.pow t power) * bound + env.pow t power * origin := by ring
  have hw : 0 ≤ 1 - env.pow t power := by linarith
  rw [e1, e2]
  refine ⟨⟨?_, ?_⟩, ⟨?_, ?_⟩⟩
  · calc lo = (1 - env.pow t power) * lo + env.pow t power * lo := by ring
      _ ≤ _ := add_le_add (mul_le_mul_of_nonneg_left ho.1 hw) (mul_le_mul_of_nonneg_left hb.1 h0)
  · calc _ ≤ (1 - env.pow t power) * hi + env.pow t power * hi :=
        add_le_add (mul_le_mul_of_nonneg_left ho.2 hw) (mul_le_mul_of_nonneg_left hb.2 h0)
      _ = hi := by ring
  · calc lo = (1 - env.pow t power) * lo + env.pow t power * lo := by ring
      _ ≤ _ := add_le_add (mul_le_mul_of_nonneg_left hb.1 hw) (mul_le_mul_of_nonneg_left ho.1 h0)
  · calc _ ≤ (1 - env.pow t power) * hi + env.pow t power * hi :=
        add_le_add (mul_le_mul_of_nonneg_left hb.2 hw) (mul_le_mul_of_nonneg_left ho.2 h0)
      _ = hi := by ring

/-- Relative indices `1 ≤ k ≤ c` give a ratio in `[0, 1]`, growing with `k`. -/
theorem ratio_facts (k j c : Nat) (hk : 1 ≤ k) (hkj : k ≤ j) (hj : j ≤ c) :
    (0 : ℚ) ≤ (k : ℚ) / (c : ℚ) ∧ (k : ℚ) / (c : ℚ) ≤ (j : ℚ) / (c : ℚ) ∧
      (j : ℚ) / (c : ℚ) ≤ 1 := by
  have hc : (0 : ℚ) < (c : ℚ) := by exact_mod_cast (by omega : 0 < c)
  refine ⟨by positivity, ?_, ?_⟩
  · exact div_le_div_of_nonneg_right (by exact_mod_cast hkj) (le_of_lt hc)
  · rw [div_le_one hc]; exact_mod_cast hj

/-! ### C11: relative index 0 of the smart scan -/

/-- C11, counterexample: with the default power `1/2`, bounds `[0, 1]`,
origin `1/2` and 4 points on the axis, the point number 2 has relative
index 0 and is placed at `pmin = 0`, not at the origin. -/
theorem smart_index_zero_counterexample :
    (0 : ℚ) ≤ 1/2 ∧ (1/2 : ℚ) ≤ 1 ∧ ({ } : Options).plotPower = 1/2 ∧
    smartIndex 4 2 0 (smartSidePoints 4 (1/2) 0 1).1 = 0 ∧
    smartCoord (listEnv (fun _ => 0) (fun _ => 0) true none) ({ } : Options).plotPower (1/2) 0 1
      (smartSidePoints 4 (1/2) 0 1).1 (smartSidePoints 4 (1/2) 0 1).2 0 = 0 ∧
    smartPoint (listEnv (fun _ => 0) (fun _ => 0) true none) ({ } : Options).plotPower
      [1/2] [0] [1] 4 1 2 = [0] ∧
    ((doSmartScan (listEnv (fun _ => 0) (fun _ => 0) true none) { points := 4 }
      (startScan [1/2])).committed.map (fun r => r.poiVals)) = [[1/2], [1/4], [0], [3/4]] := by
  refine ⟨by norm_num, by norm_num, rfl, by decide!, by decide!, by decide!, by decide!⟩

/-- C11, amended: the smart scan places relative index 0 at the origin when
the power is above 1 and at `pmin` otherwise; for a power of at most 1 the
origin is the place of the relative index `-points_left` (when that count is
positive and `pow(1, power) = 1`). -/
theorem smart_index_zero_placement (env : Collab σ) (power origin pmin pmax : ℚ)
    (points_left points_right : Int) :
    smartCoord env power origin pmin pmax points_left points_right 0 =
      (if power > 1 then origin else pmin) ∧
    (power ≤ 1 → 0 < points_left → env.pow 1 power = 1 →
      smartCoord env power origin pmin pmax points_left points_right (-points_left) = origin) := by
  refine ⟨by simp [smartCoord], ?_⟩
  intro hp hl hpow
  have hq : (points_left : ℚ) ≠ 0 := by exact_mod_cast (ne_of_gt hl)
  simp only [smartCoord]
  rw [if_neg (by omega), if_pos (by omega), if_neg (not_lt.mpr hp)]
  simp only [boundAnchored, neg_neg, div_self hq, hpow]
  ring

/-- Witness for C11: with the default power, bounds `[0, 1]`, origin `1/2`
and two points on the lower side, the relative index `-2` is placed at the
origin. -/
theorem smart_index_zero_placement_witness :
    (1/2 : ℚ) ≤ 1 ∧ (0 : Int) < 2 ∧
    (listEnv (fun _ => 0) (fun _ => 0) true none).pow 1 (1/2) = 1 ∧
    smartCoord (listEnv (fun _ => 0) (fun _ => 0) true none) (1/2) (1/2) 0 1 2 2 (-2) = 1/2 :=
  ⟨by norm_num, by decide, rfl,
    (smart_index_zero_placement (listEnv (fun _ => 0) (fun _ => 0) true none) (1/2) (1/2) 0 1
      2 2).2 (by norm_num) (by decide) rfl⟩

/-! ### C12: monotonic placement inside the bounds -/

/-- C12: for `pmin ≤ origin ≤ pmax`, a positive power, a side count `c`
and a `pow` that for positive exponents is monotonic on `[0, 1]` with values
in `[0, 1]` there, both placement formulas are monotonic in the relative
index `1 ≤ k ≤ j ≤ c` on the upper and on the lower side, all their values
lie in `[pmin, pmax]`, and so does every coordinate of the smart scan for a
relative index between `-points_left` and `points_right`. -/
theorem placement_monotonic_in_bounds (env : Collab σ) (power origin pmin pmax : ℚ) (c : Nat)
    (hpower : 0 < power) (hlo : pmin ≤ origin) (hhi : origin ≤ pmax)
    (hmono : ∀ p s t : ℚ, 0 < p → 0 ≤ s → s ≤ t → t ≤ 1 → env.pow s p ≤ env.pow t p)
    (hrange : ∀ p t : ℚ, 0 < p → 0 ≤ t → t ≤ 1 → 0 ≤ env.pow t p ∧ env.pow t p ≤ 1) :
    (∀ k j : Nat, 1 ≤ k → k ≤ j → j ≤ c →
      originAnchored env power origin pmax ((k : ℚ) / (c : ℚ)) ≤
        originAnchored env power origin pmax ((j : ℚ) / (c : ℚ)) ∧
      originAnchored env power origin pmin ((j : ℚ) / (c : ℚ)) ≤
        originAnchored env power origin pmin ((k : ℚ) / (c : ℚ)) ∧
      boundAnchored env power origin pmax ((j : ℚ) / (c : ℚ)) ≤
        boundAnchored env power origin pmax ((k : ℚ) / (c : ℚ)) ∧
      boundAnchored env power origin pmin ((k : ℚ) / (c : ℚ)) ≤
        boundAnchored env power origin pmin ((j : ℚ) / (c : ℚ))) ∧
    (∀ k : Nat, 1 ≤ k → k ≤ c →
      (pmin ≤ originAnchored env power origin pmax ((k : ℚ) / (c : ℚ)) ∧
        originAnchored env power origin pmax ((k : ℚ) / (c : ℚ)) ≤ pmax) ∧
      (pmin ≤ originAnchored env power origin pmin ((k : ℚ) / (c : ℚ)) ∧
        originAnchored env power origin pmin ((k : ℚ) / (c : ℚ)) ≤ pmax) ∧
      (pmin ≤ boundAnchored env power origin pmax ((k : ℚ) / (c : ℚ)) ∧
        boundAnchored env power origin pmax ((k : ℚ) / (c : ℚ)) ≤ pmax) ∧
      (pmin ≤ boundAnchored env power origin pmin ((k : ℚ) / (c : ℚ)) ∧
        boundAnchored env power origin pmin ((k : ℚ) / (c : ℚ)) ≤ pmax)) ∧
    (∀ points_left points_right index : Int, -points_left ≤ index → index ≤ points_right →
      pmin ≤ smartCoord env power origin pmin pmax points_left points_right index ∧
      smartCoord env power origin pmin pmax points_left points_right index ≤ pmax) := by
  have hoo : pmin ≤ origin ∧ origin ≤ pmax := ⟨hlo, hhi⟩
  have hmax : pmin ≤ pmax ∧ pmax ≤ pmax := ⟨le_trans hlo hhi, le_refl _⟩
  have hmin : pmin ≤ pmin ∧ pmin ≤ pmax := ⟨le_refl _, le_trans hlo hhi⟩
  refine ⟨?_, ?_, ?_⟩
  · intro k j hk hkj hj
    obtain ⟨r0, r1, r2⟩ := ratio_facts k j c hk hkj hj
    have hp := hmono power _ _ hpower r0 r1 r2
    simp only [originAnchored, boundAnchored]
    refine ⟨?_, ?_, ?_, ?_⟩
    · nlinarith [mul_le_mul_of_nonneg_left hp (sub_nonneg.mpr hhi)]
    · nlinarith [mul_le_mul_of_nonneg_left hp (sub_nonneg.mpr hlo)]
    · nlinarith [mul_le_mul_of_nonneg_left hp (sub_nonneg.mpr hhi)]
    · nlinarith [mul_le_mul_of_nonneg_left hp (sub_nonneg.mpr hlo)]
  · intro k hk hkc
    obtain ⟨r0, _, r2⟩ := ratio_facts k k c hk (le_refl _) hkc
    obtain ⟨p0, p1⟩ := hrange power _ hpower r0 r2
    exact ⟨(anchored_between env power origin pmax _ pmin pmax p0 p1 hoo hmax).1,
      (anchored_between env power origin pmin _ pmin pmax p0 p1 hoo hmin).1,
      (anchored_between env power origin pmax _ pmin pmax p0 p1 hoo hmax).2,
      (anchored_between env power origin pmin _ pmin pmax p0 p1 hoo hmin).2⟩
  · intro pl pr index h1 h2
    simp only [smartCoord]
    by_cases hpos : index > 0
    · rw [if_pos hpos]
      have hprpos : (0 : ℚ) < (pr : ℚ) := by exact_mod_cast (by omega : 0 < pr)
      have r0 : (0 : ℚ) ≤ (index : ℚ) / (pr : ℚ) :=
        div_nonneg (by exact_mod_cast (le_of_lt hpos)) (le_of_lt hprpos)
      have r2 : (index : ℚ) / (pr : ℚ) ≤ 1 := by
        rw [div_le_one hprpos]; exact_mod_cast h2
      obtain ⟨p0, p1⟩ := hrange power _ hpower r0 r2
      split
      · exact (anchored_between env power origin pmax _ pmin pmax p0 p1 hoo hmax).1
      · exact (anchored_between env power origin pmax _ pmin pmax p0 p1 hoo hmax).2
    · rw [if_neg hpos]
      by_cases hneg : index < 0
      · rw [if_pos hneg]
        have hplpos : (0 : ℚ) < (pl : ℚ) := by exact_mod_cast (by omega : 0 < pl)
        have r0 : (0 : ℚ) ≤ ((-index : Int) : ℚ) / (pl : ℚ) :=
          div_nonneg (by exact_mod_cast (by omega : (0 : Int) ≤ -index)) (le_of_lt hplpos)
        have r2 : ((-index : Int) : ℚ) / (pl : ℚ) ≤ 1 := by
          rw [div_le_one hplpos]; exact_mod_cast (by omega : -index ≤ pl)
        obtain ⟨p0, p1⟩ := hrange power _ hpower r0 r2
        split
        · exact (anchored_between env power origin pmin _ pmin pmax p0 p1 hoo hmin).1
        · exact (anchored_between env power origin pmin _ pmin pmax p0 p1 hoo hmin).2
      · rw [if_neg hneg]
        split
        · exact hoo
        · exact hmin

/-- Witness for C12: power `2`, bounds `[0, 1]`, origin `1/2`, side count 4
and the identity as `pow`: the relative indices 1 and 3. -/
theorem placement_monotonic_in_bounds_witness :
    (0 : ℚ) < 2 ∧ (0 : ℚ) ≤ 1/2 ∧ (1/2 : ℚ) ≤ 1 ∧
    (∀ p s t : ℚ, 0 < p → 0 ≤ s → s ≤ t → t ≤ 1 →
      (listEnv (fun _ => 0) (fun _ => 0) true none).pow s p ≤
        (listEnv (fun _ => 0) (fun _ => 0) true none).pow t p) ∧
    (∀ p t : ℚ, 0 < p → 0 ≤ t → t ≤ 1 →
      0 ≤ (listEnv (fun _ => 0) (fun _ => 0) true none).pow t p ∧
        (listEnv (fun _ => 0) (fun _ => 0) true none).pow t p ≤ 1) ∧
    (originAnchored (listEnv (fun _ => 0) (fun _ => 0) true none) 2 (1/2) 1
        (((1 : Nat) : ℚ) / ((4 : Nat) : ℚ)) ≤
      originAnchored (listEnv (fun _ => 0) (fun _ => 0) true none) 2 (1/2) 1
        (((3 : Nat) : ℚ) / ((4 : Nat) : ℚ)) ∧
    originAnchored (listEnv (fun _ => 0) (fun _ => 0) true none) 2 (1/2) 0
        (((3 : Nat) : ℚ) / ((4 : Nat) : ℚ)) ≤
      originAnchored (listEnv (fun _ => 0) (fun _ => 0) true none) 2 (1/2) 0
        (((1 : Nat) : ℚ) / ((4 : Nat) : ℚ)) ∧
    boundAnchored (listEnv (fun _ => 0) (fun _ => 0) true none) 2 (1/2) 1
        (((3 : Nat) : ℚ) / ((4 : Nat) : ℚ)) ≤
      boundAnchored (listEnv (fun _ => 0) (fun _ => 0) true none) 2 (1/2) 1
        (((1 : Nat) : ℚ) / ((4 : Nat) : ℚ)) ∧
    boundAnchored (listEnv (fun _ => 0) (fun _ => 0) true none) 2 (1/2) 0
        (((1 : Nat) : ℚ) / ((4 : Nat) : ℚ)) ≤
      boundAnchored (listEnv (fun _ => 0) (fun _ => 0) true none) 2 (1/2) 0
        (((3 : Nat) : ℚ) / ((4 : Nat) : ℚ))) :=
  ⟨by norm_num, by norm_num, by norm_num, fun _ _ _ _ _ h _ => h,
    fun _ _ _ h0 h1 => ⟨h0, h1⟩,
    (placement_monotonic_in_bounds (listEnv (fun _ => 0) (fun _ => 0) true none) 2 (1/2) 0 1 4
      (by norm_num) (by norm_num) (by norm_num) (fun _ _ _ _ _ h _ => h)
      (fun _ _ _ h0 h1 => ⟨h0, h1⟩)).1 1 3 (by decide) (by decide) (by decide)⟩

/-- The conversion to `unsigned int` of a value in range is its floor. -/
theorem toUInt_of_nonneg (x : ℚ) (h0 : 0 ≤ x) (h1 : ⌊x⌋ < (uintMod : Int)) :
    toUInt x = ⌊x⌋.toNat := by
  simp only [toUInt, toInt, if_pos h0]
  rw [Int.emod_eq_of_lt (Int.floor_nonneg.mpr h0) h1]

/-! ### C18: number of points on each side of the origin -/

/-- C18: the smart scan puts `floor(N*(origin - pmin)/(pmax - pmin))` points
on the lower side and the other `N` minus that on the upper side, both
between 0 and `N`; the 1-D grid scan computes `N*origin/(pmax - pmin)`
without subtracting `pmin`, which is the same count only for `pmin = 0`:
for 10 points on `[1, 2]` around `3/2` it gets 15 lower points and the
wrapped difference 4294967291 as upper points, where the floor is 5, and
with `lastPoint_ = 20` the branch `plotPower_ < 1` commits 35 points. -/
theorem side_points_of_origin :
    (∀ (N : Int) (origin pmin pmax : ℚ), 0 ≤ N → pmin ≤ origin → origin ≤ pmax → pmin < pmax →
      (smartSidePoints N origin pmin pmax).1 = ⌊(N : ℚ) * (origin - pmin) / (pmax - pmin)⌋ ∧
      (smartSidePoints N origin pmin pmax).2 = N - (smartSidePoints N origin pmin pmax).1 ∧
      0 ≤ (smartSidePoints N origin pmin pmax).1 ∧ (smartSidePoints N origin pmin pmax).1 ≤ N ∧
      0 ≤ (smartSidePoints N origin pmin pmax).2 ∧ (smartSidePoints N origin pmin pmax).2 ≤ N) ∧
    (∀ (N : Nat) (origin pmin pmax : ℚ),
      (gridSidePoints N origin pmin pmax).1 = toUInt ((N : ℚ) * origin / (pmax - pmin)) ∧
      (gridSidePoints N origin pmin pmax).2 = usub N (gridSidePoints N origin pmin pmax).1) ∧
    (∀ (N : Nat) (origin pmax : ℚ), N < uintMod → 0 ≤ origin → origin ≤ pmax → 0 < pmax →
      ((gridSidePoints N origin 0 pmax).1 : Int) = ⌊(N : ℚ) * (origin - 0) / (pmax - 0)⌋ ∧
      (gridSidePoints N origin 0 pmax).1 + (gridSidePoints N origin 0 pmax).2 = N) ∧
    (gridSidePoints 10 (3/2) 1 2 = (15, 4294967291) ∧
      ⌊((10 : Nat) : ℚ) * (3/2 - 1) / (2 - 1)⌋ = 5 ∧
      (doGrid1Bounds (listEnv (fun _ => 0) (fun _ => 0) true none)
        { points := 10, lastPoint := 20 } 0 [3/2] 1 2 (startScan [3/2])).committed.length
        = 35) := by
  refine ⟨?_, fun _ _ _ _ => ⟨rfl, rfl⟩, ?_, by decide!, by decide!, by decide!⟩
  · intro N origin pmin pmax hN h1 h2 h3
    have hd : 0 < pmax - pmin := by linarith
    have hNq : (0 : ℚ) ≤ (N : ℚ) := by exact_mod_cast hN
    have hx0 : 0 ≤ (N : ℚ) * (origin - pmin) / (pmax - pmin) :=
      div_nonneg (mul_nonneg hNq (by linarith)) (le_of_lt hd)
    have hx1 : (N : ℚ) * (origin - pmin) / (pmax - pmin) ≤ (N : ℚ) := by
      rw [div_le_iff₀ hd]
      exact mul_le_mul_of_nonneg_left (by linarith) hNq
    have e : (smartSidePoints N origin pmin pmax).1
        = ⌊(N : ℚ) * (origin - pmin) / (pmax - pmin)⌋ := by
      simp only [smartSidePoints, toInt, if_pos hx0]
    have hf0 : 0 ≤ ⌊(N : ℚ) * (origin - pmin) / (pmax - pmin)⌋ := Int.floor_nonneg.mpr hx0
    have hf1 : ⌊(N : ℚ) * (origin - pmin) / (pmax - pmin)⌋ ≤ N := by
      have := le_trans (Int.floor_le _) hx1
      exact_mod_cast this
    have e2 : (smartSidePoints N origin pmin pmax).2
        = N - (smartSidePoints N origin pmin pmax).1 := rfl
    rw [e2, e]
    exact ⟨rfl, rfl, hf0, hf1, by omega, by omega⟩
  · intro N origin pmax hN h0 h1 h2
    have hNq : (0 : ℚ) ≤ (N : ℚ) := Nat.cast_nonneg N
    have hx0 : 0 ≤ (N : ℚ) * origin / (pmax - 0) := by
      rw [sub_zero]; exact div_nonneg (mul_nonneg hNq h0) (le_of_lt h2)
    have hx1 : (N : ℚ) * origin / (pmax - 0) ≤ (N : ℚ) := by
      rw [sub_zero, div_le_iff₀ h2]
      exact mul_le_mul_of_nonneg_left h1 hNq
    have hf0 : 0 ≤ ⌊(N : ℚ) * origin / (pmax - 0)⌋ := Int.floor_nonneg.mpr hx0
    have hf1 : ⌊(N : ℚ) * origin / (pmax - 0)⌋ ≤ (N : Int) := by
      have := le_trans (Int.floor_le _) hx1
      exact_mod_cast this
    have hlt : ⌊(N : ℚ) * origin / (pmax - 0)⌋.toNat ≤ N := by omega
    have e : (gridSidePoints N origin 0 pmax).1 = ⌊(N : ℚ) * origin / (pmax - 0)⌋.toNat := by
      simp only [gridSidePoints]
      exact toUInt_of_nonneg _ (by rw [sub_zero] at hx0 ⊢; exact hx0) (by
        have hM : (N : Int) < (uintMod : Int) := by exact_mod_cast hN
        rw [sub_zero] at hf1 ⊢
        omega)
    have e2 : (gridSidePoints N origin 0 pmax).2
        = usub N (gridSidePoints N origin 0 pmax).1 := rfl
    rw [e2, e]
    refine ⟨?_, ?_⟩
    · rw [sub_zero (a := origin), Int.toNat_of_nonneg hf0]
    · simp only [usub]
      rw [Nat.mod_eq_of_lt (lt_of_le_of_lt hlt hN)]
      have : N + uintMod - ⌊(N : ℚ) * origin / (pmax - 0)⌋.toNat
          = (N - ⌊(N : ℚ) * origin / (pmax - 0)⌋.toNat) + uintMod := by omega
      rw [this, Nat.add_mod_right, Nat.mod_eq_of_lt (by omega)]
      omega

/-- Witness for C18: the smart scan with 10 points on `[1, 2]` around `3/2`
has 5 points on each side. -/
theorem side_points_of_origin_witness :
    (0 : Int) ≤ 10 ∧ (1 : ℚ) ≤ 3/2 ∧ (3/2 : ℚ) ≤ 2 ∧ (1 : ℚ) < 2 ∧
    (smartSidePoints 10 (3/2) 1 2).1 = ⌊((10 : Int) : ℚ) * (3/2 - 1) / (2 - 1)⌋ ∧
    (smartSidePoints 10 (3/2) 1 2).2 = 10 - (smartSidePoints 10 (3/2) 1 2).1 ∧
    0 ≤ (smartSidePoints 10 (3/2) 1 2).1 ∧ (smartSidePoints 10 (3/2) 1 2).1 ≤ 10 ∧
    0 ≤ (smartSidePoints 10 (3/2) 1 2).2 ∧ (smartSidePoints 10 (3/2) 1 2).2 ≤ 10 :=
  ⟨by decide, by norm_num, by norm_num, by norm_num,
    side_points_of_origin.1 10 (3/2) 1 2 (by decide) (by norm_num) (by norm_num) (by norm_num)⟩

/-! ### C19: a side of the origin without points -/

/-- One turn of the loop with range filter. -/
theorem rangeLoop_succ (o : Options) (body : Nat → Scan σ → Scan σ) (rem i : Nat)
    (st : Scan σ) :
    rangeLoop o body (rem + 1) i st =
      if i < o.firstPoint then rangeLoop o body rem (i + 1) st
      else if i > o.lastPoint then st
      else rangeLoop o body rem (i + 1) (body i st) := rfl

/-- C19: in the branch `plotPower_ > 1` of the 1-D scan the loop of the
upper side, `for (i = 1; i < points_right+1; ++i)`, does nothing when
`points_right = 0`, but the loop of the lower side,
`for (i = 1; i < points_left-1; ++i)`, has the wrapped bound 4294967295 when
`points_left = 0` and runs its body from index 1 on; for 2 points on
`[0, 1]`, a constant objective and `lastPoint_ = 3` the side counts are 0
lower and 1 upper, and 6 points are committed: the 2 probes of the search,
1 upper point and 3 lower points. -/
theorem zero_side_points_loops (o : Options) (body : Nat → Scan σ → Scan σ) (st : Scan σ) :
    rangeLoop o body ((0 + 1) % uintMod - 1) 1 st = st ∧
    (o.firstPoint ≤ 1 → 1 ≤ o.lastPoint →
      usub 0 1 = 4294967295 ∧
      rangeLoop o body (usub 0 1 - 1) 1 st = rangeLoop o body 4294967293 2 (body 1 st)) ∧
    (gridSidePoints
        (usub ({ points := 2, lastPoint := 3, plotPower := 2 } : Options).points
          (usub (searchBracket (listEnv (fun _ => 0) (fun _ => 0) true none)
            { points := 2, lastPoint := 3, plotPower := 2 } 0 [0] 0 1 (startScan [0])).count 2))
        (((searchBracket (listEnv (fun _ => 0) (fun _ => 0) true none)
            { points := 2, lastPoint := 3, plotPower := 2 } 0 [0] 0 1 (startScan [0])).x1 +
          (searchBracket (listEnv (fun _ => 0) (fun _ => 0) true none)
            { points := 2, lastPoint := 3, plotPower := 2 } 0 [0] 0 1 (startScan [0])).x2) / 2)
        0 1 = (0, 1) ∧
      (searchLoop (listEnv (fun _ => 0) (fun _ => 0) true none)
        { points := 2, lastPoint := 3, plotPower := 2 } 0 [0] ((1 - 0) / ((2 : Nat) : ℚ)) (2 / 2) 0
        ⟨0, 1, 0, 0, 0, 0, 1⟩ (startScan [0])).2.committed.length = 2 ∧
      (doGrid1Search (listEnv (fun _ => 0) (fun _ => 0) true none)
        { points := 2, lastPoint := 3, plotPower := 2 } 0 [0] 0 1
        (startScan [0])).committed.length = 6) := by
  refine ⟨rfl, ?_, by decide!, by decide!, by decide!⟩
  intro h1 h2
  refine ⟨by decide, ?_⟩
  have e : usub 0 1 - 1 = 4294967293 + 1 := by decide
  rw [e, rangeLoop_succ, if_neg (by omega), if_neg (by omega)]

/-- Witness for C19: the loop of the lower side with `points_left = 0` and
`lastPoint_ = 3` on a constant objective runs its body at index 1. -/
theorem zero_side_points_loops_witness :
    ({ lastPoint := 3 } : Options).firstPoint ≤ 1 ∧ 1 ≤ ({ lastPoint := 3 } : Options).lastPoint ∧
    usub 0 1 = 4294967295 ∧
    rangeLoop { lastPoint := 3 }
        (fun _ => sweepPoint (listEnv (fun _ => 0) (fun _ => 0) true none) { } 0 [0] 0)
        (usub 0 1 - 1) 1 (startScan [0])
      = rangeLoop { lastPoint := 3 }
        (fun _ => sweepPoint (listEnv (fun _ => 0) (fun _ => 0) true none) { } 0 [0] 0)
        4294967293 2
        (sweepPoint (listEnv (fun _ => 0) (fun _ => 0) true none) { } 0 [0] 0 (startScan [0])) :=
  ⟨by decide, by decide,
    (zero_side_points_loops { lastPoint := 3 }
      (fun _ => sweepPoint (listEnv (fun _ => 0) (fun _ => 0) true none) { } 0 [0] 0)
      (startScan [0])).2.1 (by decide) (by decide)⟩

/-! ### C17: the neighbours of the 3x3 mode -/

theorem loop3x3_minimCalls_add (body : Int → Int → Scan σ → Scan σ) (k : Nat)
    (h : ∀ i2 j2 st, (body i2 j2 st).minimCalls = st.minimCalls + k) (st : Scan σ) :
    (loop3x3 body st).minimCalls = st.minimCalls + 8 * k := by
  rw [loop3x3_unfold]
  simp only [h]
  omega

/-- A neighbour without evaluation errors is profiled once when profiling
is forced. -/
theorem gridNeighbour_forced (env : Collab σ) (o : Options) (nll0 : ℚ) (n : Nat)
    (center : σ) (x0 y0 dX dY : ℚ) (i2 j2 : Int) (st : Scan σ)
    (hvalid : ∀ s, env.numEvalErrors s = 0) :
    (gridNeighbour env o nll0 n true center x0 y0 dX dY i2 j2 st).minimCalls
      = st.minimCalls + 1 := by
  unfold gridNeighbour
  simp only [hvalid, Bool.true_or, if_true, gt_iff_lt, lt_self_iff_false, if_false]
  rfl

/-- A neighbour is not profiled when profiling is not forced and its own
deltaNLL is outside both bands. -/
theorem gridNeighbour_unforced (env : Collab σ) (o : Options) (nll0 : ℚ) (n : Nat)
    (center : σ) (x0 y0 dX dY : ℚ) (i2 j2 : Int) (st : Scan σ)
    (hfar : ∀ s, nearThreshold (env.getVal s - nll0) = false) :
    (gridNeighbour env o nll0 n false center x0 y0 dX dY i2 j2 st).minimCalls
      = st.minimCalls := by
  unfold gridNeighbour
  simp only [hfar, Bool.and_false, Bool.or_self, Bool.false_eq_true, if_false]
  split <;> rfl

/-- C17, counterexample: a valid lattice point of the 3x3 mode with a
constant objective is committed with deltaNLL 0, outside both bands, and
still gets its 8 neighbours: 9 rows, all with deltaNLL 0, the second one at
the offsets `-0.33333333` of the cell sizes. -/
theorem grid_3x3_neighbours_counterexample :
    ({ gridType := GridType.G3x3 } : Options).gridType = GridType.G3x3 ∧
    (listEnv (fun _ => 0) (fun _ => 0) true none).numEvalErrors
      (pointState (listEnv (fun _ => 0) (fun _ => 0) true none) [0, 0]
        (cellCentre 0 1 0) (cellCentre 0 1 0) (startScan [0, 0]).model) = 0 ∧
    nearThreshold 0 = false ∧
    ((gridPoint2 (listEnv (fun _ => 0) (fun _ => 0) true none) { gridType := GridType.G3x3 }
        0 [0, 0] 0 0 1 1 0 0 (startScan [0, 0])).committed.map (fun r => r.deltaNLL))
      = [0, 0, 0, 0, 0, 0, 0, 0, 0] ∧
    ((gridPoint2 (listEnv (fun _ => 0) (fun _ => 0) true none) { gridType := GridType.G3x3 }
        0 [0, 0] 0 0 1 1 0 0 (startScan [0, 0])).committed.map (fun r => r.poiVals)).take 2
      = [[1/2, 1/2], [1/2 - 33333333/100000000, 1/2 - 33333333/100000000]] := by
  refine ⟨rfl, by decide, by decide!, by decide!, by decide!⟩

/-- C17, amended: in 3x3 mode a valid lattice point is followed by the
block of its neighbours whatever its deltaNLL, and the block always commits
8 points; the band test on the deltaNLL of the lattice point only decides
on the profiling: with fast scan no neighbour is profiled, without fast scan
and a lattice point inside a band every neighbour (free of evaluation
errors) is profiled, and with a lattice point outside both bands a neighbour
is profiled only when its own unprofiled deltaNLL is inside a band. -/
theorem grid_3x3_neighbours_committed (env : Collab σ) (o : Options) (nll0 : ℚ) (snap : σ)
    (pmin0 pmin1 dX dY : ℚ) (i j : Nat) (st : Scan σ) (h3 : o.gridType = GridType.G3x3)
    (hvalid : env.numEvalErrors
      (pointState env snap (cellCentre pmin0 dX i) (cellCentre pmin1 dY j) st.model) = 0) :
    gridPoint2 env o nll0 snap pmin0 pmin1 dX dY i j st =
      gridNeighbours env o nll0 2 (cellCentre pmin0 dX i) (cellCentre pmin1 dY j) dX dY
        (profileAndCommit env o nll0 2
          { st with poiVals := (st.poiVals.set 0 (cellCentre pmin0 dX i)).set 1
                      (cellCentre pmin1 dY j),
                    model := pointState env snap (cellCentre pmin0 dX i)
                      (cellCentre pmin1 dY j) st.model }) ∧
    ∀ (x0 y0 : ℚ) (st1 : Scan σ),
      (gridNeighbours env o nll0 2 x0 y0 dX dY st1).committed.length
        = st1.committed.length + 8 ∧
      (o.fastScan = true →
        (gridNeighbours env o nll0 2 x0 y0 dX dY st1).minimCalls = st1.minimCalls) ∧
      (o.fastScan = false → nearThreshold st1.deltaNLL = true →
        (∀ s, env.numEvalErrors s = 0) →
        (gridNeighbours env o nll0 2 x0 y0 dX dY st1).minimCalls = st1.minimCalls + 8) ∧
      (nearThreshold st1.deltaNLL = false → (∀ s, nearThreshold (env.getVal s - nll0) = false) →
        (gridNeighbours env o nll0 2 x0 y0 dX dY st1).minimCalls = st1.minimCalls) := by
  constructor
  · unfold gridPoint2
    simp only [hvalid, gt_iff_lt, lt_self_iff_false, if_false, h3, if_true]
  · intro x0 y0 st1
    refine ⟨gridNeighbours_length env o nll0 2 x0 y0 dX dY st1, ?_, ?_, ?_⟩
    · intro hfast
      unfold gridNeighbours
      simp only [hfast, Bool.not_true, Bool.false_and]
      exact loop3x3_minimCalls _
        (fun i2 j2 s => gridNeighbour_fast env o nll0 2 _ x0 y0 dX dY i2 j2 s hfast) st1
    · intro hfast hnear hv
      unfold gridNeighbours
      simp only [hfast, hnear, Bool.not_false, Bool.and_self]
      rw [loop3x3_minimCalls_add _ 1
        (fun i2 j2 s => gridNeighbour_forced env o nll0 2 _ x0 y0 dX dY i2 j2 s hv) st1]
    · intro hfar hfarAll
      unfold gridNeighbours
      simp only [hfar, Bool.and_false]
      exact loop3x3_minimCalls _
        (fun i2 j2 s => gridNeighbour_unforced env o nll0 2 _ x0 y0 dX dY i2 j2 s hfarAll) st1

/-- Witness for C17: the lattice point `(1/2, 1/2)` of a constant objective
in 3x3 mode: deltaNLL 0 is outside both bands, 8 neighbours are committed
and none is profiled. -/
theorem grid_3x3_neighbours_committed_witness :
    ({ gridType := GridType.G3x3 } : Options).gridType = GridType.G3x3 ∧
    (listEnv (fun _ => 0) (fun _ => 0) true none).numEvalErrors
      (pointState (listEnv (fun _ => 0) (fun _ => 0) true none) [0, 0]
        (cellCentre 0 1 0) (cellCentre 0 1 0) (startScan [0, 0]).model) = 0 ∧
    nearThreshold (startScan [0, 0]).deltaNLL = false ∧
    (∀ s, nearThreshold ((listEnv (fun _ => 0) (fun _ => 0) true none).getVal s - 0) = false) ∧
    (gridNeighbours (listEnv (fun _ => 0) (fun _ => 0) true none)
        { gridType := GridType.G3x3 } 0 2 (1/2) (1/2) 1 1 (startScan [0, 0])).committed.length
      = (startScan [0, 0]).committed.length + 8 ∧
    (gridNeighbours (listEnv (fun _ => 0) (fun _ => 0) true none)
        { gridType := GridType.G3x3 } 0 2 (1/2) (1/2) 1 1 (startScan [0, 0])).minimCalls
      = (startScan [0, 0]).minimCalls :=
  ⟨rfl, by decide, by decide!, fun _ => show nearThreshold ((0 : ℚ) - 0) = false by decide!,
    ((grid_3x3_neighbours_committed (listEnv (fun _ => 0) (fun _ => 0) true none)
      { gridType := GridType.G3x3 } 0 [0, 0] 0 0 1 1 0 0 (startScan [0, 0]) rfl (by decide)).2
        (1/2) (1/2) (startScan [0, 0])).1,
    ((grid_3x3_neighbours_committed (listEnv (fun _ => 0) (fun _ => 0) true none)
      { gridType := GridType.G3x3 } 0 [0, 0] 0 0 1 1 0 0 (startScan [0, 0]) rfl (by decide)).2
        (1/2) (1/2) (startScan [0, 0])).2.2.2 (by decide!)
      (fun _ => show nearThreshold ((0 : ℚ) - 0) = false by decide!)⟩

/-! ## Properties of the model state kept by the grid scan -/

theorem profileAndCommit_frame (env : Collab σ) (P : σ → Prop) (hP : FrameInv env P)
    (o : Options) (nll0 : ℚ) (n : Nat) (st : Scan σ) (h : P st.model) :
    P (profileAndCommit env o nll0 n st).model := by
  unfold profileAndCommit
  simp only []
  split
  · split
    · exact h
    · exact h
  · split
    · exact hP.2.1 _ h
    · exact hP.2.1 _ h

theorem setPoi_frame (env : Collab σ) (P : σ → Prop) (hP : FrameInv env P)
    (k : Nat) (x : ℚ) (st : Scan σ) (h : P st.model) : P (setPoi env k x st).model :=
  hP.1 _ _ _ h

theorem sweepPoint_frame (env : Collab σ) (P : σ → Prop) (hP : FrameInv env P)
    (o : Options) (nll0 : ℚ) (snap : σ) (hs : P snap) (x : ℚ) (st : Scan σ) (h : P st.model) :
    P (sweepPoint env o nll0 snap x st).model :=
  profileAndCommit_frame env P hP o nll0 1 _ (hP.1 _ _ _ (hP.2.2 _ _ hs h))

theorem searchProbe_frame (env : Collab σ) (P : σ → Prop) (hP : FrameInv env P)
    (o : Options) (nll0 : ℚ) (snap : σ) (hs : P snap) (x : ℚ) (st : Scan σ) (h : P st.model) :
    P (searchProbe env o nll0 snap x st).2.model :=
  profileAndCommit_frame env P hP o nll0 1 _ (hP.2.1 _ (hP.1 _ _ _ (hP.2.2 _ _ hs h)))

theorem searchStep_frame (env : Collab σ) (P : σ → Prop) (hP : FrameInv env P)
    (o : Options) (nll0 : ℚ) (snap : σ) (hs : P snap) (br : Bracket) (st : Scan σ)
    (h : P st.model) : P (searchStep env o nll0 snap br st).2.model :=
  searchProbe_frame env P hP o nll0 snap hs _ _ (searchProbe_frame env P hP o nll0 snap hs _ _ h)

theorem searchLoop_frame (env : Collab σ) (P : σ → Prop) (hP : FrameInv env P)
    (o : Options) (nll0 : ℚ) (snap : σ) (hs : P snap) (precision : ℚ) :
    ∀ (rem i : Nat) (br : Bracket) (st : Scan σ), P st.model →
      P (searchLoop env o nll0 snap precision rem i br st).2.model := by
  intro rem
  induction rem with
  | zero => intro i br st h; exact h
  | succ rem ih =>
    intro i br st h
    rw [searchLoop_succ]
    split
    · exact h
    · split
      · exact ih _ _ _ h
      · split
        · exact h
        · exact ih _ _ _ (searchStep_frame env P hP o nll0 snap hs br st h)

theorem rangeLoop_frame (P : σ → Prop) (o : Options) (body : Nat → Scan σ → Scan σ)
    (hb : ∀ i st, P st.model → P (body i st).model) :
    ∀ (rem i : Nat) (st : Scan σ), P st.model → P (rangeLoop o body rem i st).model := by
  intro rem
  induction rem with
  | zero => intro i st h; exact h
  | succ rem ih =>
    intro i st h
    rw [rangeLoop_succ]
    split
    · exact ih _ _ h
    · split
      · exact h
      · exact ih _ _ (hb _ _ h)

theorem doGrid1_frame (env : Collab σ) (P : σ → Prop) (hP : FrameInv env P)
    (o : Options) (nll0 : ℚ) (snap : σ) (hs : P snap) (pmin pmax : List ℚ) (st : Scan σ)
    (h : P st.model) : P (doGrid1 env o nll0 snap pmin pmax st).model := by
  unfold doGrid1
  split
  · unfold doGrid1Search
    exact rangeLoop_frame P o _ (fun i s => sweepPoint_frame env P hP o nll0 snap hs _ s) _ _ _
      (rangeLoop_frame P o _ (fun i s => sweepPoint_frame env P hP o nll0 snap hs _ s) _ _ _
        (searchLoop_frame env P hP o nll0 snap hs _ _ _ _ _ h))
  · split
    · unfold doGrid1Bounds
      exact rangeLoop_frame P o _ (fun i s => sweepPoint_frame env P hP o nll0 snap hs _ s) _ _ _
        (rangeLoop_frame P o _ (fun i s => sweepPoint_frame env P hP o nll0 snap hs _ s) _ _ _ h)
    · unfold doGrid1Linear
      exact rangeLoop_frame P o _ (fun i s => sweepPoint_frame env P hP o nll0 snap hs _ s) _ _ _ h

theorem loop3x3_frame (P : σ → Prop) (body : Int → Int → Scan σ → Scan σ)
    (hb : ∀ i2 j2 st, P st.model → P (body i2 j2 st).model) (st : Scan σ) (h : P st.model) :
    P (loop3x3 body st).model := by
  rw [loop3x3_unfold]
  exact hb _ _ _ (hb _ _ _ (hb _ _ _ (hb _ _ _ (hb _ _ _ (hb _ _ _ (hb _ _ _ (hb _ _ _ h)))))))

theorem gridNeighbour_frame (env : Collab σ) (P : σ → Prop) (hP : FrameInv env P)
    (o : Options) (nll0 : ℚ) (n : Nat) (fp : Bool) (center : σ) (hc : P center)
    (x0 y0 dX dY : ℚ) (i2 j2 : Int) (st : Scan σ) (h : P st.model) :
    P (gridNeighbour env o nll0 n fp center x0 y0 dX dY i2 j2 st).model := by
  have h2 : P (env.setVal 1 (y0 + 33333333/100000000 * j2 * dY)
      (env.setVal 0 (x0 + 33333333/100000000 * i2 * dX) (env.assign center st.model))) :=
    hP.1 _ _ _ (hP.1 _ _ _ (hP.2.2 _ _ hc h))
  unfold gridNeighbour
  simp only []
  split
  · exact h2
  · split
    · exact hP.2.1 _ h2
    · exact h2

theorem gridNeighbours_frame (env : Collab σ) (P : σ → Prop) (hP : FrameInv env P)
    (o : Options) (nll0 : ℚ) (n : Nat) (x0 y0 dX dY : ℚ) (st : Scan σ) (h : P st.model) :
    P (gridNeighbours env o nll0 n x0 y0 dX dY st).model := by
  unfold gridNeighbours
  exact loop3x3_frame P
    (gridNeighbour env o nll0 n (!o.fastScan && nearThreshold st.deltaNLL) st.model x0 y0 dX dY)
    (fun i2 j2 s hs1 => gridNeighbour_frame env P hP o nll0 n _ _ h x0 y0 dX dY i2 j2 s hs1)
    st h

theorem invalidNeighbours_frame (env : Collab σ) (P : σ → Prop) (x y dX dY : ℚ)
    (st : Scan σ) (h : P st.model) :
    P (loop3x3 (invalidNeighbour env x y dX dY) st).model :=
  loop3x3_frame P (invalidNeighbour env x y dX dY) (fun _ _ _ hs1 => hs1) st h

theorem gridPoint2_frame (env : Collab σ) (P : σ → Prop) (hP : FrameInv env P)
    (o : Options) (nll0 : ℚ) (snap : σ) (hs : P snap) (pmin0 pmin1 dX dY : ℚ) (i j : Nat)
    (st : Scan σ) (h : P st.model) :
    P (gridPoint2 env o nll0 snap pmin0 pmin1 dX dY i j st).model := by
  have h3 : P (pointState env snap (cellCentre pmin0 dX i) (cellCentre pmin1 dY j) st.model) :=
    hP.1 _ _ _ (hP.1 _ _ _ (hP.2.2 _ _ hs h))
  unfold gridPoint2
  simp only []
  split
  · split
    · exact invalidNeighbours_frame env P _ _ dX dY _ h3
    · exact h3
  · split
    · exact gridNeighbours_frame env P hP o nll0 2 _ _ dX dY _
        (profileAndCommit_frame env P hP o nll0 2 _ h3)
    · exact profileAndCommit_frame env P hP o nll0 2 _ h3

theorem gridRow2_frame (P : σ → Prop) (o : Options) (body : Nat → Nat → Scan σ → Scan σ)
    (hb : ∀ i j st, P st.model → P (body i j st).model) (i : Nat) :
    ∀ (rem j ip : Nat) (st : Scan σ), P st.model → P (gridRow2 o body i rem j ip st).2.model := by
  intro rem
  induction rem with
  | zero => intro j ip st h; exact h
  | succ rem ih =>
    intro j ip st h
    simp only [gridRow2]
    split
    · exact ih _ _ _ h
    · split
      · exact h
      · exact ih _ _ _ (hb _ _ _ h)

theorem gridRows2_frame (P : σ → Prop) (o : Options) (body : Nat → Nat → Scan σ → Scan σ)
    (hb : ∀ i j st, P st.model → P (body i j st).model) (sqrn : Nat) :
    ∀ (rem i ip : Nat) (st : Scan σ), P st.model →
      P (gridRows2 o body sqrn rem i ip st).2.model := by
  intro rem
  induction rem with
  | zero => intro i ip st h; exact h
  | succ rem ih =>
    intro i ip st h
    simp only [gridRows2]
    exact ih _ _ _ (gridRow2_frame P o body hb i _ _ _ _ h)

theorem setCombination_frame (env : Collab σ) (P : σ → Prop) (hP : FrameInv env P)
    (pmin pmax : List ℚ) (rootn : Nat) (perm : List Int) :
    ∀ (rem k : Nat) (st : Scan σ), P st.model →
      P (setCombination env pmin pmax rootn perm rem k st).model := by
  intro rem
  induction rem with
  | zero => intro k st h; exact h
  | succ rem ih =>
    intro k st h
    simp only [setCombination]
    exact ih _ _ (hP.1 _ _ _ h)

theorem gridPointN_frame (env : Collab σ) (P : σ → Prop) (hP : FrameInv env P)
    (o : Options) (nll0 : ℚ) (snap : σ) (hs : P snap) (n : Nat) (pmin pmax : List ℚ)
    (rootn : Nat) (perm : List Int) (st : Scan σ) (h : P st.model) :
    P (gridPointN env o nll0 snap n pmin pmax rootn perm st).2.model := by
  have h2 : P (combinationScan env snap n pmin pmax rootn perm st).model :=
    setCombination_frame env P hP pmin pmax rootn perm _ _ _ (hP.2.2 _ _ hs h)
  unfold gridPointN
  simp only []
  split
  · exact h2
  · exact profileAndCommit_frame env P hP o nll0 n _ h2

theorem gridLoopN_frame (P : σ → Prop) (o : Options) (body : List Int → Scan σ → Bool × Scan σ)
    (hb : ∀ perm st, P st.model → P (body perm st).2.model) :
    ∀ (perms : List (List Int)) (ip : Nat) (st : Scan σ), P st.model →
      P (gridLoopN o body perms ip st).model := by
  intro perms
  induction perms with
  | nil => intro ip st h; exact h
  | cons perm rest ih =>
    intro ip st h
    simp only [gridLoopN]
    split
    · exact ih _ _ h
    · split
      · exact h
      · exact ih _ _ (hb _ _ h)

/-- The grid scan keeps every property of the model state that holds for
the snapshot and is kept by its steps. -/
theorem doGrid_frame (env : Collab σ) (P : σ → Prop) (hP : FrameInv env P)
    (o : Options) (st : Scan σ) (hs : P (gridSnapshot env st)) : P (doGrid env o st).model := by
  unfold doGrid
  simp only []
  split
  · exact doGrid1_frame env P hP o _ _ hs _ _ _ hs
  · split
    · unfold doGrid2
      exact gridRows2_frame P o _
        (fun i j s h => gridPoint2_frame env P hP o _ _ hs _ _ _ _ i j s h) _ _ _ _ _ hs
    · unfold doGridN
      exact gridLoopN_frame P o _
        (fun perm s h => gridPointN_frame env P hP o _ _ hs _ _ _ _ perm s h) _ _ _ hs

/-! ### C16: the parameters of interest after a grid scan -/

/-- The loop of lines 273-278 leaves every parameter of interest constant. -/
theorem fixPois_constant (env : Collab σ)
    (hset : ∀ k j m, env.isConstant k (env.setConstant j true m) =
      if k = j then true else env.isConstant k m) :
    ∀ (rem k : Nat) (acc : List ℚ × List ℚ × σ),
      (∀ j, j < k → env.isConstant j acc.2.2 = true) →
      ∀ j, j < k + rem → env.isConstant j (fixPois env rem k acc).2.2 = true := by
  intro rem
  induction rem with
  | zero => intro k acc h j hj; exact h j hj
  | succ rem ih =>
    intro k acc h j hj
    simp only [fixPois]
    refine ih (k + 1) _ ?_ j (by omega)
    intro j1 hj1
    simp only [hset]
    split
    · rfl
    · exact h j1 (by omega)

/-- C16, counterexample: one parameter of interest, floating at `1/4`
before a linear grid scan of 2 points on `[0, 1]`; after the scan it is
constant and at `3/4`, the last point of the scan. -/
theorem doGrid_restores_counterexample :
    (flagEnv (fun _ => 0)).isConstant 0 (startFlagScan [1/4]).model = false ∧
    (flagEnv (fun _ => 0)).getPoi 0 (startFlagScan [1/4]).model = 1/4 ∧
    (flagEnv (fun _ => 0)).isConstant 0
      (doGrid (flagEnv (fun _ => 0)) { points := 2, plotPower := 1 }
        (startFlagScan [1/4])).model = true ∧
    (flagEnv (fun _ => 0)).getPoi 0
      (doGrid (flagEnv (fun _ => 0)) { points := 2, plotPower := 1 }
        (startFlagScan [1/4])).model = 3/4 ∧
    ((doGrid (flagEnv (fun _ => 0)) { points := 2, plotPower := 1 }
        (startFlagScan [1/4])).committed.map (fun r => r.poiVals)) = [[1/4], [3/4]] := by
  refine ⟨rfl, by decide!, by decide!, by decide!, by decide!⟩

/-- C16, amended: the grid scan makes every parameter of interest constant
on entry and nothing resets the flags, so after the scan every parameter of
interest is constant whatever its flag was before (for a model in which
setting a value, minimizing and assigning a snapshot leave the flags as they
are in the state or in the snapshot); the values are not restored either. -/
theorem doGrid_leaves_pois_constant (env : Collab σ) (o : Options) (st : Scan σ)
    (hset : ∀ k j m, env.isConstant k (env.setConstant j true m) =
      if k = j then true else env.isConstant k m)
    (hval : ∀ k j x m, env.isConstant k (env.setVal j x m) = env.isConstant k m)
    (hmin : ∀ k m, env.isConstant k (env.minimize m).2 = env.isConstant k m)
    (hassign : ∀ k a b, env.isConstant k (env.assign a b) = env.isConstant k a ∨
      env.isConstant k (env.assign a b) = env.isConstant k b) :
    ∀ k, k < st.poiVals.length → env.isConstant k (doGrid env o st).model = true := by
  have hP : FrameInv env (fun m => ∀ k, k < st.poiVals.length → env.isConstant k m = true) := by
    refine ⟨?_, ?_, ?_⟩
    · intro j x m h k hk; rw [hval]; exact h k hk
    · intro m h k hk; rw [hmin]; exact h k hk
    · intro a b ha hb k hk
      rcases hassign k a b with e | e
      · rw [e]; exact ha k hk
      · rw [e]; exact hb k hk
  have hs : ∀ k, k < st.poiVals.length → env.isConstant k (gridSnapshot env st) = true := by
    intro k hk
    exact fixPois_constant env hset st.poiVals.length 0 ([], [], st.model)
      (fun j hj => absurd hj (Nat.not_lt_zero j)) k (by omega)
  exact doGrid_frame env _ hP o st hs

/-- Witness for C16: the linear scan of 2 points of one floating parameter
of interest leaves it constant. -/
theorem doGrid_leaves_pois_constant_witness :
    (∀ k j m, (flagEnv (fun _ => 0)).isConstant k ((flagEnv (fun _ => 0)).setConstant j true m) =
      if k = j then true else (flagEnv (fun _ => 0)).isConstant k m) ∧
    (∀ k j x m, (flagEnv (fun _ => 0)).isConstant k ((flagEnv (fun _ => 0)).setVal j x m) =
      (flagEnv (fun _ => 0)).isConstant k m) ∧
    (∀ k m, (flagEnv (fun _ => 0)).isConstant k ((flagEnv (fun _ => 0)).minimize m).2 =
      (flagEnv (fun _ => 0)).isConstant k m) ∧
    (∀ k a b, (flagEnv (fun _ => 0)).isConstant k ((flagEnv (fun _ => 0)).assign a b) =
        (flagEnv (fun _ => 0)).isConstant k a ∨
      (flagEnv (fun _ => 0)).isConstant k ((flagEnv (fun _ => 0)).assign a b) =
        (flagEnv (fun _ => 0)).isConstant k b) ∧
    0 < (startFlagScan [1/4]).poiVals.length ∧
    (flagEnv (fun _ => 0)).isConstant 0 (startFlagScan [1/4]).model = false ∧
    (flagEnv (fun _ => 0)).isConstant 0
      (doGrid (flagEnv (fun _ => 0)) { points := 2, plotPower := 1 }
        (startFlagScan [1/4])).model = true :=
  ⟨fun _ _ _ => rfl, fun _ _ _ _ => rfl, fun _ _ => rfl, fun _ _ _ => Or.inl rfl, by decide, rfl,
    doGrid_leaves_pois_constant (flagEnv (fun _ => 0)) { points := 2, plotPower := 1 }
      (startFlagScan [1/4]) (fun _ _ _ => rfl) (fun _ _ _ _ => rfl) (fun _ _ => rfl)
      (fun _ _ _ => Or.inl rfl) 0 (by decide)⟩

/-! ### C15: the angle of the accepted points of the march -/

/-- One turn of the loop of the march in terms of `marchIter`. -/
theorem marchLoop_succ (env : Collab σ) (o : Options) (nll0 x0 y0 l alpha theta_max : ℚ)
    (fuel : Nat) (x y theta theta_old : ℚ) (st : Scan σ) :
    marchLoop env o nll0 x0 y0 l alpha theta_max (fuel + 1) x y theta theta_old st =
      if theta < theta_max then
        if (marchIter env o nll0 x0 y0 l alpha x y theta_old st).1.accepted = true then
          marchLoop env o nll0 x0 y0 l alpha theta_max fuel
            (marchIter env o nll0 x0 y0 l alpha x y theta_old st).1.X
            (marchIter env o nll0 x0 y0 l alpha x y theta_old st).1.Y
            (marchIter env o nll0 x0 y0 l alpha x y theta_old st).1.theta
            (marchIter env o nll0 x0 y0 l alpha x y theta_old st).1.theta
            (marchIter env o nll0 x0 y0 l alpha x y theta_old st).2
        else some (marchIter env o nll0 x0 y0 l alpha x y theta_old st).2
      else some st := by
  by_cases h1 : theta < theta_max
  · by_cases h2 : marchAngle env x0 y0 x y > theta_old
    · have e : (marchIter env o nll0 x0 y0 l alpha x y theta_old st).1.accepted = true := by
        simp only [marchIter, if_pos h2]
      rw [if_pos h1, if_pos e]
      simp only [marchIter, if_pos h2]
      rw [marchLoop]
      simp only [if_pos h1]
      have h3 : (if env.atan2 (y - y0) (x - x0) < 0 then env.atan2 (y - y0) (x - x0) + 2 * stitchPi
          else env.atan2 (y - y0) (x - x0)) > theta_old := h2
      rw [if_pos h3]
      rfl
    · have e : ¬ (marchIter env o nll0 x0 y0 l alpha x y theta_old st).1.accepted = true := by
        simp only [marchIter, if_neg h2]
        exact Bool.false_ne_true
      rw [if_pos h1, if_neg e]
      simp only [marchIter, if_neg h2]
      rw [marchLoop]
      simp only [if_pos h1]
      have h3 : ¬ (if env.atan2 (y - y0) (x - x0) < 0 then
          env.atan2 (y - y0) (x - x0) + 2 * stitchPi
          else env.atan2 (y - y0) (x - x0)) > theta_old := h2
      rw [if_neg h3]
      rfl
  · rw [if_neg h1, marchLoop]
    simp only [if_neg h1]

/-- The committed rows only grow in a profile-and-commit block. -/
theorem profileAndCommit_keeps_rows (env : Collab σ) (o : Options) (nll0 : ℚ) (n : Nat)
    (st : Scan σ) (q : ScanPoint) (h : q ∈ st.committed) :
    q ∈ (profileAndCommit env o nll0 n st).committed := by
  obtain ⟨rest, e, _⟩ := profileAndCommit_rows env o nll0 n st
  rw [e]
  exact List.mem_append_left _ h

/-- The committed rows only grow in one iteration of the march. -/
theorem marchIter_keeps_rows (env : Collab σ) (o : Options) (nll0 x0 y0 l alpha x y theta_old : ℚ)
    (st : Scan σ) (q : ScanPoint) (h : q ∈ st.committed) :
    q ∈ (marchIter env o nll0 x0 y0 l alpha x y theta_old st).2.committed := by
  have h2 := profileAndCommit_keeps_rows env o nll0 2
    (setPoi env 1 (y + l * env.sin (marchAngle env x0 y0 x y + alpha))
      (setPoi env 0 (x + l * env.cos (marchAngle env x0 y0 x y + alpha))
        (profileAndCommit env o nll0 2
          (setPoi env 1 (y - l * env.sin (marchAngle env x0 y0 x y - alpha))
            (setPoi env 0 (x - l * env.cos (marchAngle env x0 y0 x y - alpha)) st))))) q
    (profileAndCommit_keeps_rows env o nll0 2 _ q h)
  unfold marchIter
  simp only []
  split
  · exact List.mem_append_left _ h2
  · exact h2

theorem profileAndCommit_poiVals (env : Collab σ) (o : Options) (nll0 : ℚ) (n : Nat)
    (st : Scan σ) : (profileAndCommit env o nll0 n st).poiVals = st.poiVals := by
  unfold profileAndCommit
  simp only []
  split <;> split <;> rfl

/-- An accepted iteration of the march commits the interpolated point at
the contour level. -/
theorem marchIter_accepted (env : Collab σ) (o : Options) (nll0 x0 y0 l alpha x y theta_old : ℚ)
    (st : Scan σ) (hlen : st.poiVals.length = 2)
    (hacc : marchAngle env x0 y0 x y > theta_old) :
    (marchIter env o nll0 x0 y0 l alpha x y theta_old st).1.accepted = true ∧
    (marchIter env o nll0 x0 y0 l alpha x y theta_old st).1.theta = marchAngle env x0 y0 x y ∧
    ∃ q : ScanPoint,
      q ∈ (marchIter env o nll0 x0 y0 l alpha x y theta_old st).2.committed ∧
      q.deltaNLL = o.contour ∧
      q.poiVals = [(marchIter env o nll0 x0 y0 l alpha x y theta_old st).1.X,
        (marchIter env o nll0 x0 y0 l alpha x y theta_old st).1.Y] := by
  simp only [marchIter, if_pos hacc]
  refine ⟨trivial, trivial, _, List.mem_append_right _ (List.mem_singleton_self _), rfl, ?_⟩
  simp only [copySpecified, setPoi, profileAndCommit_poiVals]
  have h2 : ∀ (ps : List ℚ) (a b : ℚ), ps.length = 2 → (ps.set 0 a).set 1 b = [a, b] := by
    intro ps a b hps
    match ps, hps with
    | [_, _], _ => rfl
  rw [h2 _ _ _ (by simp [hlen])]

/-- An iteration of the march from a point whose angle is not greater than
the angle before is not accepted. -/
theorem marchIter_rejected (env : Collab σ) (o : Options) (nll0 x0 y0 l alpha x y theta_old : ℚ)
    (st : Scan σ) (hno : ¬ marchAngle env x0 y0 x y > theta_old) :
    ¬ (marchIter env o nll0 x0 y0 l alpha x y theta_old st).1.accepted = true := by
  simp only [marchIter, if_neg hno]
  exact Bool.false_ne_true

/-- C15: an iteration of the march tests the angle of the point it starts
from against the angle before and, when it is greater, commits the
interpolated point `(X, Y)` at the contour level without looking at the
angle of `(X, Y)`; when that angle is not greater than the angle of the
point before, the march ends in the next turn (by the test of the loop or
by the `break`) and the point stays in the output. -/
theorem march_commits_before_angle_test (env : Collab σ) (o : Options)
    (nll0 x0 y0 l alpha theta_max : ℚ) (fuel : Nat) (x y theta theta_old : ℚ) (st : Scan σ)
    (hlen : st.poiVals.length = 2) (hlt : theta < theta_max)
    (hacc : marchAngle env x0 y0 x y > theta_old) :
    ∃ q : ScanPoint,
      q ∈ (marchIter env o nll0 x0 y0 l alpha x y theta_old st).2.committed ∧
      q.deltaNLL = o.contour ∧
      q.poiVals = [(marchIter env o nll0 x0 y0 l alpha x y theta_old st).1.X,
        (marchIter env o nll0 x0 y0 l alpha x y theta_old st).1.Y] ∧
      (¬ marchAngle env x0 y0 (marchIter env o nll0 x0 y0 l alpha x y theta_old st).1.X
            (marchIter env o nll0 x0 y0 l alpha x y theta_old st).1.Y
          > marchAngle env x0 y0 x y →
        ∃ st1, marchLoop env o nll0 x0 y0 l alpha theta_max (fuel + 2) x y theta theta_old st
            = some st1 ∧ q ∈ st1.committed) := by
  obtain ⟨ha, ht, q, hq, hd, hp⟩ :=
    marchIter_accepted env o nll0 x0 y0 l alpha x y theta_old st hlen hacc
  refine ⟨q, hq, hd, hp, ?_⟩
  intro hno
  rw [marchLoop_succ, if_pos hlt, if_pos ha, marchLoop_succ, ht]
  by_cases h1 : marchAngle env x0 y0 x y < theta_max
  · rw [if_pos h1]
    have hrej : ¬ (marchIter env o nll0 x0 y0 l alpha
        (marchIter env o nll0 x0 y0 l alpha x y theta_old st).1.X
        (marchIter env o nll0 x0 y0 l alpha x y theta_old st).1.Y
        (marchAngle env x0 y0 x y)
        (marchIter env o nll0 x0 y0 l alpha x y theta_old st).2).1.accepted = true :=
      marchIter_rejected env o nll0 x0 y0 l alpha _ _ _ _ hno
    rw [if_neg hrej]
    exact ⟨_, rfl, marchIter_keeps_rows env o nll0 x0 y0 l alpha _ _ _ _ q hq⟩
  · rw [if_neg h1]
    exact ⟨_, rfl, hq⟩

/-- Witness for C15: a model whose `atan2` is constantly 0: the first
iteration accepts and commits a point whose angle 0 is not greater than the
angle 0 of the starting point, and the march ends in the next turn. -/
theorem march_commits_before_angle_test_witness :
    (startScan [0, 0]).poiVals.length = 2 ∧ (-99999 : ℚ) < 1 ∧
    marchAngle (listEnv (fun p => p.getD 0 0) (fun _ => 0) true none) 0 0 1 0 > -99999 ∧
    ∃ q : ScanPoint,
      q ∈ (marchIter (listEnv (fun p => p.getD 0 0) (fun _ => 0) true none) { } 0 0 0 1 0 1 0
        (-99999) (startScan [0, 0])).2.committed ∧
      q.deltaNLL = ({ } : Options).contour ∧
      q.poiVals = [(marchIter (listEnv (fun p => p.getD 0 0) (fun _ => 0) true none) { } 0 0 0 1
          0 1 0 (-99999) (startScan [0, 0])).1.X,
        (marchIter (listEnv (fun p => p.getD 0 0) (fun _ => 0) true none) { } 0 0 0 1
          0 1 0 (-99999) (startScan [0, 0])).1.Y] ∧
      (¬ marchAngle (listEnv (fun p => p.getD 0 0) (fun _ => 0) true none) 0 0
            (marchIter (listEnv (fun p => p.getD 0 0) (fun _ => 0) true none) { } 0 0 0 1
              0 1 0 (-99999) (startScan [0, 0])).1.X
            (marchIter (listEnv (fun p => p.getD 0 0) (fun _ => 0) true none) { } 0 0 0 1
              0 1 0 (-99999) (startScan [0, 0])).1.Y
          > marchAngle (listEnv (fun p => p.getD 0 0) (fun _ => 0) true none) 0 0 1 0 →
        ∃ st1, marchLoop (listEnv (fun p => p.getD 0 0) (fun _ => 0) true none) { } 0 0 0 1 0 1
            (0 + 2) 1 0 (-99999) (-99999) (startScan [0, 0]) = some st1 ∧ q ∈ st1.committed) :=
  ⟨rfl, by norm_num, by decide!,
    march_commits_before_angle_test (listEnv (fun p => p.getD 0 0) (fun _ => 0) true none) { }
      0 0 0 1 0 1 0 1 0 (-99999) (-99999) (startScan [0, 0]) rfl (by norm_num) (by decide!)⟩

/-! ### C21: the outward search of a sector -/

theorem outwardSearch_succ (c s pmin0 pmin1 pmax0 pmax1 step : ℚ) (fuel : Nat) (r : ℚ) :
    outwardSearch c s pmin0 pmin1 pmax0 pmax1 step (fuel + 1) r =
      if r * c > pmin0 ∧ r * s > pmin1 ∧ r * c < pmax0 ∧ r * s < pmax1 then
        outwardSearch c s pmin0 pmin1 pmax0 pmax1 step fuel (r + step)
      else some r := rfl

/-- The outward search returns as soon as enough fuel is given to reach a
radius `r + k*step` whose offsets are not strictly inside the bounds; the
radius returned is the first such radius. -/
theorem outwardSearch_reaches (c s pmin0 pmin1 pmax0 pmax1 step : ℚ) :
    ∀ (k fuel : Nat) (r : ℚ), k < fuel →
      ¬ ((r + k * step) * c > pmin0 ∧ (r + k * step) * s > pmin1 ∧
        (r + k * step) * c < pmax0 ∧ (r + k * step) * s < pmax1) →
      ∃ j, j ≤ k ∧
        outwardSearch c s pmin0 pmin1 pmax0 pmax1 step fuel r = some (r + j * step) ∧
        ¬ ((r + j * step) * c > pmin0 ∧ (r + j * step) * s > pmin1 ∧
          (r + j * step) * c < pmax0 ∧ (r + j * step) * s < pmax1) := by
  intro k
  induction k with
  | zero =>
    intro fuel r hf hout
    obtain ⟨f, rfl⟩ : ∃ f, fuel = f + 1 := ⟨fuel - 1, by omega⟩
    simp only [Nat.cast_zero, zero_mul, add_zero] at hout
    refine ⟨0, le_refl _, ?_, by simpa using hout⟩
    rw [outwardSearch_succ, if_neg hout]
    simp
  | succ k ih =>
    intro fuel r hf hout
    obtain ⟨f, rfl⟩ : ∃ f, fuel = f + 1 := ⟨fuel - 1, by omega⟩
    rw [outwardSearch_succ]
    by_cases h : r * c > pmin0 ∧ r * s > pmin1 ∧ r * c < pmax0 ∧ r * s < pmax1
    · rw [if_pos h]
      have e : ∀ j : Nat, r + step + (j : ℚ) * step = r + ((j + 1 : Nat) : ℚ) * step := by
        intro j; push_cast; ring
      obtain ⟨j, hj, hr, hno⟩ := ih f (r + step) (by omega) (by rw [e k]; exact hout)
      refine ⟨j + 1, by omega, ?_, ?_⟩
      · rw [hr, e j]
      · rw [← e j]; exact hno
    · rw [if_neg h]
      exact ⟨0, Nat.zero_le _, by simp, by simpa using h⟩

/-- For a positive step and a direction with a non-zero component some
radius `r + k*step` has an offset outside the bounds. -/
theorem outward_leaves (c s pmin0 pmin1 pmax0 pmax1 step r : ℚ) (hstep : 0 < step)
    (hdir : c ≠ 0 ∨ s ≠ 0) :
    ∃ k : Nat, ¬ ((r + k * step) * c > pmin0 ∧ (r + k * step) * s > pmin1 ∧
      (r + k * step) * c < pmax0 ∧ (r + k * step) * s < pmax1) := by
  have key : ∀ (d lo hi : ℚ), d ≠ 0 →
      ∃ k : Nat, ¬ ((r + k * step) * d > lo ∧ (r + k * step) * d < hi) := by
    intro d lo hi hd
    rcases lt_or_gt_of_ne hd with hneg | hpos
    · obtain ⟨k, hk⟩ := exists_nat_ge ((lo / d - r) / step)
      refine ⟨k, fun h => ?_⟩
      have h1 : lo / d - r ≤ k * step := by
        rw [div_le_iff₀ hstep] at hk; exact hk
      have h2 : lo / d ≤ r + k * step := by linarith
      have h3 : (r + k * step) * d ≤ lo := by
        rw [div_le_iff_of_neg hneg] at h2; exact h2
      linarith [h.1]
    · obtain ⟨k, hk⟩ := exists_nat_ge ((hi / d - r) / step)
      refine ⟨k, fun h => ?_⟩
      have h1 : hi / d - r ≤ k * step := by
        rw [div_le_iff₀ hstep] at hk; exact hk
      have h2 : hi / d ≤ r + k * step := by linarith
      have h3 : hi ≤ (r + k * step) * d := by
        rw [div_le_iff₀ hpos] at h2; exact h2
      linarith [h.2]
  rcases hdir with hc | hs
  · obtain ⟨k, hk⟩ := key c pmin0 pmax0 hc
    exact ⟨k, fun h => hk ⟨h.1, h.2.2.1⟩⟩
  · obtain ⟨k, hk⟩ := key s pmin1 pmax1 hs
    exact ⟨k, fun h => hk ⟨h.2.1, h.2.2.2⟩⟩

/-- More fuel does not change the radius found by the outward search. -/
theorem outwardSearch_fuel (c s pmin0 pmin1 pmax0 pmax1 step : ℚ) :
    ∀ (fuel : Nat) (r x : ℚ), outwardSearch c s pmin0 pmin1 pmax0 pmax1 step fuel r = some x →
      ∀ more, outwardSearch c s pmin0 pmin1 pmax0 pmax1 step (fuel + more) r = some x := by
  intro fuel
  induction fuel with
  | zero => intro r x h; exact absurd h (by simp [outwardSearch])
  | succ fuel ih =>
    intro r x h more
    rw [show fuel + 1 + more = (fuel + more) + 1 by omega, outwardSearch_succ]
    rw [outwardSearch_succ] at h
    by_cases hc : r * c > pmin0 ∧ r * s > pmin1 ∧ r * c < pmax0 ∧ r * s < pmax1
    · rw [if_pos hc] at h ⊢
      exact ih _ _ h more
    · rw [if_neg hc] at h ⊢
      exact h

/-- C21: for a positive step and a direction `(cos, sin)` with a non-zero
component the outward search terminates (with enough fuel it returns a
radius, the same for more fuel), and it stops at the first radius whose
offsets `rmax*cos`, `rmax*sin` are not strictly inside `[pmin, pmax]`: the
offsets are compared with the bounds, not the point
`(x0 + rmax*cos, y0 + rmax*sin)`. For the box `[0,10] x [0,10]`, the
reference point `(5, 5)`, step 1 and the first sector (`cos = 1`, `sin = 0`)
the search stops at once with `rmax = 1`, and the point `(6, 5)` is strictly
inside the box. -/
theorem outward_search_edge :
    (∀ (c s pmin0 pmin1 pmax0 pmax1 step : ℚ), 0 < step → (c ≠ 0 ∨ s ≠ 0) →
      ∃ (fuel0 : Nat) (rmax : ℚ), ∀ fuel, fuel0 ≤ fuel →
        outwardSearch c s pmin0 pmin1 pmax0 pmax1 step fuel step = some rmax ∧
        ¬ (rmax * c > pmin0 ∧ rmax * s > pmin1 ∧ rmax * c < pmax0 ∧ rmax * s < pmax1)) ∧
    (outwardSearch 1 0 0 0 10 10 1 1 1 = some 1 ∧
      (0 : ℚ) < 5 ∧ (5 : ℚ) < 10 ∧
      (0 : ℚ) < 5 + 1 * 1 ∧ (5 : ℚ) + 1 * 1 < 10 ∧ (0 : ℚ) < 5 + 1 * 0 ∧ (5 : ℚ) + 1 * 0 < 10) := by
  refine ⟨?_, by decide!, by norm_num, by norm_num, by norm_num, by norm_num, by norm_num,
    by norm_num⟩
  intro c s pmin0 pmin1 pmax0 pmax1 step hstep hdir
  obtain ⟨k, hk⟩ := outward_leaves c s pmin0 pmin1 pmax0 pmax1 step step hstep hdir
  obtain ⟨j, _, hr, hno⟩ :=
    outwardSearch_reaches c s pmin0 pmin1 pmax0 pmax1 step k (k + 1) step (by omega) hk
  refine ⟨k + 1, step + j * step, ?_⟩
  intro fuel hfuel
  obtain ⟨more, rfl⟩ : ∃ more, fuel = k + 1 + more := ⟨fuel - (k + 1), by omega⟩
  exact ⟨outwardSearch_fuel c s pmin0 pmin1 pmax0 pmax1 step (k + 1) step _ hr more, hno⟩

/-- Witness for C21: the first sector direction `(1, 0)`, the box
`[-1, 3] x [-1, 1]` and step 1. -/
theorem outward_search_edge_witness :
    (0 : ℚ) < 1 ∧ ((1 : ℚ) ≠ 0 ∨ (0 : ℚ) ≠ 0) ∧
    ∃ (fuel0 : Nat) (rmax : ℚ), ∀ fuel, fuel0 ≤ fuel →
      outwardSearch 1 0 (-1) (-1) 3 1 1 fuel 1 = some rmax ∧
      ¬ (rmax * 1 > -1 ∧ rmax * 0 > -1 ∧ rmax * 1 < 3 ∧ rmax * 0 < 1) :=
  ⟨by norm_num, Or.inl (by norm_num),
    outward_search_edge.1 1 0 (-1) (-1) 3 1 1 (by norm_num) (Or.inl (by norm_num))⟩

/-! ### C22: the bisection of a sector -/

/-- The interpolated point of an iteration of the march in terms of the
probes and of the values `z1`, `z2`, and the scan state after the probes. -/
theorem marchIter_interpolation (env : Collab σ) (o : Options)
    (nll0 x0 y0 l alpha x y theta_old : ℚ) (st : Scan σ) :
    (marchIter env o nll0 x0 y0 l alpha x y theta_old st).1.X =
      (marchProbe1 env x0 y0 l alpha x y).1 +
        ((marchProbe2 env x0 y0 l alpha x y).1 - (marchProbe1 env x0 y0 l alpha x y).1) *
          (marchLevels env o nll0 x0 y0 l alpha x y st).1 /
          ((marchLevels env o nll0 x0 y0 l alpha x y st).1 -
            (marchLevels env o nll0 x0 y0 l alpha x y st).2) ∧
    (marchIter env o nll0 x0 y0 l alpha x y theta_old st).1.Y =
      (marchProbe1 env x0 y0 l alpha x y).2 +
        ((marchProbe2 env x0 y0 l alpha x y).2 - (marchProbe1 env x0 y0 l alpha x y).2) *
          (marchLevels env o nll0 x0 y0 l alpha x y st).1 /
          ((marchLevels env o nll0 x0 y0 l alpha x y st).1 -
            (marchLevels env o nll0 x0 y0 l alpha x y st).2) := by
  simp only [marchIter, marchProbe1, marchProbe2, marchLevels]
  split <;> exact ⟨rfl, rfl⟩

/-- C23: with `cos^2 + sin^2 = 1` the two probes of a marching step are at
squared distance `l^2` from the current point; the advanced point is
`P1 + t*(P2 - P1)` with `t = z1/(z1 - z2)`, and for `z1 ≠ z2` this `t` is
the only zero of the linear interpolant `z1 + t*(z2 - z1)`, with
`0 ≤ t ≤ 1` (the point on the segment from `P1` to `P2`) unless `z1` and
`z2` are both positive or both negative. -/
theorem march_probes_and_interpolation (env : Collab σ) (o : Options)
    (nll0 x0 y0 l alpha x y theta_old : ℚ) (st : Scan σ)
    (hpyth : ∀ t, env.cos t ^ 2 + env.sin t ^ 2 = 1) :
    ((marchProbe1 env x0 y0 l alpha x y).1 - x) ^ 2 +
      ((marchProbe1 env x0 y0 l alpha x y).2 - y) ^ 2 = l ^ 2 ∧
    ((marchProbe2 env x0 y0 l alpha x y).1 - x) ^ 2 +
      ((marchProbe2 env x0 y0 l alpha x y).2 - y) ^ 2 = l ^ 2 ∧
    ((marchLevels env o nll0 x0 y0 l alpha x y st).1 ≠
        (marchLevels env o nll0 x0 y0 l alpha x y st).2 →
      (marchIter env o nll0 x0 y0 l alpha x y theta_old st).1.X =
        (marchProbe1 env x0 y0 l alpha x y).1 +
          (marchLevels env o nll0 x0 y0 l alpha x y st).1 /
            ((marchLevels env o nll0 x0 y0 l alpha x y st).1 -
              (marchLevels env o nll0 x0 y0 l alpha x y st).2) *
          ((marchProbe2 env x0 y0 l alpha x y).1 - (marchProbe1 env x0 y0 l alpha x y).1) ∧
      (marchIter env o nll0 x0 y0 l alpha x y theta_old st).1.Y =
        (marchProbe1 env x0 y0 l alpha x y).2 +
          (marchLevels env o nll0 x0 y0 l alpha x y st).1 /
            ((marchLevels env o nll0 x0 y0 l alpha x y st).1 -
              (marchLevels env o nll0 x0 y0 l alpha x y st).2) *
          ((marchProbe2 env x0 y0 l alpha x y).2 - (marchProbe1 env x0 y0 l alpha x y).2) ∧
      (marchLevels env o nll0 x0 y0 l alpha x y st).1 +
        (marchLevels env o nll0 x0 y0 l alpha x y st).1 /
            ((marchLevels env o nll0 x0 y0 l alpha x y st).1 -
              (marchLevels env o nll0 x0 y0 l alpha x y st).2) *
          ((marchLevels env o nll0 x0 y0 l alpha x y st).2 -
            (marchLevels env o nll0 x0 y0 l alpha x y st).1) = 0 ∧
      (∀ t : ℚ, (marchLevels env o nll0 x0 y0 l alpha x y st).1 +
          t * ((marchLevels env o nll0 x0 y0 l alpha x y st).2 -
            (marchLevels env o nll0 x0 y0 l alpha x y st).1) = 0 →
        t = (marchLevels env o nll0 x0 y0 l alpha x y st).1 /
            ((marchLevels env o nll0 x0 y0 l alpha x y st).1 -
              (marchLevels env o nll0 x0 y0 l alpha x y st).2)) ∧
      (¬ (0 < (marchLevels env o nll0 x0 y0 l alpha x y st).1 ∧
            0 < (marchLevels env o nll0 x0 y0 l alpha x y st).2) →
        ¬ ((marchLevels env o nll0 x0 y0 l alpha x y st).1 < 0 ∧
            (marchLevels env o nll0 x0 y0 l alpha x y st).2 < 0) →
        0 ≤ (marchLevels env o nll0 x0 y0 l alpha x y st).1 /
            ((marchLevels env o nll0 x0 y0 l alpha x y st).1 -
              (marchLevels env o nll0 x0 y0 l alpha x y st).2) ∧
        (marchLevels env o nll0 x0 y0 l alpha x y st).1 /
            ((marchLevels env o nll0 x0 y0 l alpha x y st).1 -
              (marchLevels env o nll0 x0 y0 l alpha x y st).2) ≤ 1)) := by
  obtain ⟨eX, eY⟩ := marchIter_interpolation env o nll0 x0 y0 l alpha x y theta_old st
  generalize (marchLevels env o nll0 x0 y0 l alpha x y st).1 = z1 at *
  generalize (marchLevels env o nll0 x0 y0 l alpha x y st).2 = z2 at *
  refine ⟨?_, ?_, ?_⟩
  · simp only [marchProbe1]
    have h := hpyth (marchAngle env x0 y0 x y - alpha)
    linear_combination l ^ 2 * h
  · simp only [marchProbe2]
    have h := hpyth (marchAngle env x0 y0 x y + alpha)
    linear_combination l ^ 2 * h
  · intro hz
    have hd : z1 - z2 ≠ 0 := sub_ne_zero.mpr hz
    refine ⟨by rw [eX]; ring, by rw [eY]; ring, by field_simp; ring, ?_, ?_⟩
    · intro t ht
      rw [eq_div_iff hd]
      linear_combination -ht
    · intro hpos hneg
      rcases lt_or_gt_of_ne hd with hlt | hgt
      · have hz1 : z1 ≤ 0 := by
          by_contra hc
          push_neg at hc
          exact hpos ⟨hc, by linarith⟩
        have hz2 : 0 ≤ z2 := by
          by_contra hc
          push_neg at hc
          exact hneg ⟨by linarith, hc⟩
        constructor
        · exact div_nonneg_of_nonpos hz1 (le_of_lt hlt)
        · rw [div_le_one_of_neg hlt]; linarith
      · have hz1 : 0 ≤ z1 := by
          by_contra hc
          push_neg at hc
          exact hneg ⟨hc, by linarith⟩
        have hz2 : z2 ≤ 0 := by
          by_contra hc
          push_neg at hc
          exact hpos ⟨by linarith, hc⟩
        constructor
        · exact div_nonneg hz1 (le_of_lt hgt)
        · rw [div_le_one hgt]; linarith

/-- Witness for C23: a step from `(1, 0)` with probe length 1 in a model
with `cos = 1`, `sin = 0` and the objective `x`: the probes are `(0, 0)` and
`(2, 0)`, the values `z1 = -1.15`, `z2 = 0.85` have opposite signs. -/
theorem march_probes_and_interpolation_witness :
    (∀ t, (listEnv (fun p => p.getD 0 0) (fun _ => 0) true none).cos t ^ 2 +
      (listEnv (fun p => p.getD 0 0) (fun _ => 0) true none).sin t ^ 2 = 1) ∧
    (marchLevels (listEnv (fun p => p.getD 0 0) (fun _ => 0) true none) { } 0 0 0 1 0 1 0
        (startScan [0, 0])).1 ≠
      (marchLevels (listEnv (fun p => p.getD 0 0) (fun _ => 0) true none) { } 0 0 0 1 0 1 0
        (startScan [0, 0])).2 ∧
    ¬ (0 < (marchLevels (listEnv (fun p => p.getD 0 0) (fun _ => 0) true none) { } 0 0 0 1 0 1 0
          (startScan [0, 0])).1 ∧
        0 < (marchLevels (listEnv (fun p => p.getD 0 0) (fun _ => 0) true none) { } 0 0 0 1 0 1 0
          (startScan [0, 0])).2) ∧
    ¬ ((marchLevels (listEnv (fun p => p.getD 0 0) (fun _ => 0) true none) { } 0 0 0 1 0 1 0
          (startScan [0, 0])).1 < 0 ∧
        (marchLevels (listEnv (fun p => p.getD 0 0) (fun _ => 0) true none) { } 0 0 0 1 0 1 0
          (startScan [0, 0])).2 < 0) ∧
    (((marchProbe1 (listEnv (fun p => p.getD 0 0) (fun _ => 0) true none) 0 0 1 0 1 0).1 - 1) ^ 2 +
      ((marchProbe1 (listEnv (fun p => p.getD 0 0) (fun _ => 0) true none) 0 0 1 0 1 0).2 - 0) ^ 2
        = 1 ^ 2) ∧
    (0 ≤ (marchLevels (listEnv (fun p => p.getD 0 0) (fun _ => 0) true none) { } 0 0 0 1 0 1 0
          (startScan [0, 0])).1 /
        ((marchLevels (listEnv (fun p => p.getD 0 0) (fun _ => 0) true none) { } 0 0 0 1 0 1 0
            (startScan [0, 0])).1 -
          (marchLevels (listEnv (fun p => p.getD 0 0) (fun _ => 0) true none) { } 0 0 0 1 0 1 0
            (startScan [0, 0])).2) ∧
      (marchLevels (listEnv (fun p => p.getD 0 0) (fun _ => 0) true none) { } 0 0 0 1 0 1 0
          (startScan [0, 0])).1 /
        ((marchLevels (listEnv (fun p => p.getD 0 0) (fun _ => 0) true none) { } 0 0 0 1 0 1 0
            (startScan [0, 0])).1 -
          (marchLevels (listEnv (fun p => p.getD 0 0) (fun _ => 0) true none) { } 0 0 0 1 0 1 0
            (startScan [0, 0])).2) ≤ 1) :=
  ⟨fun _ => show ((1 : ℚ) ^ 2 + 0 ^ 2 = 1) by norm_num, by decide!, by decide!, by decide!,
    (march_probes_and_interpolation (listEnv (fun p => p.getD 0 0) (fun _ => 0) true none) { }
      0 0 0 1 0 1 0 0 (startScan [0, 0])
      (fun _ => show ((1 : ℚ) ^ 2 + 0 ^ 2 = 1) by norm_num)).1,
    ((march_probes_and_interpolation (listEnv (fun p => p.getD 0 0) (fun _ => 0) true none) { }
      0 0 0 1 0 1 0 0 (startScan [0, 0])
      (fun _ => show ((1 : ℚ) ^ 2 + 0 ^ 2 = 1) by norm_num)).2.2 (by decide!)).2.2.2.2
      (by decide!) (by decide!)⟩

/-! ### The multi-indices of the smart scan -/

theorem smartDigits_zero (p i : Nat) : smartDigits p 0 i = [] := rfl

theorem initPois_fields (mc : ModelConfig) :
    ∀ (l : List String) (s s1 : InitState), initPois mc l s = .ok s1 →
      s1.specifiedNuis = s.specifiedNuis ∧ s1.specifiedVars = s.specifiedVars ∧
      s1.specifiedVals = s.specifiedVals ∧ s1.specifiedList = s.specifiedList ∧
      s1.poiList = s.poiList ++ l := by
  intro l
  induction l with
  | nil =>
    intro s s1 h
    simp only [initPois, Except.ok.injEq] at h
    subst h
    simp
  | cons name rest ih =>
    intro s s1 h
    simp only [initPois] at h
    split at h
    · exact absurd h (by simp)
    · split at h
      · exact absurd h (by simp)
      · obtain ⟨h1, h2, h3, h4, h5⟩ := ih _ _ h
        exact ⟨h1, h2, h3, h4, by rw [h5]; simp⟩

theorem initNuisances_fields (mc : ModelConfig) :
    ∀ (l : List String) (s s1 : InitState), initNuisances mc l s = .ok s1 →
      s1.specifiedNuis = s.specifiedNuis ∧ s1.poiList = s.poiList ∧
      s1.specifiedVars.length =
        s.specifiedVars.length + (l.filter (fun n => decide (n ∉ s.poiList))).length ∧
      s1.specifiedVals.length =
        s.specifiedVals.length + (l.filter (fun n => decide (n ∉ s.poiList))).length := by
  intro l
  induction l with
  | nil =>
    intro s s1 h
    simp only [initNuisances, Except.ok.injEq] at h
    subst h
    simp
  | cons name rest ih =>
    intro s s1 h
    simp only [initNuisances] at h
    split at h
    · exact absurd h (by simp)
    · split at h
      · rename_i hin
        obtain ⟨h1, h2, h3, h4⟩ := ih _ _ h
        refine ⟨h1, h2, ?_, ?_⟩
        · rw [h3, List.filter_cons_of_neg (by simpa using hin)]
        · rw [h4, List.filter_cons_of_neg (by simpa using hin)]
      · rename_i hin
        split at h
        · exact absurd h (by simp)
        · obtain ⟨h1, h2, h3, h4⟩ := ih _ _ h
          refine ⟨h1, h2, ?_, ?_⟩
          · rw [h3, List.filter_cons_of_pos (by simpa using hin)]
            simp only [List.length_append, List.length_cons, List.length_nil]
            omega
          · rw [h4, List.filter_cons_of_pos (by simpa using hin)]
            simp only [List.length_append, List.length_cons, List.length_nil]
            omega

theorem initInactive_fields (mc : ModelConfig) :
    ∀ (l : List String) (s : InitState),
      (initInactive mc l s).poiList = s.poiList ∧
      ∃ k, (initInactive mc l s).specifiedNuis.length = s.specifiedNuis.length + k ∧
        (initInactive mc l s).specifiedVars.length = s.specifiedVars.length + k ∧
        (initInactive mc l s).specifiedVals.length = s.specifiedVals.length + k := by
  intro l
  induction l with
  | nil => intro s; exact ⟨rfl, 0, rfl, rfl, rfl⟩
  | cons name rest ih =>
    intro s
    simp only [initInactive]
    split
    · exact ih s
    · split
      · exact ih s
      · obtain ⟨h0, k, h1, h2, h3⟩ := ih
          { s with specifiedNuis := s.specifiedNuis ++ [name],
                   specifiedVars := s.specifiedVars ++ [name],
                   specifiedVals := s.specifiedVals ++ [mc.getVal name],
                   specifiedList := s.specifiedList ++ [name] }
        refine ⟨h0, k + 1, ?_, ?_, ?_⟩
        · rw [h1]; simp only [List.length_append, List.length_cons, List.length_nil]; omega
        · rw [h2]; simp only [List.length_append, List.length_cons, List.length_nil]; omega
        · rw [h3]; simp only [List.length_append, List.length_cons, List.length_nil]; omega

theorem filter_mem_split (l p : List String) :
    l.length = (l.filter (fun n => decide (n ∉ p))).length +
      (l.filter (fun n => decide (n ∈ p))).length := by
  induction l with
  | nil => rfl
  | cons a rest ih =>
    by_cases h : a ∈ p
    · rw [List.filter_cons_of_neg (by simpa using h), List.filter_cons_of_pos (by simpa using h)]
      simp only [List.length_cons]
      omega
    · rw [List.filter_cons_of_pos (by simpa using h), List.filter_cons_of_neg (by simpa using h)]
      simp only [List.length_cons]
      omega

/-- Lengths of the lists after the block of the requested names, from a
state whose lists of variables and values are empty. -/
theorem initSpecified_lengths (mc : ModelConfig) (ws : Bool) (s s2 : InitState)
    (hv : s.specifiedVars = []) (hw : s.specifiedVals = [])
    (h : initSpecified mc ws s = .ok s2) :
    s2.poiList = s.poiList ∧
    s2.specifiedVars.length = s2.specifiedVals.length ∧
    (s.specifiedNuis = [] ∨ ws = false →
      s2.specifiedNuis.length = s2.specifiedVars.length + s.specifiedNuis.length) ∧
    (s.specifiedNuis ≠ [] → ws = true →
      s2.specifiedNuis.length = s2.specifiedVars.length +
        ((if s.specifiedNuis.length = 1 ∧ s.specifiedNuis.getD 0 "" = "all" then mc.nuisances
          else s.specifiedNuis).filter (fun n => decide (n ∈ s.poiList))).length) := by
  unfold initSpecified at h
  by_cases hc : (!s.specifiedNuis.isEmpty && ws) = true
  · rw [if_pos hc] at h
    have hne : s.specifiedNuis ≠ [] := by
      intro e; rw [e] at hc; simp at hc
    have hws : ws = true := by
      cases ws
      · simp at hc
      · rfl
    by_cases hall : s.specifiedNuis.length = 1 ∧ s.specifiedNuis.getD 0 "" = "all"
    · rw [if_pos hall] at h
      obtain ⟨h1, h2, h3, h4⟩ := initNuisances_fields mc _ _ _ h
      simp only [hv, hw, List.length_nil, Nat.zero_add] at h3 h4
      refine ⟨h2, by rw [h3, h4], fun hno => ?_, fun _ _ => ?_⟩
      · rcases hno with e | e
        · exact absurd e hne
        · rw [hws] at e; exact absurd e (by decide)
      · rw [if_pos hall, h1, h3]
        exact filter_mem_split _ _
    · rw [if_neg hall] at h
      obtain ⟨h1, h2, h3, h4⟩ := initNuisances_fields mc _ _ _ h
      simp only [hv, hw, List.length_nil, Nat.zero_add] at h3 h4
      refine ⟨h2, by rw [h3, h4], fun hno => ?_, fun _ _ => ?_⟩
      · rcases hno with e | e
        · exact absurd e hne
        · rw [hws] at e; exact absurd e (by decide)
      · rw [if_neg hall, h1, h3]
        exact filter_mem_split _ _
  · rw [if_neg hc] at h
    simp only [Except.ok.injEq] at h
    subst h
    refine ⟨rfl, by rw [hv, hw]; rfl, fun _ => by rw [hv]; simp, fun hne hws => ?_⟩
    exfalso
    apply hc
    rw [hws]
    cases hs : s.specifiedNuis with
    | nil => exact absurd hs hne
    | cons a l => rfl

/-- C25: after a successful `initOnce` the lists `specifiedVars_` and
`specifiedVals_` have the same length, but `specifiedNuis_` is longer by
every requested name that was not turned into a variable: by all requested
names when the run has no systematics (the block of lines 181-200 is
skipped), and with systematics by the requested names that are parameters
of interest (skipped by `continue`, line 193). Without systematics and with
a requested name the copy loop over `specifiedNuis_.size()` indexes
`specifiedVars_` and `specifiedVals_` out of range. -/
theorem initOnce_specified_lengths (mc : ModelConfig) (withSystematics saveInactivePOI : Bool)
    (poi specifiedNuis : List String) (s : InitState)
    (h : initOnce mc withSystematics saveInactivePOI poi specifiedNuis = .ok s) :
    s.specifiedVars.length = s.specifiedVals.length ∧
    (specifiedNuis = [] ∨ withSystematics = false →
      s.specifiedNuis.length = s.specifiedVars.length + specifiedNuis.length) ∧
    (specifiedNuis ≠ [] → withSystematics = true →
      s.specifiedNuis.length = s.specifiedVars.length +
        ((if specifiedNuis.length = 1 ∧ specifiedNuis.getD 0 "" = "all" then mc.nuisances
          else specifiedNuis).filter (fun n => decide (n ∈ s.poiList))).length) ∧
    (specifiedNuis ≠ [] → withSystematics = false →
      ¬ ∀ j, j < s.specifiedNuis.length →
        j < s.specifiedVars.length ∧ j < s.specifiedVals.length) := by
  have main : s.specifiedVars.length = s.specifiedVals.length ∧
      (specifiedNuis = [] ∨ withSystematics = false →
        s.specifiedNuis.length = s.specifiedVars.length + specifiedNuis.length) ∧
      (specifiedNuis ≠ [] → withSystematics = true →
        s.specifiedNuis.length = s.specifiedVars.length +
          ((if specifiedNuis.length = 1 ∧ specifiedNuis.getD 0 "" = "all" then mc.nuisances
            else specifiedNuis).filter (fun n => decide (n ∈ s.poiList))).length) := by
    simp only [initOnce] at h
    split at h
    · exact absurd h (by simp)
    · rename_i s1 h1
      obtain ⟨p1, p2, p3, _, _⟩ := initPois_fields mc _ _ _ h1
      simp only [] at p1 p2 p3
      split at h
      · exact absurd h (by simp)
      · rename_i s2 h2
        obtain ⟨q0, q1, q2, q3⟩ := initSpecified_lengths mc withSystematics s1 s2 p2 p3 h2
        rw [p1] at q2 q3
        simp only [Except.ok.injEq] at h
        by_cases hsi : saveInactivePOI = true
        · rw [if_pos hsi] at h
          obtain ⟨r0, k, r1, r2, r3⟩ := initInactive_fields mc mc.pois s2
          rw [h] at r0 r1 r2 r3
          refine ⟨by omega, fun hno => ?_, fun hne hws => ?_⟩
          · have := q2 hno; omega
          · have := q3 hne hws
            rw [r0, q0]; omega
        · rw [if_neg hsi] at h
          subst h
          refine ⟨q1, q2, fun hne hws => ?_⟩
          rw [q0]; exact q3 hne hws
  refine ⟨main.1, main.2.1, main.2.2, ?_⟩
  intro hne hws hall
  have e := main.2.1 (Or.inr hws)
  have hpos : 0 < specifiedNuis.length := List.length_pos.mpr hne
  have := (hall s.specifiedVars.length (by omega)).1
  omega

/-- Witness for C25: the parameter of interest `r`, the requested name `n1`
and no systematics: `initOnce` leaves `specifiedNuis_` with one name and
`specifiedVars_`, `specifiedVals_` empty, and the copy loop reads
`specifiedVars_[0]`. -/
theorem initOnce_specified_lengths_witness :
    initOnce sampleConfig false false ["r"] ["n1"] =
      .ok ⟨["r"], ["r"], [1], ["r"], ["n1"], [], [], []⟩ ∧
    (["n1"] : List String) ≠ [] ∧
    ¬ ∀ j, j < (⟨["r"], ["r"], [1], ["r"], ["n1"], [], [], []⟩ : InitState).specifiedNuis.length →
      j < (⟨["r"], ["r"], [1], ["r"], ["n1"], [], [], []⟩ : InitState).specifiedVars.length ∧
      j < (⟨["r"], ["r"], [1], ["r"], ["n1"], [], [], []⟩ : InitState).specifiedVals.length :=
  ⟨rfl, by decide,
    (initOnce_specified_lengths sampleConfig false false ["r"] ["n1"]
      ⟨["r"], ["r"], [1], ["r"], ["n1"], [], [], []⟩ rfl).2.2.2 (by decide) rfl⟩

/-- With systematics, the requested names `n1` and `r` and the parameter of
interest `r` (which is a nuisance parameter of `sampleConfig` too): the name
`r` is skipped, so `specifiedNuis_` has two names for one variable. -/
theorem initOnce_poi_name_skipped :
    initOnce sampleConfig true false ["r"] ["n1", "r"] =
      .ok ⟨["r"], ["r"], [1], ["r"], ["n1", "r"], ["n1"], [1], ["n1"]⟩ := rfl

/-- With `firstPoint_ = 0` the loop over the combinations runs its body on
the first `m` combinations, one after the other, where `m` covers every
combination or every position up to `lastPoint_`. -/
theorem gridLoopN_taken (o : Options) (body : List Int → Scan σ → Bool × Scan σ)
    (hfirst : o.firstPoint = 0) :
    ∀ (perms : List (List Int)) (ip : Nat) (st : Scan σ), ∃ m, m ≤ perms.length ∧
      (perms.length ≤ m ∨ o.lastPoint + 1 ≤ ip + m) ∧
      gridLoopN o body perms ip st = (perms.take m).foldl (fun s perm => (body perm s).2) st := by
  intro perms
  induction perms with
  | nil => intro ip st; exact ⟨0, le_refl _, Or.inl (le_refl _), rfl⟩
  | cons perm rest ih =>
    intro ip st
    simp only [gridLoopN]
    rw [if_neg (by omega)]
    by_cases hl : ip > o.lastPoint
    · rw [if_pos hl]
      exact ⟨0, Nat.zero_le _, Or.inr (by omega), rfl⟩
    · rw [if_neg hl]
      obtain ⟨m, hm, hcov, e⟩ := ih (if (body perm st).1 = true then ip + 1 else ip)
        (body perm st).2
      refine ⟨m + 1, by simp only [List.length_cons]; omega, ?_, by rw [e]; rfl⟩
      rcases hcov with h | h
      · exact Or.inl (by simp only [List.length_cons]; omega)
      · right
        split at h <;> omega

/-- With a number of parameters of interest other than 1 and 2 `doGrid`
runs the loop over the combinations. -/
theorem doGrid_many (env : Collab σ) (o : Options) (st : Scan σ)
    (h1 : st.poiVals.length ≠ 1) (h2 : st.poiVals.length ≠ 2) :
    doGrid env o st =
      gridLoopN o (gridPointN env o (env.getVal st.model) (gridSnapshot env st) st.poiVals.length
          (gridPmin env st) (gridPmax env st) (gridRoot env st.poiVals.length o.points))
        (env.generateCombinations
          (List.replicate st.poiVals.length ((gridRoot env st.poiVals.length o.points : Nat) : Int)))
        0 { st with model := gridSnapshot env st } := by
  simp only [doGrid, if_neg h1, if_neg h2, doGridN]

/-- C4: with two parameters of interest the scan runs its body exactly on
the in-range lattice indices, and a point whose unprofiled evaluation
reports evaluation errors is committed at its own coordinates with
`deltaNLL = 9999` and quantile 0 without a call of the minimizer (in 3x3 mode
followed by 8 sentinel rows). With more than two parameters of interest the
body does the same for a combination, and with `firstPoint_ = 0` the scan
runs it on every combination at a position up to `lastPoint_`; but with
`firstPoint_ > 0` the counter `ipoint` never leaves 0 and the scan commits
no row at all, also not for the in-range combinations with evaluation
errors. -/
theorem grid_invalid_point_sentinel (env : Collab σ) (o : Options) :
    (∀ (st : Scan σ), st.poiVals.length = 2 →
      doGrid env o st
        = (scanned o (ceilSqrt o.points * ceilSqrt o.points)).foldl
            (fun st1 p =>
              gridPoint2 env o (env.getVal st.model) (gridSnapshot env st)
                ((gridPmin env st).getD 0 0) ((gridPmin env st).getD 1 0)
                (((gridPmax env st).getD 0 0 - (gridPmin env st).getD 0 0) / ceilSqrt o.points)
                (((gridPmax env st).getD 1 0 - (gridPmin env st).getD 1 0) / ceilSqrt o.points)
                (p / ceilSqrt o.points) (p % ceilSqrt o.points) st1)
            { st with model := gridSnapshot env st }) ∧
    (∀ (nll0 : ℚ) (snap : σ) (pmin0 pmin1 dX dY : ℚ) (i j : Nat) (st : Scan σ),
      st.poiVals.length = 2 →
      0 < env.numEvalErrors
        (pointState env snap (cellCentre pmin0 dX i) (cellCentre pmin1 dY j) st.model) →
      (gridPoint2 env o nll0 snap pmin0 pmin1 dX dY i j st).minimCalls = st.minimCalls ∧
      ∃ rest, (gridPoint2 env o nll0 snap pmin0 pmin1 dX dY i j st).committed
          = st.committed ++ ⟨[cellCentre pmin0 dX i, cellCentre pmin1 dY j], 9999, 0,
              env.specified
                (pointState env snap (cellCentre pmin0 dX i) (cellCentre pmin1 dY j) st.model)⟩
            :: rest ∧
        (∀ q, q ∈ rest → q.deltaNLL = 9999 ∧ q.quantile = 0) ∧
        (o.gridType = GridType.G1x1 → rest = [])) ∧
    (∀ (nll0 : ℚ) (snap : σ) (n : Nat) (pmin pmax : List ℚ) (rootn : Nat) (perm : List Int)
        (st : Scan σ),
      st.poiVals.length = n →
      0 < env.numEvalErrors (combinationScan env snap n pmin pmax rootn perm st).model →
      (gridPointN env o nll0 snap n pmin pmax rootn perm st).2.minimCalls = st.minimCalls ∧
      (gridPointN env o nll0 snap n pmin pmax rootn perm st).2.committed
        = st.committed ++ [⟨(List.range n).map (fun a =>
              pmin.getD a 0 + (pmax.getD a 0 - pmin.getD a 0) / rootn
                * (((perm.getD a 0 : Int) : ℚ) + 1/2)), 9999, 0,
            env.specified (combinationScan env snap n pmin pmax rootn perm st).model⟩]) ∧
    (∀ (st : Scan σ), 2 < st.poiVals.length → o.firstPoint = 0 →
      ∃ m, m ≤ (env.generateCombinations (List.replicate st.poiVals.length
            ((gridRoot env st.poiVals.length o.points : Nat) : Int))).length ∧
        ((env.generateCombinations (List.replicate st.poiVals.length
            ((gridRoot env st.poiVals.length o.points : Nat) : Int))).length ≤ m ∨
          o.lastPoint + 1 ≤ m) ∧
        doGrid env o st =
          ((env.generateCombinations (List.replicate st.poiVals.length
              ((gridRoot env st.poiVals.length o.points : Nat) : Int))).take m).foldl
            (fun s perm =>
              (gridPointN env o (env.getVal st.model) (gridSnapshot env st) st.poiVals.length
                (gridPmin env st) (gridPmax env st) (gridRoot env st.poiVals.length o.points)
                perm s).2)
            { st with model := gridSnapshot env st }) ∧
    (∀ (st : Scan σ), 2 < st.poiVals.length → 0 < o.firstPoint →
      doGrid env o st = { st with model := gridSnapshot env st }) := by
  refine ⟨?_, ?_, ?_, ?_, ?_⟩
  · intro st hlen
    rw [doGrid_two env o st hlen, doGrid2_eq_foldl]
  · intro nll0 snap pmin0 pmin1 dX dY i j st hlen herr
    unfold gridPoint2
    simp only [gt_iff_lt, herr, if_true]
    by_cases hg : o.gridType = GridType.G3x3
    · simp only [hg, if_true]
      obtain ⟨e1, rest, e2, _, e3⟩ := loop3x3_invalid_rows env (cellCentre pmin0 dX i)
        (cellCentre pmin1 dY j) dX dY (commitInvalid env
          { st with poiVals := (st.poiVals.set 0 (cellCentre pmin0 dX i)).set 1
                      (cellCentre pmin1 dY j),
                    model := pointState env snap (cellCentre pmin0 dX i)
                      (cellCentre pmin1 dY j) st.model })
      refine ⟨by rw [e1]; rfl, rest, ?_, e3, ?_⟩
      · rw [e2, commitInvalid_committed, set_set_two _ _ _ hlen, List.append_assoc]
        rfl
      · intro h
        exact absurd h (by decide)
    · simp only [hg, if_false]
      refine ⟨rfl, [], ?_, by simp, fun _ => rfl⟩
      rw [commitInvalid_committed, set_set_two _ _ _ hlen]
  · intro nll0 snap n pmin pmax rootn perm st hlen herr
    obtain ⟨e1, e2, e3⟩ := setCombination_fields env pmin pmax rootn perm n 0
      { st with model := env.assign snap st.model }
    unfold gridPointN
    simp only [gt_iff_lt, herr, if_true]
    refine ⟨e2, ?_⟩
    rw [commitInvalid_committed]
    unfold combinationScan
    rw [e1, e3 (by simp [hlen])]
    simp [List.range_eq_range']
  · intro st hlen hfirst
    rw [doGrid_many env o st (by omega) (by omega)]
    obtain ⟨m, hm, hcov, e⟩ := gridLoopN_taken o
      (gridPointN env o (env.getVal st.model) (gridSnapshot env st) st.poiVals.length
        (gridPmin env st) (gridPmax env st) (gridRoot env st.poiVals.length o.points)) hfirst
      (env.generateCombinations (List.replicate st.poiVals.length
        ((gridRoot env st.poiVals.length o.points : Nat) : Int))) 0
      { st with model := gridSnapshot env st }
    exact ⟨m, hm, by simpa using hcov, e⟩
  · intro st hlen hfirst
    rw [doGrid_many env o st (by omega) (by omega)]
    exact gridLoopN_first_pos o _ hfirst _ _

/-- Witness for C4: three parameters of interest on `[0, 1]`, budget 8 (two
cells per axis), a model with an evaluation error at every point and the
range filter `[1, max]`: the combination `(0, 0, 1)` at position 1 is in
range and has evaluation errors, and the scan commits nothing; with the
filter `[0, max]` all eight sentinel rows are committed. -/
theorem grid_invalid_point_sentinel_witness :
    2 < (startScan [0, 0, 0]).poiVals.length ∧
    0 < ({ points := 8, firstPoint := 1 } : Options).firstPoint ∧
    gridRoot (listEnv (fun _ => 0) (fun _ => 1) true none) 3 8 = 2 ∧
    ((listEnv (fun _ => 0) (fun _ => 1) true none).generateCombinations [2, 2, 2]).getD 1 []
      = [0, 0, 1] ∧
    inRange { points := 8, firstPoint := 1 } 1 = true ∧
    0 < (listEnv (fun _ => 0) (fun _ => 1) true none).numEvalErrors
      (combinationScan (listEnv (fun _ => 0) (fun _ => 1) true none) [0, 0, 0] 3
        [0, 0, 0] [1, 1, 1] 2 [0, 0, 1] (startScan [0, 0, 0])).model ∧
    doGrid (listEnv (fun _ => 0) (fun _ => 1) true none) { points := 8, firstPoint := 1 }
        (startScan [0, 0, 0]) =
      { startScan [0, 0, 0] with
        model := gridSnapshot (listEnv (fun _ => 0) (fun _ => 1) true none)
          (startScan [0, 0, 0]) } ∧
    (doGrid (listEnv (fun _ => 0) (fun _ => 1) true none) { points := 8, firstPoint := 1 }
      (startScan [0, 0, 0])).committed = [] ∧
    (doGrid (listEnv (fun _ => 0) (fun _ => 1) true none) { points := 8, firstPoint := 0 }
      (startScan [0, 0, 0])).committed.map (fun r => r.deltaNLL)
      = [9999, 9999, 9999, 9999, 9999, 9999, 9999, 9999] :=
  ⟨by decide, by decide, by decide!, by decide, by decide, by decide,
    (grid_invalid_point_sentinel (listEnv (fun _ => 0) (fun _ => 1) true none)
      { points := 8, firstPoint := 1 }).2.2.2.2 (startScan [0, 0, 0]) (by decide) (by decide),
    by decide!, by decide!⟩

end MultiDimFit
